import Mathlib

/-!
# The openpgp-mobile bridge: `bridge/call.go`

A shallow embedding of the name-based dispatcher `Call`, its per-operation
handlers, the request-option decoders and the five response encoders.

Go values are represented as follows.

* `string` and the content of a `[]byte` are lists of octets; a `[]byte` itself is an
  `Option` whose `none` is the nil slice, so that `input == nil` can be observed.
* a pointer is an `Option` whose `none` is the nil pointer.
* `error` is an `Option GoError`; `err.Error()` is the field `Error`.
* `int`, `int32` and `int64` values are integers; the only conversions in the file are
  the widening ones `int(int32)` and `int64(int)`, which keep the value.
* a call either returns or is unwound by a run-time panic (`Outcome`).

Three collaborators of `call.go` live outside the file: the crypto engine (package
`openpgp`), the generated schema accessors (package `model`) and the FlatBuffers builder.
The engine is a parameter. A request reader panics on a buffer too short to hold a root
offset and is a parameter beyond that. The builder is modelled at the level of objects and
table slots, a scalar slot equal to its schema default is not written, and the byte layout
of a finished buffer is a parameter (`Wire`).
-/

/-! ## Go values -/

/-- One octet. -/
abbrev Byte := Fin 256

/-- The octets held by a Go string or byte slice. -/
abbrev Bytes := List Byte

/-- Go `string`: an immutable sequence of octets (not necessarily valid UTF-8). -/
abbrev GoString := List Byte

/-- Go `[]byte`: `none` is the nil slice, `some []` an empty non-nil slice. -/
abbrev GoBytes := Option Bytes

/-- The octets of a Go string literal (its UTF-8 encoding). -/
def lit (s : String) : GoString :=
  (s.data.flatMap String.utf8EncodeChar).map (fun b => b.val)

/-- Go `error` value; `Error` is the text `err.Error()` returns. -/
structure GoError where
  Error : GoString
deriving DecidableEq

/-- How a Go call ends: it returns a value, or a run-time panic unwinds it. -/
inductive Outcome (α : Type) where
  | returned (value : α)
  | panicked
deriving DecidableEq

/-- Whether the call returned. -/
def Outcome.isReturned {α : Type} : Outcome α → Bool
  | Outcome.returned _ => true
  | Outcome.panicked => false

namespace fmt

/-- Go `fmt.Errorf(format, arg)` for a format made of literal text followed by one `%s` verb:
the message is the literal text followed by the octets of `arg`. -/
def Errorf (text : GoString) (arg : GoString) : GoError :=
  { Error := text ++ arg }

end fmt

/-! ## Package `openpgp`: the types the bridge builds and the engine it calls -/

namespace openpgp

/-- Go struct `openpgp.KeyOptions`, as the composite literal in `parseKeyOptions` fills it.
The field defaults are Go zero values, so `{}` is `openpgp.KeyOptions{}`. -/
structure KeyOptions where
  Hash : GoString := []
  Cipher : GoString := []
  Compression : GoString := []
  CompressionLevel : Int := 0
  RSABits : Int := 0
deriving DecidableEq

/-- Go struct `openpgp.Options`, as the composite literals in `parseOptions` fill it. -/
structure Options where
  KeyOptions : Option KeyOptions := none
  Name : GoString := []
  Comment : GoString := []
  Email : GoString := []
  Passphrase : GoString := []
deriving DecidableEq

/-- Go struct `openpgp.FileHints`, as the composite literal in `parseFileHints` fills it. -/
structure FileHints where
  IsBinary : Bool := false
  FileName : GoString := []
  ModTime : GoString := []
deriving DecidableEq

/-- Go struct `openpgp.Entity`, as the composite literal in `parseEntity` fills it. -/
structure Entity where
  PublicKey : GoString := []
  PrivateKey : GoString := []
  Passphrase : GoString := []
deriving DecidableEq

/-- Go struct `openpgp.KeyPair`, with the two fields `_keyPairResponse` reads. -/
structure KeyPair where
  PublicKey : GoString := []
  PrivateKey : GoString := []
deriving DecidableEq

/-- The engine handle `*openpgp.FastOpenPGP`: one method per operation, each a black box
returning a `(result, error)` pair. Argument and result types are those of the call sites
in `call.go`. -/
structure FastOpenPGP where
  Decrypt : GoString → GoString → GoString → Option KeyOptions → GoString × Option GoError
  DecryptFile : GoString → GoString → GoString → GoString → Option KeyOptions →
    Int × Option GoError
  DecryptBytes : GoBytes → GoString → GoString → Option KeyOptions →
    GoBytes × Option GoError
  Encrypt : GoString → GoString → Option Entity → Option FileHints → Option KeyOptions →
    GoString × Option GoError
  EncryptFile : GoString → GoString → GoString → Option Entity → Option FileHints →
    Option KeyOptions → Int × Option GoError
  EncryptBytes : GoBytes → GoString → Option Entity → Option FileHints →
    Option KeyOptions → GoBytes × Option GoError
  Sign : GoString → GoString → GoString → GoString → Option KeyOptions →
    GoString × Option GoError
  SignFile : GoString → GoString → GoString → GoString → Option KeyOptions →
    GoString × Option GoError
  SignBytes : GoBytes → GoString → GoString → GoString → Option KeyOptions →
    GoBytes × Option GoError
  SignBytesToString : GoBytes → GoString → GoString → GoString → Option KeyOptions →
    GoString × Option GoError
  Verify : GoString → GoString → GoString → Bool × Option GoError
  VerifyFile : GoString → GoString → GoString → Bool × Option GoError
  VerifyBytes : GoString → GoBytes → GoString → Bool × Option GoError
  DecryptSymmetric : GoString → GoString → Option KeyOptions → GoString × Option GoError
  DecryptSymmetricFile : GoString → GoString → GoString → Option KeyOptions →
    Int × Option GoError
  DecryptSymmetricBytes : GoBytes → GoString → Option KeyOptions →
    GoBytes × Option GoError
  EncryptSymmetric : GoString → GoString → Option FileHints → Option KeyOptions →
    GoString × Option GoError
  EncryptSymmetricFile : GoString → GoString → GoString → Option FileHints →
    Option KeyOptions → Int × Option GoError
  EncryptSymmetricBytes : GoBytes → GoString → Option FileHints → Option KeyOptions →
    GoBytes × Option GoError
  Generate : Option Options → Option KeyPair × Option GoError
  ArmorEncode : GoBytes → GoString × Option GoError

/-- One invocation of an engine method, with the arguments it received. -/
inductive EngineCall where
  | Decrypt (message privateKey passphrase : GoString) (options : Option KeyOptions)
  | DecryptFile (input output privateKey passphrase : GoString) (options : Option KeyOptions)
  | DecryptBytes (message : GoBytes) (privateKey passphrase : GoString)
      (options : Option KeyOptions)
  | Encrypt (message publicKey : GoString) (signed : Option Entity)
      (fileHints : Option FileHints) (options : Option KeyOptions)
  | EncryptFile (input output publicKey : GoString) (signed : Option Entity)
      (fileHints : Option FileHints) (options : Option KeyOptions)
  | EncryptBytes (message : GoBytes) (publicKey : GoString) (signed : Option Entity)
      (fileHints : Option FileHints) (options : Option KeyOptions)
  | Sign (message publicKey privateKey passphrase : GoString) (options : Option KeyOptions)
  | SignFile (input publicKey privateKey passphrase : GoString) (options : Option KeyOptions)
  | SignBytes (message : GoBytes) (publicKey privateKey passphrase : GoString)
      (options : Option KeyOptions)
  | SignBytesToString (message : GoBytes) (publicKey privateKey passphrase : GoString)
      (options : Option KeyOptions)
  | Verify (signature message publicKey : GoString)
  | VerifyFile (signature input publicKey : GoString)
  | VerifyBytes (signature : GoString) (message : GoBytes) (publicKey : GoString)
  | DecryptSymmetric (message passphrase : GoString) (options : Option KeyOptions)
  | DecryptSymmetricFile (input output passphrase : GoString) (options : Option KeyOptions)
  | DecryptSymmetricBytes (message : GoBytes) (passphrase : GoString)
      (options : Option KeyOptions)
  | EncryptSymmetric (message passphrase : GoString) (fileHints : Option FileHints)
      (options : Option KeyOptions)
  | EncryptSymmetricFile (input output passphrase : GoString) (fileHints : Option FileHints)
      (options : Option KeyOptions)
  | EncryptSymmetricBytes (message : GoBytes) (passphrase : GoString)
      (fileHints : Option FileHints) (options : Option KeyOptions)
  | Generate (options : Option Options)
  | ArmorEncode (packet : GoBytes)
deriving DecidableEq

/-- A log entry: which engine method ran on which arguments, and the error it returned. -/
structure EngineEvent where
  call : EngineCall
  err : Option GoError
deriving DecidableEq

end openpgp

/-- What a handler did: the engine invocations it made, in order, and how it ended. -/
structure Run (α : Type) where
  trace : List openpgp.EngineEvent
  outcome : Outcome α
deriving DecidableEq

namespace openpgp

/-- An engine result together with the log entry of the invocation that produced it. -/
structure Invoked (α : Type) where
  output : α
  err : Option GoError
  event : EngineEvent

/-- Engine method `Decrypt`, logged. -/
def FastOpenPGP.invokeDecrypt (o : FastOpenPGP) (message privateKey passphrase : GoString)
    (options : Option KeyOptions) : Invoked GoString :=
  let r := o.Decrypt message privateKey passphrase options
  ⟨r.1, r.2, ⟨.Decrypt message privateKey passphrase options, r.2⟩⟩

/-- Engine method `DecryptFile`, logged. -/
def FastOpenPGP.invokeDecryptFile (o : FastOpenPGP) (input output privateKey passphrase : GoString)
    (options : Option KeyOptions) : Invoked Int :=
  let r := o.DecryptFile input output privateKey passphrase options
  ⟨r.1, r.2, ⟨.DecryptFile input output privateKey passphrase options, r.2⟩⟩

/-- Engine method `DecryptBytes`, logged. -/
def FastOpenPGP.invokeDecryptBytes (o : FastOpenPGP) (message : GoBytes)
    (privateKey passphrase : GoString) (options : Option KeyOptions) : Invoked GoBytes :=
  let r := o.DecryptBytes message privateKey passphrase options
  ⟨r.1, r.2, ⟨.DecryptBytes message privateKey passphrase options, r.2⟩⟩

/-- Engine method `Encrypt`, logged. -/
def FastOpenPGP.invokeEncrypt (o : FastOpenPGP) (message publicKey : GoString)
    (signed : Option Entity) (fileHints : Option FileHints) (options : Option KeyOptions) :
    Invoked GoString :=
  let r := o.Encrypt message publicKey signed fileHints options
  ⟨r.1, r.2, ⟨.Encrypt message publicKey signed fileHints options, r.2⟩⟩

/-- Engine method `EncryptFile`, logged. -/
def FastOpenPGP.invokeEncryptFile (o : FastOpenPGP) (input output publicKey : GoString)
    (signed : Option Entity) (fileHints : Option FileHints) (options : Option KeyOptions) :
    Invoked Int :=
  let r := o.EncryptFile input output publicKey signed fileHints options
  ⟨r.1, r.2, ⟨.EncryptFile input output publicKey signed fileHints options, r.2⟩⟩

/-- Engine method `EncryptBytes`, logged. -/
def FastOpenPGP.invokeEncryptBytes (o : FastOpenPGP) (message : GoBytes) (publicKey : GoString)
    (signed : Option Entity) (fileHints : Option FileHints) (options : Option KeyOptions) :
    Invoked GoBytes :=
  let r := o.EncryptBytes message publicKey signed fileHints options
  ⟨r.1, r.2, ⟨.EncryptBytes message publicKey signed fileHints options, r.2⟩⟩

/-- Engine method `Sign`, logged. -/
def FastOpenPGP.invokeSign (o : FastOpenPGP) (message publicKey privateKey passphrase : GoString)
    (options : Option KeyOptions) : Invoked GoString :=
  let r := o.Sign message publicKey privateKey passphrase options
  ⟨r.1, r.2, ⟨.Sign message publicKey privateKey passphrase options, r.2⟩⟩

/-- Engine method `SignFile`, logged. -/
def FastOpenPGP.invokeSignFile (o : FastOpenPGP) (input publicKey privateKey passphrase : GoString)
    (options : Option KeyOptions) : Invoked GoString :=
  let r := o.SignFile input publicKey privateKey passphrase options
  ⟨r.1, r.2, ⟨.SignFile input publicKey privateKey passphrase options, r.2⟩⟩

/-- Engine method `SignBytes`, logged. -/
def FastOpenPGP.invokeSignBytes (o : FastOpenPGP) (message : GoBytes)
    (publicKey privateKey passphrase : GoString) (options : Option KeyOptions) :
    Invoked GoBytes :=
  let r := o.SignBytes message publicKey privateKey passphrase options
  ⟨r.1, r.2, ⟨.SignBytes message publicKey privateKey passphrase options, r.2⟩⟩

/-- Engine method `SignBytesToString`, logged. -/
def FastOpenPGP.invokeSignBytesToString (o : FastOpenPGP) (message : GoBytes)
    (publicKey privateKey passphrase : GoString) (options : Option KeyOptions) :
    Invoked GoString :=
  let r := o.SignBytesToString message publicKey privateKey passphrase options
  ⟨r.1, r.2, ⟨.SignBytesToString message publicKey privateKey passphrase options, r.2⟩⟩

/-- Engine method `Verify`, logged. -/
def FastOpenPGP.invokeVerify (o : FastOpenPGP) (signature message publicKey : GoString) :
    Invoked Bool :=
  let r := o.Verify signature message publicKey
  ⟨r.1, r.2, ⟨.Verify signature message publicKey, r.2⟩⟩

/-- Engine method `VerifyFile`, logged. -/
def FastOpenPGP.invokeVerifyFile (o : FastOpenPGP) (signature input publicKey : GoString) :
    Invoked Bool :=
  let r := o.VerifyFile signature input publicKey
  ⟨r.1, r.2, ⟨.VerifyFile signature input publicKey, r.2⟩⟩

/-- Engine method `VerifyBytes`, logged. -/
def FastOpenPGP.invokeVerifyBytes (o : FastOpenPGP) (signature : GoString) (message : GoBytes)
    (publicKey : GoString) : Invoked Bool :=
  let r := o.VerifyBytes signature message publicKey
  ⟨r.1, r.2, ⟨.VerifyBytes signature message publicKey, r.2⟩⟩

/-- Engine method `DecryptSymmetric`, logged. -/
def FastOpenPGP.invokeDecryptSymmetric (o : FastOpenPGP) (message passphrase : GoString)
    (options : Option KeyOptions) : Invoked GoString :=
  let r := o.DecryptSymmetric message passphrase options
  ⟨r.1, r.2, ⟨.DecryptSymmetric message passphrase options, r.2⟩⟩

/-- Engine method `DecryptSymmetricFile`, logged. -/
def FastOpenPGP.invokeDecryptSymmetricFile (o : FastOpenPGP) (input output passphrase : GoString)
    (options : Option KeyOptions) : Invoked Int :=
  let r := o.DecryptSymmetricFile input output passphrase options
  ⟨r.1, r.2, ⟨.DecryptSymmetricFile input output passphrase options, r.2⟩⟩

/-- Engine method `DecryptSymmetricBytes`, logged. -/
def FastOpenPGP.invokeDecryptSymmetricBytes (o : FastOpenPGP) (message : GoBytes)
    (passphrase : GoString) (options : Option KeyOptions) : Invoked GoBytes :=
  let r := o.DecryptSymmetricBytes message passphrase options
  ⟨r.1, r.2, ⟨.DecryptSymmetricBytes message passphrase options, r.2⟩⟩

/-- Engine method `EncryptSymmetric`, logged. -/
def FastOpenPGP.invokeEncryptSymmetric (o : FastOpenPGP) (message passphrase : GoString)
    (fileHints : Option FileHints) (options : Option KeyOptions) : Invoked GoString :=
  let r := o.EncryptSymmetric message passphrase fileHints options
  ⟨r.1, r.2, ⟨.EncryptSymmetric message passphrase fileHints options, r.2⟩⟩

/-- Engine method `EncryptSymmetricFile`, logged. -/
def FastOpenPGP.invokeEncryptSymmetricFile (o : FastOpenPGP) (input output passphrase : GoString)
    (fileHints : Option FileHints) (options : Option KeyOptions) : Invoked Int :=
  let r := o.EncryptSymmetricFile input output passphrase fileHints options
  ⟨r.1, r.2, ⟨.EncryptSymmetricFile input output passphrase fileHints options, r.2⟩⟩

/-- Engine method `EncryptSymmetricBytes`, logged. -/
def FastOpenPGP.invokeEncryptSymmetricBytes (o : FastOpenPGP) (message : GoBytes)
    (passphrase : GoString) (fileHints : Option FileHints) (options : Option KeyOptions) :
    Invoked GoBytes :=
  let r := o.EncryptSymmetricBytes message passphrase fileHints options
  ⟨r.1, r.2, ⟨.EncryptSymmetricBytes message passphrase fileHints options, r.2⟩⟩

/-- Engine method `Generate`, logged. -/
def FastOpenPGP.invokeGenerate (o : FastOpenPGP) (options : Option Options) :
    Invoked (Option KeyPair) :=
  let r := o.Generate options
  ⟨r.1, r.2, ⟨.Generate options, r.2⟩⟩

/-- Engine method `ArmorEncode`, logged. -/
def FastOpenPGP.invokeArmorEncode (o : FastOpenPGP) (packet : GoBytes) : Invoked GoString :=
  let r := o.ArmorEncode packet
  ⟨r.1, r.2, ⟨.ArmorEncode packet, r.2⟩⟩

end openpgp

/-! ## Package `model`: the generated request readers

Each request type is the record of what its accessors return on a given buffer: a text or
byte field is a `[]byte` (nil when the field is absent), a nested message is a pointer
(nil when absent). Only the accessors `call.go` uses are listed. Reading can fail: the
generated readers index into the buffer and panic on one that is structurally corrupt. A
handler evaluates every accessor as an argument of its engine call, hence before that call,
so the outcome of reading a request is modelled as a whole: all the accessor results, or a
panic. -/

namespace model

/-- Enum code of `model.Hash`. -/
abbrev Hash := Int

/-- Enum code of `model.Cipher`. -/
abbrev Cipher := Int

/-- Enum code of `model.Compression`. -/
abbrev Compression := Int

/-- Accessors of `*model.KeyOptions`. -/
structure KeyOptions where
  Hash : Hash
  Cipher : Cipher
  Compression : Compression
  CompressionLevel : Int
  RsaBits : Int
deriving DecidableEq

/-- Accessors of `*model.Options`. -/
structure Options where
  KeyOptions : Option KeyOptions
  Name : GoBytes
  Comment : GoBytes
  Email : GoBytes
  Passphrase : GoBytes
deriving DecidableEq

/-- Accessors of `*model.FileHints`. -/
structure FileHints where
  IsBinary : Bool
  FileName : GoBytes
  ModTime : GoBytes
deriving DecidableEq

/-- Accessors of `*model.Entity`. -/
structure Entity where
  PublicKey : GoBytes
  PrivateKey : GoBytes
  Passphrase : GoBytes
deriving DecidableEq

/-- Accessors of `*model.DecryptRequest`. -/
structure DecryptRequest where
  Message : GoBytes
  PrivateKey : GoBytes
  Passphrase : GoBytes
  Options : Option KeyOptions

/-- Accessors of `*model.DecryptFileRequest`. -/
structure DecryptFileRequest where
  Input : GoBytes
  Output : GoBytes
  PrivateKey : GoBytes
  Passphrase : GoBytes
  Options : Option KeyOptions

/-- Accessors of `*model.DecryptBytesRequest`. -/
structure DecryptBytesRequest where
  MessageBytes : GoBytes
  PrivateKey : GoBytes
  Passphrase : GoBytes
  Options : Option KeyOptions

/-- Accessors of `*model.EncryptRequest`. -/
structure EncryptRequest where
  Message : GoBytes
  PublicKey : GoBytes
  Signed : Option Entity
  FileHints : Option FileHints
  Options : Option KeyOptions

/-- Accessors of `*model.EncryptFileRequest`. -/
structure EncryptFileRequest where
  Input : GoBytes
  Output : GoBytes
  PublicKey : GoBytes
  Signed : Option Entity
  FileHints : Option FileHints
  Options : Option KeyOptions

/-- Accessors of `*model.EncryptBytesRequest`. -/
structure EncryptBytesRequest where
  MessageBytes : GoBytes
  PublicKey : GoBytes
  Signed : Option Entity
  FileHints : Option FileHints
  Options : Option KeyOptions

/-- Accessors of `*model.SignRequest`. -/
structure SignRequest where
  Message : GoBytes
  PublicKey : GoBytes
  PrivateKey : GoBytes
  Passphrase : GoBytes
  Options : Option KeyOptions

/-- Accessors of `*model.SignFileRequest`. -/
structure SignFileRequest where
  Input : GoBytes
  PublicKey : GoBytes
  PrivateKey : GoBytes
  Passphrase : GoBytes
  Options : Option KeyOptions

/-- Accessors of `*model.SignBytesRequest`. -/
structure SignBytesRequest where
  MessageBytes : GoBytes
  PublicKey : GoBytes
  PrivateKey : GoBytes
  Passphrase : GoBytes
  Options : Option KeyOptions

/-- Accessors of `*model.VerifyRequest`. -/
structure VerifyRequest where
  Signature : GoBytes
  Message : GoBytes
  PublicKey : GoBytes

/-- Accessors of `*model.VerifyFileRequest`. -/
structure VerifyFileRequest where
  Signature : GoBytes
  Input : GoBytes
  PublicKey : GoBytes

/-- Accessors of `*model.VerifyBytesRequest`. -/
structure VerifyBytesRequest where
  Signature : GoBytes
  MessageBytes : GoBytes
  PublicKey : GoBytes

/-- Accessors of `*model.DecryptSymmetricRequest`. -/
structure DecryptSymmetricRequest where
  Message : GoBytes
  Passphrase : GoBytes
  Options : Option KeyOptions

/-- Accessors of `*model.DecryptSymmetricFileRequest`. -/
structure DecryptSymmetricFileRequest where
  Input : GoBytes
  Output : GoBytes
  Passphrase : GoBytes
  Options : Option KeyOptions

/-- Accessors of `*model.DecryptSymmetricBytesRequest`. -/
structure DecryptSymmetricBytesRequest where
  MessageBytes : GoBytes
  Passphrase : GoBytes
  Options : Option KeyOptions

/-- Accessors of `*model.EncryptSymmetricRequest`. -/
structure EncryptSymmetricRequest where
  Message : GoBytes
  Passphrase : GoBytes
  FileHints : Option FileHints
  Options : Option KeyOptions

/-- Accessors of `*model.EncryptSymmetricFileRequest`. -/
structure EncryptSymmetricFileRequest where
  Input : GoBytes
  Output : GoBytes
  Passphrase : GoBytes
  FileHints : Option FileHints
  Options : Option KeyOptions

/-- Accessors of `*model.EncryptSymmetricBytesRequest`. -/
structure EncryptSymmetricBytesRequest where
  MessageBytes : GoBytes
  Passphrase : GoBytes
  FileHints : Option FileHints
  Options : Option KeyOptions

/-- Accessors of `*model.GenerateRequest`. -/
structure GenerateRequest where
  Options : Option Options

/-- Accessors of `*model.ArmorEncodeRequest`. -/
structure ArmorEncodeRequest where
  PacketBytes : GoBytes

/-- What `call.go` takes from the generated package without defining it: the enum codes
named in the three option switches and, for every request type, what its table view and
accessors yield on a buffer (at a given offset) that is long enough to hold a root offset:
the fields, or a panic on a corrupt buffer. -/
structure Package where
  HashSHA256 : Hash
  HashSHA224 : Hash
  HashSHA384 : Hash
  HashSHA512 : Hash
  CipherAES128 : Cipher
  CipherAES192 : Cipher
  CipherAES256 : Cipher
  CompressionNONE : Compression
  CompressionZLIB : Compression
  CompressionZIP : Compression
  readDecryptRequest : GoBytes → Nat → Outcome DecryptRequest
  readDecryptFileRequest : GoBytes → Nat → Outcome DecryptFileRequest
  readDecryptBytesRequest : GoBytes → Nat → Outcome DecryptBytesRequest
  readEncryptRequest : GoBytes → Nat → Outcome EncryptRequest
  readEncryptFileRequest : GoBytes → Nat → Outcome EncryptFileRequest
  readEncryptBytesRequest : GoBytes → Nat → Outcome EncryptBytesRequest
  readSignRequest : GoBytes → Nat → Outcome SignRequest
  readSignFileRequest : GoBytes → Nat → Outcome SignFileRequest
  readSignBytesRequest : GoBytes → Nat → Outcome SignBytesRequest
  readVerifyRequest : GoBytes → Nat → Outcome VerifyRequest
  readVerifyFileRequest : GoBytes → Nat → Outcome VerifyFileRequest
  readVerifyBytesRequest : GoBytes → Nat → Outcome VerifyBytesRequest
  readDecryptSymmetricRequest : GoBytes → Nat → Outcome DecryptSymmetricRequest
  readDecryptSymmetricFileRequest : GoBytes → Nat → Outcome DecryptSymmetricFileRequest
  readDecryptSymmetricBytesRequest : GoBytes → Nat → Outcome DecryptSymmetricBytesRequest
  readEncryptSymmetricRequest : GoBytes → Nat → Outcome EncryptSymmetricRequest
  readEncryptSymmetricFileRequest : GoBytes → Nat → Outcome EncryptSymmetricFileRequest
  readEncryptSymmetricBytesRequest : GoBytes → Nat → Outcome EncryptSymmetricBytesRequest
  readGenerateRequest : GoBytes → Nat → Outcome GenerateRequest
  readArmorEncodeRequest : GoBytes → Nat → Outcome ArmorEncodeRequest

/-- The case constants of each option switch are pairwise different, which the Go compiler
requires of the constant cases of one switch. -/
def Package.CasesDistinct (p : Package) : Prop :=
  [p.HashSHA224, p.HashSHA384, p.HashSHA512, p.HashSHA256].Nodup ∧
  [p.CipherAES192, p.CipherAES256, p.CipherAES128].Nodup ∧
  [p.CompressionZIP, p.CompressionZLIB, p.CompressionNONE].Nodup

instance (p : Package) : Decidable p.CasesDistinct := by
  unfold Package.CasesDistinct
  exact inferInstance

/-- Modelled from the spec: the root reader `model.GetRootAs<T>(buf, offset)` of a generated
request type (not in `call.go`). A buffer that cannot hold the 4-octet root offset at
`offset` is structurally corrupt: the reader indexes these octets and panics. On any other
buffer the outcome is that of `read`, the table view with its accessors. -/
def GetRootAs {α : Type} (read : GoBytes → Nat → Outcome α) (buf : GoBytes) (offset : Nat) :
    Outcome α :=
  if (buf.getD []).length < offset + 4 then Outcome.panicked else read buf offset

/-- Generated reader `model.GetRootAsDecryptRequest`, with the accessors `call.go` uses. -/
def GetRootAsDecryptRequest (p : Package) (buf : GoBytes) (offset : Nat) : Outcome DecryptRequest :=
  GetRootAs p.readDecryptRequest buf offset

/-- Generated reader `model.GetRootAsDecryptFileRequest`, with the accessors `call.go` uses. -/
def GetRootAsDecryptFileRequest (p : Package) (buf : GoBytes) (offset : Nat) : Outcome DecryptFileRequest :=
  GetRootAs p.readDecryptFileRequest buf offset

/-- Generated reader `model.GetRootAsDecryptBytesRequest`, with the accessors `call.go` uses. -/
def GetRootAsDecryptBytesRequest (p : Package) (buf : GoBytes) (offset : Nat) : Outcome DecryptBytesRequest :=
  GetRootAs p.readDecryptBytesRequest buf offset

/-- Generated reader `model.GetRootAsEncryptRequest`, with the accessors `call.go` uses. -/
def GetRootAsEncryptRequest (p : Package) (buf : GoBytes) (offset : Nat) : Outcome EncryptRequest :=
  GetRootAs p.readEncryptRequest buf offset

/-- Generated reader `model.GetRootAsEncryptFileRequest`, with the accessors `call.go` uses. -/
def GetRootAsEncryptFileRequest (p : Package) (buf : GoBytes) (offset : Nat) : Outcome EncryptFileRequest :=
  GetRootAs p.readEncryptFileRequest buf offset

/-- Generated reader `model.GetRootAsEncryptBytesRequest`, with the accessors `call.go` uses. -/
def GetRootAsEncryptBytesRequest (p : Package) (buf : GoBytes) (offset : Nat) : Outcome EncryptBytesRequest :=
  GetRootAs p.readEncryptBytesRequest buf offset

/-- Generated reader `model.GetRootAsSignRequest`, with the accessors `call.go` uses. -/
def GetRootAsSignRequest (p : Package) (buf : GoBytes) (offset : Nat) : Outcome SignRequest :=
  GetRootAs p.readSignRequest buf offset

/-- Generated reader `model.GetRootAsSignFileRequest`, with the accessors `call.go` uses. -/
def GetRootAsSignFileRequest (p : Package) (buf : GoBytes) (offset : Nat) : Outcome SignFileRequest :=
  GetRootAs p.readSignFileRequest buf offset

/-- Generated reader `model.GetRootAsSignBytesRequest`, with the accessors `call.go` uses. -/
def GetRootAsSignBytesRequest (p : Package) (buf : GoBytes) (offset : Nat) : Outcome SignBytesRequest :=
  GetRootAs p.readSignBytesRequest buf offset

/-- Generated reader `model.GetRootAsVerifyRequest`, with the accessors `call.go` uses. -/
def GetRootAsVerifyRequest (p : Package) (buf : GoBytes) (offset : Nat) : Outcome VerifyRequest :=
  GetRootAs p.readVerifyRequest buf offset

/-- Generated reader `model.GetRootAsVerifyFileRequest`, with the accessors `call.go` uses. -/
def GetRootAsVerifyFileRequest (p : Package) (buf : GoBytes) (offset : Nat) : Outcome VerifyFileRequest :=
  GetRootAs p.readVerifyFileRequest buf offset

/-- Generated reader `model.GetRootAsVerifyBytesRequest`, with the accessors `call.go` uses. -/
def GetRootAsVerifyBytesRequest (p : Package) (buf : GoBytes) (offset : Nat) : Outcome VerifyBytesRequest :=
  GetRootAs p.readVerifyBytesRequest buf offset

/-- Generated reader `model.GetRootAsDecryptSymmetricRequest`, with the accessors `call.go` uses. -/
def GetRootAsDecryptSymmetricRequest (p : Package) (buf : GoBytes) (offset : Nat) : Outcome DecryptSymmetricRequest :=
  GetRootAs p.readDecryptSymmetricRequest buf offset

/-- Generated reader `model.GetRootAsDecryptSymmetricFileRequest`, with the accessors `call.go` uses. -/
def GetRootAsDecryptSymmetricFileRequest (p : Package) (buf : GoBytes) (offset : Nat) : Outcome DecryptSymmetricFileRequest :=
  GetRootAs p.readDecryptSymmetricFileRequest buf offset

/-- Generated reader `model.GetRootAsDecryptSymmetricBytesRequest`, with the accessors `call.go` uses. -/
def GetRootAsDecryptSymmetricBytesRequest (p : Package) (buf : GoBytes) (offset : Nat) : Outcome DecryptSymmetricBytesRequest :=
  GetRootAs p.readDecryptSymmetricBytesRequest buf offset

/-- Generated reader `model.GetRootAsEncryptSymmetricRequest`, with the accessors `call.go` uses. -/
def GetRootAsEncryptSymmetricRequest (p : Package) (buf : GoBytes) (offset : Nat) : Outcome EncryptSymmetricRequest :=
  GetRootAs p.readEncryptSymmetricRequest buf offset

/-- Generated reader `model.GetRootAsEncryptSymmetricFileRequest`, with the accessors `call.go` uses. -/
def GetRootAsEncryptSymmetricFileRequest (p : Package) (buf : GoBytes) (offset : Nat) : Outcome EncryptSymmetricFileRequest :=
  GetRootAs p.readEncryptSymmetricFileRequest buf offset

/-- Generated reader `model.GetRootAsEncryptSymmetricBytesRequest`, with the accessors `call.go` uses. -/
def GetRootAsEncryptSymmetricBytesRequest (p : Package) (buf : GoBytes) (offset : Nat) : Outcome EncryptSymmetricBytesRequest :=
  GetRootAs p.readEncryptSymmetricBytesRequest buf offset

/-- Generated reader `model.GetRootAsGenerateRequest`, with the accessors `call.go` uses. -/
def GetRootAsGenerateRequest (p : Package) (buf : GoBytes) (offset : Nat) : Outcome GenerateRequest :=
  GetRootAs p.readGenerateRequest buf offset

/-- Generated reader `model.GetRootAsArmorEncodeRequest`, with the accessors `call.go` uses. -/
def GetRootAsArmorEncodeRequest (p : Package) (buf : GoBytes) (offset : Nat) : Outcome ArmorEncodeRequest :=
  GetRootAs p.readArmorEncodeRequest buf offset

end model

/-! ## The FlatBuffers builder and the response schemas

`call.go` drives a `flatbuffers.Builder` through the generated `model.*Response*` helpers.
Neither is defined in `call.go`. They are modelled from the response contract: a finished
buffer is a collection of objects (texts, byte vectors, tables) addressed by offsets, a
table is a list of numbered slots, a slot that was added is present with the value given,
and a slot that was never added is absent. The generated helpers add a scalar slot through
`PrependInt64Slot(slot, x, 0)` and `PrependBoolSlot(slot, x, false)`, which write nothing when
`x` equals the default; a reader then gets the default back. The octets of a finished buffer
are produced by a `Wire`, which is a parameter. -/

namespace flatbuffers

/-- Offset of an object inside a buffer; 0 addresses nothing. -/
abbrev UOffsetT := Nat

/-- The content of one table slot. -/
inductive Field where
  | bool (x : Bool)
  | int64 (x : Int)
  | uoffset (x : UOffsetT)
deriving DecidableEq

/-- An object stored in a buffer. -/
inductive Object where
  | string (s : GoString)
  | byteVector (v : Bytes)
  | table (fields : List (Nat × Field))
deriving DecidableEq

/-- Modelled from the spec: the state of a `flatbuffers.Builder` (the library is not part
of `call.go`): the objects written so far (the object at offset `k + 1` is `objects[k]`),
the slots of the table under construction, and the root set by `Finish`. -/
structure Builder where
  objects : List Object := []
  fields : List (Nat × Field) := []
  head : UOffsetT := 0
deriving DecidableEq

/-- Modelled from the spec: `flatbuffers.NewBuilder(initialSize)`, a fresh buffer per call. -/
def NewBuilder (_initialSize : Nat) : Builder := {}

/-- Modelled from the spec: `Builder.CreateString`, which stores a text and returns its
offset. -/
def Builder.CreateString (b : Builder) (s : GoString) : UOffsetT × Builder :=
  (b.objects.length + 1, { b with objects := b.objects ++ [Object.string s] })

/-- Modelled from the spec: `Builder.CreateByteVector`, which stores the octets of a slice
(none for a nil slice) and returns their offset. -/
def Builder.CreateByteVector (b : Builder) (v : GoBytes) : UOffsetT × Builder :=
  (b.objects.length + 1, { b with objects := b.objects ++ [Object.byteVector (v.getD [])] })

/-- Modelled from the spec: `Builder.StartObject`, which opens a table with no slot set. -/
def Builder.StartObject (b : Builder) (_numfields : Nat) : Builder :=
  { b with fields := [] }

/-- Modelled from the spec: writing a value into slot `slot` of the open table. -/
def Builder.AddSlot (b : Builder) (slot : Nat) (x : Field) : Builder :=
  { b with fields := (slot, x) :: b.fields }

/-- Modelled from the spec: `Builder.EndObject`, which stores the open table and returns its
offset. -/
def Builder.EndObject (b : Builder) : UOffsetT × Builder :=
  (b.objects.length + 1, { b with objects := b.objects ++ [Object.table b.fields], fields := [] })

/-- Modelled from the spec: `Builder.Finish`, which makes `rootTable` the root of the
buffer. -/
def Builder.Finish (b : Builder) (rootTable : UOffsetT) : Builder :=
  { b with head := rootTable }

/-- A finished buffer: its objects and the offset of its root table. -/
structure Finished where
  objects : List Object
  root : UOffsetT
deriving DecidableEq

/-- The byte layout of finished buffers (the binary schema encoding, which `call.go` leaves
to the library): `encode` lays a finished buffer out as a byte slice, `decode` reads one
back and yields nothing on a buffer it cannot read. -/
structure Wire where
  encode : Finished → GoBytes
  decode : GoBytes → Option Finished

/-- A layout is readable when decoding what it encoded gives the buffer back. -/
def Wire.RoundTrips (w : Wire) : Prop :=
  ∀ f : Finished, w.decode (w.encode f) = some f

/-- Modelled from the spec: `Builder.FinishedBytes`, the octets of the finished buffer. -/
def Builder.FinishedBytes (w : Wire) (b : Builder) : GoBytes :=
  w.encode { objects := b.objects, root := b.head }

/-- The object at an offset, if any. -/
def Finished.object (f : Finished) (o : UOffsetT) : Option Object :=
  match o with
  | 0 => none
  | k + 1 => f.objects[k]?

/-- Slot `slot` of the table at offset `o`; `none` when the slot is absent. -/
def Finished.field (f : Finished) (o : UOffsetT) (slot : Nat) : Option Field :=
  match f.object o with
  | some (Object.table fields) => fields.lookup slot
  | _ => none

/-- The text or byte vector a slot of the table at offset `o` refers to; nil when the slot is
absent. -/
def Finished.bytesField (f : Finished) (o : UOffsetT) (slot : Nat) : GoBytes :=
  match f.field o slot with
  | some (Field.uoffset x) =>
    match f.object x with
    | some (Object.string s) => some s
    | some (Object.byteVector v) => some v
    | _ => none
  | _ => none

end flatbuffers

namespace model

open flatbuffers

/-- Slot of the success value in each of the five response tables. -/
def ResponseOutputSlot : Nat := 0

/-- Slot of the error text in each of the five response tables. -/
def ResponseErrorSlot : Nat := 1

/-- Slot of the public key in the key-pair table. -/
def KeyPairPublicKeySlot : Nat := 0

/-- Slot of the private key in the key-pair table. -/
def KeyPairPrivateKeySlot : Nat := 1

/-- Modelled from the spec: generated `model.StringResponseStart` (not in `call.go`). -/
def StringResponseStart (b : Builder) : Builder := b.StartObject 2

/-- Modelled from the spec: generated `model.StringResponseAddOutput`, which writes the text
at `output` into the output slot. -/
def StringResponseAddOutput (b : Builder) (output : UOffsetT) : Builder :=
  b.AddSlot ResponseOutputSlot (Field.uoffset output)

/-- Modelled from the spec: generated `model.StringResponseAddError`, which writes the text
at `error` into the error slot. -/
def StringResponseAddError (b : Builder) (error : UOffsetT) : Builder :=
  b.AddSlot ResponseErrorSlot (Field.uoffset error)

/-- Modelled from the spec: generated `model.StringResponseEnd`. -/
def StringResponseEnd (b : Builder) : UOffsetT × Builder := b.EndObject

/-- Modelled from the spec: generated `model.BytesResponseStart`. -/
def BytesResponseStart (b : Builder) : Builder := b.StartObject 2

/-- Modelled from the spec: generated `model.BytesResponseAddOutput`, which writes the byte
vector at `output` into the output slot. -/
def BytesResponseAddOutput (b : Builder) (output : UOffsetT) : Builder :=
  b.AddSlot ResponseOutputSlot (Field.uoffset output)

/-- Modelled from the spec: generated `model.BytesResponseAddError`. -/
def BytesResponseAddError (b : Builder) (error : UOffsetT) : Builder :=
  b.AddSlot ResponseErrorSlot (Field.uoffset error)

/-- Modelled from the spec: generated `model.BytesResponseEnd`. -/
def BytesResponseEnd (b : Builder) : UOffsetT × Builder := b.EndObject

/-- Modelled from the spec: generated `model.IntResponseStart`. -/
def IntResponseStart (b : Builder) : Builder := b.StartObject 2

/-- Modelled from the spec: generated `model.IntResponseAddOutput` (not in `call.go`), that is
`builder.PrependInt64Slot(0, output, 0)`: it writes the signed 64-bit integer `output` into
the output slot unless `output` is the schema default 0, in which case it writes nothing. -/
def IntResponseAddOutput (b : Builder) (output : Int) : Builder :=
  if output = 0 then b else b.AddSlot ResponseOutputSlot (Field.int64 output)

/-- Modelled from the spec: generated `model.IntResponseAddError`. -/
def IntResponseAddError (b : Builder) (error : UOffsetT) : Builder :=
  b.AddSlot ResponseErrorSlot (Field.uoffset error)

/-- Modelled from the spec: generated `model.IntResponseEnd`. -/
def IntResponseEnd (b : Builder) : UOffsetT × Builder := b.EndObject

/-- Modelled from the spec: generated `model.BoolResponseStart`. -/
def BoolResponseStart (b : Builder) : Builder := b.StartObject 2

/-- Modelled from the spec: generated `model.BoolResponseAddOutput` (not in `call.go`), that
is `builder.PrependBoolSlot(0, output, false)`: it writes the boolean `output` into the output
slot unless `output` is the schema default false, in which case it writes nothing. -/
def BoolResponseAddOutput (b : Builder) (output : Bool) : Builder :=
  if output = false then b else b.AddSlot ResponseOutputSlot (Field.bool output)

/-- Modelled from the spec: generated `model.BoolResponseAddError`. -/
def BoolResponseAddError (b : Builder) (error : UOffsetT) : Builder :=
  b.AddSlot ResponseErrorSlot (Field.uoffset error)

/-- Modelled from the spec: generated `model.BoolResponseEnd`. -/
def BoolResponseEnd (b : Builder) : UOffsetT × Builder := b.EndObject

/-- Modelled from the spec: generated `model.KeyPairStart`. -/
def KeyPairStart (b : Builder) : Builder := b.StartObject 2

/-- Modelled from the spec: generated `model.KeyPairAddPublicKey`. -/
def KeyPairAddPublicKey (b : Builder) (publicKey : UOffsetT) : Builder :=
  b.AddSlot KeyPairPublicKeySlot (Field.uoffset publicKey)

/-- Modelled from the spec: generated `model.KeyPairAddPrivateKey`. -/
def KeyPairAddPrivateKey (b : Builder) (privateKey : UOffsetT) : Builder :=
  b.AddSlot KeyPairPrivateKeySlot (Field.uoffset privateKey)

/-- Modelled from the spec: generated `model.KeyPairEnd`. -/
def KeyPairEnd (b : Builder) : UOffsetT × Builder := b.EndObject

/-- Modelled from the spec: generated `model.KeyPairResponseStart`. -/
def KeyPairResponseStart (b : Builder) : Builder := b.StartObject 2

/-- Modelled from the spec: generated `model.KeyPairResponseAddOutput`, which writes the
key-pair table at `output` into the output slot. -/
def KeyPairResponseAddOutput (b : Builder) (output : UOffsetT) : Builder :=
  b.AddSlot ResponseOutputSlot (Field.uoffset output)

/-- Modelled from the spec: generated `model.KeyPairResponseAddError`. -/
def KeyPairResponseAddError (b : Builder) (error : UOffsetT) : Builder :=
  b.AddSlot ResponseErrorSlot (Field.uoffset error)

/-- Modelled from the spec: generated `model.KeyPairResponseEnd`. -/
def KeyPairResponseEnd (b : Builder) : UOffsetT × Builder := b.EndObject

/-- A decoded response of any of the five shapes, as an external reader sees it: the root
table of the buffer. `none` when the octets cannot be read. -/
def GetRootAsResponse (w : Wire) (buf : GoBytes) : Option Finished :=
  w.decode buf

/-- Whether the output slot of a decoded response is present. -/
def Response.hasOutput (r : Finished) : Bool :=
  (r.field r.root ResponseOutputSlot).isSome

/-- Whether the error slot of a decoded response is present. -/
def Response.hasError (r : Finished) : Bool :=
  (r.field r.root ResponseErrorSlot).isSome

/-- Accessor `Error()` of a decoded response: the error text, nil when the slot is absent. -/
def Response.Error (r : Finished) : GoBytes :=
  r.bytesField r.root ResponseErrorSlot

/-- Accessor `Output()` of a decoded text or bytes response: nil when the slot is absent. -/
def Response.OutputBytes (r : Finished) : GoBytes :=
  r.bytesField r.root ResponseOutputSlot

/-- The text response as an external reader decodes it. -/
structure StringResponse where
  Output : GoBytes
  Error : GoBytes
deriving DecidableEq

/-- Modelled from the spec: generated reader `model.GetRootAsStringResponse` with its two
accessors; `none` when the octets cannot be read. -/
def GetRootAsStringResponse (w : Wire) (buf : GoBytes) : Option StringResponse :=
  (GetRootAsResponse w buf).map
    (fun r => { Output := Response.OutputBytes r, Error := Response.Error r })

/-- The bytes response as an external reader decodes it. -/
structure BytesResponse where
  Output : GoBytes
  Error : GoBytes
deriving DecidableEq

/-- Modelled from the spec: generated reader `model.GetRootAsBytesResponse` with its two
accessors; `none` when the octets cannot be read. -/
def GetRootAsBytesResponse (w : Wire) (buf : GoBytes) : Option BytesResponse :=
  (GetRootAsResponse w buf).map
    (fun r => { Output := Response.OutputBytes r, Error := Response.Error r })

/-- Accessor `Output()` of a decoded integer response: the schema default 0 when the slot is
absent. -/
def Response.OutputInt (r : Finished) : Int :=
  match r.field r.root ResponseOutputSlot with
  | some (Field.int64 x) => x
  | _ => 0

/-- Accessor `Output()` of a decoded boolean response: the schema default false when the slot
is absent. -/
def Response.OutputBool (r : Finished) : Bool :=
  match r.field r.root ResponseOutputSlot with
  | some (Field.bool x) => x
  | _ => false

/-- The integer response as an external reader decodes it. -/
structure IntResponse where
  Output : Int
  Error : GoBytes
deriving DecidableEq

/-- Modelled from the spec: generated reader `model.GetRootAsIntResponse` with its two
accessors; `none` when the octets cannot be read. -/
def GetRootAsIntResponse (w : Wire) (buf : GoBytes) : Option IntResponse :=
  (GetRootAsResponse w buf).map
    (fun r => { Output := Response.OutputInt r, Error := Response.Error r })

/-- The boolean response as an external reader decodes it. -/
structure BoolResponse where
  Output : Bool
  Error : GoBytes
deriving DecidableEq

/-- Modelled from the spec: generated reader `model.GetRootAsBoolResponse` with its two
accessors; `none` when the octets cannot be read. -/
def GetRootAsBoolResponse (w : Wire) (buf : GoBytes) : Option BoolResponse :=
  (GetRootAsResponse w buf).map
    (fun r => { Output := Response.OutputBool r, Error := Response.Error r })

/-- The key-pair record of a response as an external reader decodes it. -/
structure KeyPair where
  PublicKey : GoBytes
  PrivateKey : GoBytes
deriving DecidableEq

/-- Accessor `Output(nil)` of a decoded key-pair response: the key-pair table the output slot
refers to with its two texts, nil when the slot is absent. -/
def Response.OutputKeyPair (r : Finished) : Option KeyPair :=
  match r.field r.root ResponseOutputSlot with
  | some (Field.uoffset x) =>
    match r.object x with
    | some (Object.table _) =>
      some { PublicKey := r.bytesField x KeyPairPublicKeySlot
             PrivateKey := r.bytesField x KeyPairPrivateKeySlot }
    | _ => none
  | _ => none

/-- The key-pair response as an external reader decodes it. -/
structure KeyPairResponse where
  Output : Option KeyPair
  Error : GoBytes
deriving DecidableEq

/-- Modelled from the spec: generated reader `model.GetRootAsKeyPairResponse` with its two
accessors; `none` when the octets cannot be read. -/
def GetRootAsKeyPairResponse (w : Wire) (buf : GoBytes) : Option KeyPairResponse :=
  (GetRootAsResponse w buf).map
    (fun r => { Output := Response.OutputKeyPair r, Error := Response.Error r })

end model

/-! ## Package `openPGPBridge`: `call.go` -/

/-- Go conversion `int64(x)` of an `int`: `int` is at most 64 bits wide, so the value is
kept. -/
def int64 (x : Int) : Int := x

/-- Go conversion `int(x)` of an `int32`: `int` is at least 32 bits wide, so the value is
kept. -/
def int (x : Int) : Int := x

namespace openPGPBridge

open flatbuffers

/-- Go struct `instance`: the per-call engine handle. -/
structure Instance where
  inst : openpgp.FastOpenPGP

/-- Go `NewInstance`; the argument is the handle `openpgp.NewFastOpenPGP()` yields. -/
def NewInstance (NewFastOpenPGP : openpgp.FastOpenPGP) : Instance :=
  { inst := NewFastOpenPGP }

/-- Go method `toString`. -/
def Instance.toString (_m : Instance) (input : GoBytes) : GoString :=
  match input with
  | none => lit ""
  | some bytes => bytes

/-- Go method `parseHash`: the cases are tried in source order, `HashSHA256` falls through to
the default. -/
def Instance.parseHash (pkg : model.Package) (_m : Instance) (input : model.Hash) : GoString :=
  if input = pkg.HashSHA224 then lit "sha224"
  else if input = pkg.HashSHA384 then lit "sha384"
  else if input = pkg.HashSHA512 then lit "sha512"
  else if input = pkg.HashSHA256 then lit "sha256"
  else lit "sha256"

/-- Go method `parseCipher`. -/
def Instance.parseCipher (pkg : model.Package) (_m : Instance) (input : model.Cipher) :
    GoString :=
  if input = pkg.CipherAES192 then lit "aes192"
  else if input = pkg.CipherAES256 then lit "aes256"
  else if input = pkg.CipherAES128 then lit "aes128"
  else lit "aes128"

/-- Go method `parseCompression`. -/
def Instance.parseCompression (pkg : model.Package) (_m : Instance)
    (input : model.Compression) : GoString :=
  if input = pkg.CompressionZIP then lit "zip"
  else if input = pkg.CompressionZLIB then lit "zlib"
  else if input = pkg.CompressionNONE then lit "none"
  else lit "none"

/-- Go method `parseKeyOptions`. -/
def Instance.parseKeyOptions (pkg : model.Package) (m : Instance)
    (input : Option model.KeyOptions) : Option openpgp.KeyOptions :=
  match input with
  | none => some {}
  | some input =>
    let options : openpgp.KeyOptions :=
      { Hash := m.parseHash pkg input.Hash
        Cipher := m.parseCipher pkg input.Cipher
        Compression := m.parseCompression pkg input.Compression
        CompressionLevel := int input.CompressionLevel
        RSABits := int input.RsaBits }
    some options

/-- Go method `parseOptions`. -/
def Instance.parseOptions (pkg : model.Package) (m : Instance)
    (input : Option model.Options) : Option openpgp.Options :=
  match input with
  | none => some { KeyOptions := m.parseKeyOptions pkg none }
  | some input =>
    let options : openpgp.Options :=
      { KeyOptions := m.parseKeyOptions pkg input.KeyOptions
        Name := m.toString input.Name
        Comment := m.toString input.Comment
        Email := m.toString input.Email
        Passphrase := m.toString input.Passphrase }
    some options

/-- Go method `parseFileHints`. -/
def Instance.parseFileHints (m : Instance) (input : Option model.FileHints) :
    Option openpgp.FileHints :=
  match input with
  | none => some {}
  | some input =>
    let options : openpgp.FileHints :=
      { IsBinary := input.IsBinary
        FileName := m.toString input.FileName
        ModTime := m.toString input.ModTime }
    some options

/-- Go method `parseEntity`. -/
def Instance.parseEntity (m : Instance) (input : Option model.Entity) :
    Option openpgp.Entity :=
  match input with
  | none => none
  | some input =>
    let options : openpgp.Entity :=
      { PublicKey := m.toString input.PublicKey
        PrivateKey := m.toString input.PrivateKey
        Passphrase := m.toString input.Passphrase }
    some options

/-- Go method `_keyPairResponse`. With a nil `err` the method reads `output.PublicKey`, which
panics on a nil `output`. -/
def Instance._keyPairResponse (wire : Wire) (_m : Instance) (response : Builder)
    (output : Option openpgp.KeyPair) (err : Option GoError) : Outcome GoBytes :=
  match err with
  | some err =>
    let (outputOffset, response) := response.CreateString err.Error
    let response := model.KeyPairResponseStart response
    let response := model.KeyPairResponseAddError response outputOffset
    let (root, response) := model.KeyPairResponseEnd response
    let response := response.Finish root
    Outcome.returned (response.FinishedBytes wire)
  | none =>
    match output with
    | none => Outcome.panicked
    | some output =>
      let (publicKeyOffset, response) := response.CreateString output.PublicKey
      let (privateKeyOffset, response) := response.CreateString output.PrivateKey
      let response := model.KeyPairStart response
      let response := model.KeyPairAddPublicKey response publicKeyOffset
      let response := model.KeyPairAddPrivateKey response privateKeyOffset
      let (KeyPair, response) := model.KeyPairEnd response
      let response := model.KeyPairResponseStart response
      let response := model.KeyPairResponseAddOutput response KeyPair
      let (root, response) := model.KeyPairResponseEnd response
      let response := response.Finish root
      Outcome.returned (response.FinishedBytes wire)

/-- Go method `_boolResponse`. -/
def Instance._boolResponse (wire : Wire) (_m : Instance) (response : Builder)
    (output : Bool) (err : Option GoError) : GoBytes :=
  match err with
  | some err =>
    let (outputOffset, response) := response.CreateString err.Error
    let response := model.BoolResponseStart response
    let response := model.BoolResponseAddError response outputOffset
    let (root, response) := model.BoolResponseEnd response
    let response := response.Finish root
    response.FinishedBytes wire
  | none =>
    let response := model.BoolResponseStart response
    let response := model.BoolResponseAddOutput response output
    let (root, response) := model.BoolResponseEnd response
    let response := response.Finish root
    response.FinishedBytes wire

/-- Go method `_bytesResponse`. -/
def Instance._bytesResponse (wire : Wire) (_m : Instance) (response : Builder)
    (output : GoBytes) (err : Option GoError) : GoBytes :=
  match err with
  | some err =>
    let (outputOffset, response) := response.CreateString err.Error
    let response := model.BytesResponseStart response
    let response := model.BytesResponseAddError response outputOffset
    let (root, response) := model.BytesResponseEnd response
    let response := response.Finish root
    response.FinishedBytes wire
  | none =>
    let (outputOffset, response) := response.CreateByteVector output
    let response := model.BytesResponseStart response
    let response := model.BytesResponseAddOutput response outputOffset
    let (root, response) := model.BytesResponseEnd response
    let response := response.Finish root
    response.FinishedBytes wire

/-- Go method `_intResponse`. -/
def Instance._intResponse (wire : Wire) (_m : Instance) (response : Builder)
    (output : Int) (err : Option GoError) : GoBytes :=
  match err with
  | some err =>
    let (outputOffset, response) := response.CreateString err.Error
    let response := model.IntResponseStart response
    let response := model.IntResponseAddError response outputOffset
    let (root, response) := model.IntResponseEnd response
    let response := response.Finish root
    response.FinishedBytes wire
  | none =>
    let response := model.IntResponseStart response
    let response := model.IntResponseAddOutput response output
    let (root, response) := model.IntResponseEnd response
    let response := response.Finish root
    response.FinishedBytes wire

/-- Go method `_stringResponse`. -/
def Instance._stringResponse (wire : Wire) (_m : Instance) (response : Builder)
    (output : GoString) (err : Option GoError) : GoBytes :=
  match err with
  | some err =>
    let (outputOffset, response) := response.CreateString err.Error
    let response := model.StringResponseStart response
    let response := model.StringResponseAddError response outputOffset
    let (root, response) := model.StringResponseEnd response
    let response := response.Finish root
    response.FinishedBytes wire
  | none =>
    let (outputOffset, response) := response.CreateString output
    let response := model.StringResponseStart response
    let response := model.StringResponseAddOutput response outputOffset
    let (root, response) := model.StringResponseEnd response
    let response := response.Finish root
    response.FinishedBytes wire

end openPGPBridge

namespace openPGPBridge

open flatbuffers

section handlers

variable (pkg : model.Package) (wire : Wire)

/-- Go method `decrypt`. Reading the request may panic, which unwinds the handler before the
engine is called; the same holds of every handler below. -/
def Instance.decrypt (m : Instance) (payload : GoBytes) : Run GoBytes :=
  let response := NewBuilder 0
  match model.GetRootAsDecryptRequest pkg payload 0 with
  | Outcome.panicked => ⟨[], Outcome.panicked⟩
  | Outcome.returned request =>
    let r := m.inst.invokeDecrypt (m.toString request.Message) (m.toString request.PrivateKey)
      (m.toString request.Passphrase) (m.parseKeyOptions pkg request.Options)
    match r.err with
    | some err => ⟨[r.event], Outcome.returned (m._stringResponse wire response r.output (some err))⟩
    | none => ⟨[r.event], Outcome.returned (m._stringResponse wire response r.output none)⟩

/-- Go method `decryptFile`. -/
def Instance.decryptFile (m : Instance) (payload : GoBytes) : Run GoBytes :=
  let response := NewBuilder 0
  match model.GetRootAsDecryptFileRequest pkg payload 0 with
  | Outcome.panicked => ⟨[], Outcome.panicked⟩
  | Outcome.returned request =>
    let r := m.inst.invokeDecryptFile (m.toString request.Input) (m.toString request.Output)
      (m.toString request.PrivateKey) (m.toString request.Passphrase)
      (m.parseKeyOptions pkg request.Options)
    match r.err with
    | some err =>
      ⟨[r.event], Outcome.returned (m._intResponse wire response (int64 r.output) (some err))⟩
    | none => ⟨[r.event], Outcome.returned (m._intResponse wire response (int64 r.output) none)⟩

/-- Go method `decryptBytes`. -/
def Instance.decryptBytes (m : Instance) (payload : GoBytes) : Run GoBytes :=
  let response := NewBuilder 0
  match model.GetRootAsDecryptBytesRequest pkg payload 0 with
  | Outcome.panicked => ⟨[], Outcome.panicked⟩
  | Outcome.returned request =>
    let r := m.inst.invokeDecryptBytes request.MessageBytes (m.toString request.PrivateKey)
      (m.toString request.Passphrase) (m.parseKeyOptions pkg request.Options)
    match r.err with
    | some err => ⟨[r.event], Outcome.returned (m._bytesResponse wire response r.output (some err))⟩
    | none => ⟨[r.event], Outcome.returned (m._bytesResponse wire response r.output none)⟩

/-- Go method `encrypt`. -/
def Instance.encrypt (m : Instance) (payload : GoBytes) : Run GoBytes :=
  let response := NewBuilder 0
  match model.GetRootAsEncryptRequest pkg payload 0 with
  | Outcome.panicked => ⟨[], Outcome.panicked⟩
  | Outcome.returned request =>
    let r := m.inst.invokeEncrypt (m.toString request.Message) (m.toString request.PublicKey)
      (m.parseEntity request.Signed) (m.parseFileHints request.FileHints)
      (m.parseKeyOptions pkg request.Options)
    match r.err with
    | some err => ⟨[r.event], Outcome.returned (m._stringResponse wire response r.output (some err))⟩
    | none => ⟨[r.event], Outcome.returned (m._stringResponse wire response r.output none)⟩

/-- Go method `encryptFile`. -/
def Instance.encryptFile (m : Instance) (payload : GoBytes) : Run GoBytes :=
  let response := NewBuilder 0
  match model.GetRootAsEncryptFileRequest pkg payload 0 with
  | Outcome.panicked => ⟨[], Outcome.panicked⟩
  | Outcome.returned request =>
    let r := m.inst.invokeEncryptFile (m.toString request.Input) (m.toString request.Output)
      (m.toString request.PublicKey) (m.parseEntity request.Signed)
      (m.parseFileHints request.FileHints) (m.parseKeyOptions pkg request.Options)
    match r.err with
    | some err =>
      ⟨[r.event], Outcome.returned (m._intResponse wire response (int64 r.output) (some err))⟩
    | none => ⟨[r.event], Outcome.returned (m._intResponse wire response (int64 r.output) none)⟩

/-- Go method `encryptBytes`. -/
def Instance.encryptBytes (m : Instance) (payload : GoBytes) : Run GoBytes :=
  let response := NewBuilder 0
  match model.GetRootAsEncryptBytesRequest pkg payload 0 with
  | Outcome.panicked => ⟨[], Outcome.panicked⟩
  | Outcome.returned request =>
    let r := m.inst.invokeEncryptBytes request.MessageBytes (m.toString request.PublicKey)
      (m.parseEntity request.Signed) (m.parseFileHints request.FileHints)
      (m.parseKeyOptions pkg request.Options)
    match r.err with
    | some err => ⟨[r.event], Outcome.returned (m._bytesResponse wire response r.output (some err))⟩
    | none => ⟨[r.event], Outcome.returned (m._bytesResponse wire response r.output none)⟩

/-- Go method `sign`. -/
def Instance.sign (m : Instance) (payload : GoBytes) : Run GoBytes :=
  let response := NewBuilder 0
  match model.GetRootAsSignRequest pkg payload 0 with
  | Outcome.panicked => ⟨[], Outcome.panicked⟩
  | Outcome.returned request =>
    let r := m.inst.invokeSign (m.toString request.Message) (m.toString request.PublicKey)
      (m.toString request.PrivateKey) (m.toString request.Passphrase)
      (m.parseKeyOptions pkg request.Options)
    match r.err with
    | some err => ⟨[r.event], Outcome.returned (m._stringResponse wire response r.output (some err))⟩
    | none => ⟨[r.event], Outcome.returned (m._stringResponse wire response r.output none)⟩

/-- Go method `signFile`. -/
def Instance.signFile (m : Instance) (payload : GoBytes) : Run GoBytes :=
  let response := NewBuilder 0
  match model.GetRootAsSignFileRequest pkg payload 0 with
  | Outcome.panicked => ⟨[], Outcome.panicked⟩
  | Outcome.returned request =>
    let r := m.inst.invokeSignFile (m.toString request.Input) (m.toString request.PublicKey)
      (m.toString request.PrivateKey) (m.toString request.Passphrase)
      (m.parseKeyOptions pkg request.Options)
    match r.err with
    | some err => ⟨[r.event], Outcome.returned (m._stringResponse wire response r.output (some err))⟩
    | none => ⟨[r.event], Outcome.returned (m._stringResponse wire response r.output none)⟩

/-- Go method `signBytes`. -/
def Instance.signBytes (m : Instance) (payload : GoBytes) : Run GoBytes :=
  let response := NewBuilder 0
  match model.GetRootAsSignBytesRequest pkg payload 0 with
  | Outcome.panicked => ⟨[], Outcome.panicked⟩
  | Outcome.returned request =>
    let r := m.inst.invokeSignBytes request.MessageBytes (m.toString request.PublicKey)
      (m.toString request.PrivateKey) (m.toString request.Passphrase)
      (m.parseKeyOptions pkg request.Options)
    match r.err with
    | some err => ⟨[r.event], Outcome.returned (m._bytesResponse wire response r.output (some err))⟩
    | none => ⟨[r.event], Outcome.returned (m._bytesResponse wire response r.output none)⟩

/-- Go method `signBytesToString`; it reads its payload as a `SignBytesRequest`. -/
def Instance.signBytesToString (m : Instance) (payload : GoBytes) : Run GoBytes :=
  let response := NewBuilder 0
  match model.GetRootAsSignBytesRequest pkg payload 0 with
  | Outcome.panicked => ⟨[], Outcome.panicked⟩
  | Outcome.returned request =>
    let r := m.inst.invokeSignBytesToString request.MessageBytes (m.toString request.PublicKey)
      (m.toString request.PrivateKey) (m.toString request.Passphrase)
      (m.parseKeyOptions pkg request.Options)
    match r.err with
    | some err => ⟨[r.event], Outcome.returned (m._stringResponse wire response r.output (some err))⟩
    | none => ⟨[r.event], Outcome.returned (m._stringResponse wire response r.output none)⟩

/-- Go method `verify`. -/
def Instance.verify (m : Instance) (payload : GoBytes) : Run GoBytes :=
  let response := NewBuilder 0
  match model.GetRootAsVerifyRequest pkg payload 0 with
  | Outcome.panicked => ⟨[], Outcome.panicked⟩
  | Outcome.returned request =>
    let r := m.inst.invokeVerify (m.toString request.Signature) (m.toString request.Message)
      (m.toString request.PublicKey)
    match r.err with
    | some err => ⟨[r.event], Outcome.returned (m._boolResponse wire response r.output (some err))⟩
    | none => ⟨[r.event], Outcome.returned (m._boolResponse wire response r.output none)⟩

/-- Go method `verifyFile`. -/
def Instance.verifyFile (m : Instance) (payload : GoBytes) : Run GoBytes :=
  let response := NewBuilder 0
  match model.GetRootAsVerifyFileRequest pkg payload 0 with
  | Outcome.panicked => ⟨[], Outcome.panicked⟩
  | Outcome.returned request =>
    let r := m.inst.invokeVerifyFile (m.toString request.Signature) (m.toString request.Input)
      (m.toString request.PublicKey)
    match r.err with
    | some err => ⟨[r.event], Outcome.returned (m._boolResponse wire response r.output (some err))⟩
    | none => ⟨[r.event], Outcome.returned (m._boolResponse wire response r.output none)⟩

/-- Go method `verifyBytes`. -/
def Instance.verifyBytes (m : Instance) (payload : GoBytes) : Run GoBytes :=
  let response := NewBuilder 0
  match model.GetRootAsVerifyBytesRequest pkg payload 0 with
  | Outcome.panicked => ⟨[], Outcome.panicked⟩
  | Outcome.returned request =>
    let r := m.inst.invokeVerifyBytes (m.toString request.Signature) request.MessageBytes
      (m.toString request.PublicKey)
    match r.err with
    | some err => ⟨[r.event], Outcome.returned (m._boolResponse wire response r.output (some err))⟩
    | none => ⟨[r.event], Outcome.returned (m._boolResponse wire response r.output none)⟩

/-- Go method `decryptSymmetric`. -/
def Instance.decryptSymmetric (m : Instance) (payload : GoBytes) : Run GoBytes :=
  let response := NewBuilder 0
  match model.GetRootAsDecryptSymmetricRequest pkg payload 0 with
  | Outcome.panicked => ⟨[], Outcome.panicked⟩
  | Outcome.returned request =>
    let r := m.inst.invokeDecryptSymmetric (m.toString request.Message)
      (m.toString request.Passphrase) (m.parseKeyOptions pkg request.Options)
    match r.err with
    | some err => ⟨[r.event], Outcome.returned (m._stringResponse wire response r.output (some err))⟩
    | none => ⟨[r.event], Outcome.returned (m._stringResponse wire response r.output none)⟩

/-- Go method `decryptSymmetricFile`. -/
def Instance.decryptSymmetricFile (m : Instance) (payload : GoBytes) : Run GoBytes :=
  let response := NewBuilder 0
  match model.GetRootAsDecryptSymmetricFileRequest pkg payload 0 with
  | Outcome.panicked => ⟨[], Outcome.panicked⟩
  | Outcome.returned request =>
    let r := m.inst.invokeDecryptSymmetricFile (m.toString request.Input)
      (m.toString request.Output) (m.toString request.Passphrase)
      (m.parseKeyOptions pkg request.Options)
    match r.err with
    | some err =>
      ⟨[r.event], Outcome.returned (m._intResponse wire response (int64 r.output) (some err))⟩
    | none => ⟨[r.event], Outcome.returned (m._intResponse wire response (int64 r.output) none)⟩

/-- Go method `decryptSymmetricBytes`. -/
def Instance.decryptSymmetricBytes (m : Instance) (payload : GoBytes) : Run GoBytes :=
  let response := NewBuilder 0
  match model.GetRootAsDecryptSymmetricBytesRequest pkg payload 0 with
  | Outcome.panicked => ⟨[], Outcome.panicked⟩
  | Outcome.returned request =>
    let r := m.inst.invokeDecryptSymmetricBytes request.MessageBytes
      (m.toString request.Passphrase) (m.parseKeyOptions pkg request.Options)
    match r.err with
    | some err => ⟨[r.event], Outcome.returned (m._bytesResponse wire response r.output (some err))⟩
    | none => ⟨[r.event], Outcome.returned (m._bytesResponse wire response r.output none)⟩

/-- Go method `encryptSymmetric`. -/
def Instance.encryptSymmetric (m : Instance) (payload : GoBytes) : Run GoBytes :=
  let response := NewBuilder 0
  match model.GetRootAsEncryptSymmetricRequest pkg payload 0 with
  | Outcome.panicked => ⟨[], Outcome.panicked⟩
  | Outcome.returned request =>
    let r := m.inst.invokeEncryptSymmetric (m.toString request.Message)
      (m.toString request.Passphrase) (m.parseFileHints request.FileHints)
      (m.parseKeyOptions pkg request.Options)
    match r.err with
    | some err => ⟨[r.event], Outcome.returned (m._stringResponse wire response r.output (some err))⟩
    | none => ⟨[r.event], Outcome.returned (m._stringResponse wire response r.output none)⟩

/-- Go method `encryptSymmetricFile`. -/
def Instance.encryptSymmetricFile (m : Instance) (payload : GoBytes) : Run GoBytes :=
  let response := NewBuilder 0
  match model.GetRootAsEncryptSymmetricFileRequest pkg payload 0 with
  | Outcome.panicked => ⟨[], Outcome.panicked⟩
  | Outcome.returned request =>
    let r := m.inst.invokeEncryptSymmetricFile (m.toString request.Input)
      (m.toString request.Output) (m.toString request.Passphrase)
      (m.parseFileHints request.FileHints) (m.parseKeyOptions pkg request.Options)
    match r.err with
    | some err =>
      ⟨[r.event], Outcome.returned (m._intResponse wire response (int64 r.output) (some err))⟩
    | none => ⟨[r.event], Outcome.returned (m._intResponse wire response (int64 r.output) none)⟩

/-- Go method `encryptSymmetricBytes`. -/
def Instance.encryptSymmetricBytes (m : Instance) (payload : GoBytes) : Run GoBytes :=
  let response := NewBuilder 0
  match model.GetRootAsEncryptSymmetricBytesRequest pkg payload 0 with
  | Outcome.panicked => ⟨[], Outcome.panicked⟩
  | Outcome.returned request =>
    let r := m.inst.invokeEncryptSymmetricBytes request.MessageBytes
      (m.toString request.Passphrase) (m.parseFileHints request.FileHints)
      (m.parseKeyOptions pkg request.Options)
    match r.err with
    | some err => ⟨[r.event], Outcome.returned (m._bytesResponse wire response r.output (some err))⟩
    | none => ⟨[r.event], Outcome.returned (m._bytesResponse wire response r.output none)⟩

/-- Go method `generate`. -/
def Instance.generate (m : Instance) (payload : GoBytes) : Run GoBytes :=
  let response := NewBuilder 0
  match model.GetRootAsGenerateRequest pkg payload 0 with
  | Outcome.panicked => ⟨[], Outcome.panicked⟩
  | Outcome.returned request =>
    let options := m.parseOptions pkg request.Options
    let r := m.inst.invokeGenerate options
    match r.err with
    | some err => ⟨[r.event], m._keyPairResponse wire response r.output (some err)⟩
    | none => ⟨[r.event], m._keyPairResponse wire response r.output none⟩

/-- Go method `armorEncode`. -/
def Instance.armorEncode (m : Instance) (payload : GoBytes) : Run GoBytes :=
  let response := NewBuilder 0
  match model.GetRootAsArmorEncodeRequest pkg payload 0 with
  | Outcome.panicked => ⟨[], Outcome.panicked⟩
  | Outcome.returned request =>
    let r := m.inst.invokeArmorEncode request.PacketBytes
    match r.err with
    | some err => ⟨[r.event], Outcome.returned (m._stringResponse wire response r.output (some err))⟩
    | none => ⟨[r.event], Outcome.returned (m._stringResponse wire response r.output none)⟩

/-- The tail of `Call` after a matched case: `return output, nil` once the handler has
returned; a panic in the handler unwinds `Call` as well. -/
def returnOutput (handled : Run GoBytes) : Run (GoBytes × Option GoError) :=
  match handled.outcome with
  | Outcome.returned output => ⟨handled.trace, Outcome.returned (output, none)⟩
  | Outcome.panicked => ⟨handled.trace, Outcome.panicked⟩

/-- Go function `Call`: the string switch tries the case labels in source order. -/
def Call (NewFastOpenPGP : openpgp.FastOpenPGP) (name : GoString) (payload : GoBytes) :
    Run (GoBytes × Option GoError) :=
  let m := NewInstance NewFastOpenPGP
  if name = lit "decrypt" then returnOutput (m.decrypt pkg wire payload)
  else if name = lit "decryptFile" then returnOutput (m.decryptFile pkg wire payload)
  else if name = lit "decryptBytes" then returnOutput (m.decryptBytes pkg wire payload)
  else if name = lit "encrypt" then returnOutput (m.encrypt pkg wire payload)
  else if name = lit "encryptFile" then returnOutput (m.encryptFile pkg wire payload)
  else if name = lit "encryptBytes" then returnOutput (m.encryptBytes pkg wire payload)
  else if name = lit "sign" then returnOutput (m.sign pkg wire payload)
  else if name = lit "signFile" then returnOutput (m.signFile pkg wire payload)
  else if name = lit "signBytes" then returnOutput (m.signBytes pkg wire payload)
  else if name = lit "signBytesToString" then
    returnOutput (m.signBytesToString pkg wire payload)
  else if name = lit "verify" then returnOutput (m.verify pkg wire payload)
  else if name = lit "verifyFile" then returnOutput (m.verifyFile pkg wire payload)
  else if name = lit "verifyBytes" then returnOutput (m.verifyBytes pkg wire payload)
  else if name = lit "decryptSymmetric" then
    returnOutput (m.decryptSymmetric pkg wire payload)
  else if name = lit "decryptSymmetricFile" then
    returnOutput (m.decryptSymmetricFile pkg wire payload)
  else if name = lit "decryptSymmetricBytes" then
    returnOutput (m.decryptSymmetricBytes pkg wire payload)
  else if name = lit "encryptSymmetric" then
    returnOutput (m.encryptSymmetric pkg wire payload)
  else if name = lit "encryptSymmetricFile" then
    returnOutput (m.encryptSymmetricFile pkg wire payload)
  else if name = lit "encryptSymmetricBytes" then
    returnOutput (m.encryptSymmetricBytes pkg wire payload)
  else if name = lit "generate" then returnOutput (m.generate pkg wire payload)
  else if name = lit "armorEncode" then returnOutput (m.armorEncode pkg wire payload)
  else ⟨[], Outcome.returned (none, some (fmt.Errorf (lit "not implemented: ") name))⟩

end handlers

/-- The operation catalog: the case labels of the switch in `Call`. -/
def catalog : List GoString :=
  [lit "decrypt", lit "decryptFile", lit "decryptBytes", lit "encrypt", lit "encryptFile",
   lit "encryptBytes", lit "sign", lit "signFile", lit "signBytes", lit "signBytesToString",
   lit "verify", lit "verifyFile", lit "verifyBytes", lit "decryptSymmetric",
   lit "decryptSymmetricFile", lit "decryptSymmetricBytes", lit "encryptSymmetric",
   lit "encryptSymmetricFile", lit "encryptSymmetricBytes", lit "generate", lit "armorEncode"]

end openPGPBridge

/-! ## Concrete collaborators

The results below hold for every engine, every request reader and every readable byte
layout. The following small instances show that such collaborators exist and serve to
evaluate the embedding on concrete inputs. -/

namespace Sample

open flatbuffers

/-- The octets of a payload after the four of its root offset, as a present field. -/
def afterRoot (payload : GoBytes) : GoBytes :=
  some ((payload.getD []).drop 4)

/-- A request reader with the schema numbering 0, 1, 2, ... for the enum codes. It never
panics on a payload long enough to hold the root offset: it reads the octets after the root
offset as the message (or input, or packet) field of the request and finds every other field
absent; a generate request has its `Options` absent when nothing follows the root offset and
present, with only the name set, otherwise. -/
def pkg : model.Package where
  HashSHA256 := 0
  HashSHA224 := 1
  HashSHA384 := 2
  HashSHA512 := 3
  CipherAES128 := 0
  CipherAES192 := 1
  CipherAES256 := 2
  CompressionNONE := 0
  CompressionZLIB := 1
  CompressionZIP := 2
  readDecryptRequest := fun payload _ =>
    Outcome.returned
      (let rest := afterRoot payload
       { Message := rest, PrivateKey := none, Passphrase := none, Options := none })
  readDecryptFileRequest := fun payload _ =>
    Outcome.returned
      (let rest := afterRoot payload
       { Input := rest, Output := none, PrivateKey := none, Passphrase := none,
         Options := none })
  readDecryptBytesRequest := fun payload _ =>
    Outcome.returned
      (let rest := afterRoot payload
       { MessageBytes := rest, PrivateKey := none, Passphrase := none, Options := none })
  readEncryptRequest := fun payload _ =>
    Outcome.returned
      (let rest := afterRoot payload
       { Message := rest, PublicKey := none, Signed := none, FileHints := none,
         Options := none })
  readEncryptFileRequest := fun payload _ =>
    Outcome.returned
      (let rest := afterRoot payload
       { Input := rest, Output := none, PublicKey := none, Signed := none,
         FileHints := none, Options := none })
  readEncryptBytesRequest := fun payload _ =>
    Outcome.returned
      (let rest := afterRoot payload
       { MessageBytes := rest, PublicKey := none, Signed := none, FileHints := none,
         Options := none })
  readSignRequest := fun payload _ =>
    Outcome.returned
      (let rest := afterRoot payload
       { Message := rest, PublicKey := none, PrivateKey := none, Passphrase := none,
         Options := none })
  readSignFileRequest := fun payload _ =>
    Outcome.returned
      (let rest := afterRoot payload
       { Input := rest, PublicKey := none, PrivateKey := none, Passphrase := none,
         Options := none })
  readSignBytesRequest := fun payload _ =>
    Outcome.returned
      (let rest := afterRoot payload
       { MessageBytes := rest, PublicKey := none, PrivateKey := none, Passphrase := none,
         Options := none })
  readVerifyRequest := fun payload _ =>
    Outcome.returned
      (let rest := afterRoot payload
       { Signature := none, Message := rest, PublicKey := none })
  readVerifyFileRequest := fun payload _ =>
    Outcome.returned
      (let rest := afterRoot payload
       { Signature := none, Input := rest, PublicKey := none })
  readVerifyBytesRequest := fun payload _ =>
    Outcome.returned
      (let rest := afterRoot payload
       { Signature := none, MessageBytes := rest, PublicKey := none })
  readDecryptSymmetricRequest := fun payload _ =>
    Outcome.returned
      (let rest := afterRoot payload
       { Message := rest, Passphrase := none, Options := none })
  readDecryptSymmetricFileRequest := fun payload _ =>
    Outcome.returned
      (let rest := afterRoot payload
       { Input := rest, Output := none, Passphrase := none, Options := none })
  readDecryptSymmetricBytesRequest := fun payload _ =>
    Outcome.returned
      (let rest := afterRoot payload
       { MessageBytes := rest, Passphrase := none, Options := none })
  readEncryptSymmetricRequest := fun payload _ =>
    Outcome.returned
      (let rest := afterRoot payload
       { Message := rest, Passphrase := none, FileHints := none, Options := none })
  readEncryptSymmetricFileRequest := fun payload _ =>
    Outcome.returned
      (let rest := afterRoot payload
       { Input := rest, Output := none, Passphrase := none, FileHints := none,
         Options := none })
  readEncryptSymmetricBytesRequest := fun payload _ =>
    Outcome.returned
      (let rest := afterRoot payload
       { MessageBytes := rest, Passphrase := none, FileHints := none, Options := none })
  readGenerateRequest := fun payload _ =>
    match (payload.getD []).drop 4 with
    | [] => Outcome.returned { Options := none }
    | name =>
      Outcome.returned
        { Options := some { KeyOptions := none, Name := some name, Comment := none,
                            Email := none, Passphrase := none } }
  readArmorEncodeRequest := fun payload _ =>
    Outcome.returned
      (let rest := afterRoot payload
       { PacketBytes := rest })

/-- An engine whose every method returns the zero value of its result type together with
the given error (nil or not). -/
def engine (err : Option GoError) : openpgp.FastOpenPGP where
  Decrypt := fun _ _ _ _ => ([], err)
  DecryptFile := fun _ _ _ _ _ => (0, err)
  DecryptBytes := fun _ _ _ _ => (none, err)
  Encrypt := fun _ _ _ _ _ => ([], err)
  EncryptFile := fun _ _ _ _ _ _ => (0, err)
  EncryptBytes := fun _ _ _ _ _ => (none, err)
  Sign := fun _ _ _ _ _ => ([], err)
  SignFile := fun _ _ _ _ _ => ([], err)
  SignBytes := fun _ _ _ _ _ => (none, err)
  SignBytesToString := fun _ _ _ _ _ => ([], err)
  Verify := fun _ _ _ => (false, err)
  VerifyFile := fun _ _ _ => (false, err)
  VerifyBytes := fun _ _ _ => (false, err)
  DecryptSymmetric := fun _ _ _ => ([], err)
  DecryptSymmetricFile := fun _ _ _ _ => (0, err)
  DecryptSymmetricBytes := fun _ _ _ => (none, err)
  EncryptSymmetric := fun _ _ _ _ => ([], err)
  EncryptSymmetricFile := fun _ _ _ _ _ => (0, err)
  EncryptSymmetricBytes := fun _ _ _ _ => (none, err)
  Generate := fun _ => (none, err)
  ArmorEncode := fun _ => ([], err)

/-- An engine whose every method succeeds: it returns a fixed non-zero value of its result
type together with a nil error. -/
def engineOK : openpgp.FastOpenPGP where
  Decrypt := fun _ _ _ _ => (lit "ok", none)
  DecryptFile := fun _ _ _ _ _ => (42, none)
  DecryptBytes := fun _ _ _ _ => (some [1, 2, 3], none)
  Encrypt := fun _ _ _ _ _ => (lit "ok", none)
  EncryptFile := fun _ _ _ _ _ _ => (42, none)
  EncryptBytes := fun _ _ _ _ _ => (some [1, 2, 3], none)
  Sign := fun _ _ _ _ _ => (lit "ok", none)
  SignFile := fun _ _ _ _ _ => (lit "ok", none)
  SignBytes := fun _ _ _ _ _ => (some [1, 2, 3], none)
  SignBytesToString := fun _ _ _ _ _ => (lit "ok", none)
  Verify := fun _ _ _ => (true, none)
  VerifyFile := fun _ _ _ => (true, none)
  VerifyBytes := fun _ _ _ => (true, none)
  DecryptSymmetric := fun _ _ _ => (lit "ok", none)
  DecryptSymmetricFile := fun _ _ _ _ => (42, none)
  DecryptSymmetricBytes := fun _ _ _ => (some [1, 2, 3], none)
  EncryptSymmetric := fun _ _ _ _ => (lit "ok", none)
  EncryptSymmetricFile := fun _ _ _ _ _ => (42, none)
  EncryptSymmetricBytes := fun _ _ _ _ => (some [1, 2, 3], none)
  Generate := fun _ => (some { PublicKey := lit "pub", PrivateKey := lit "priv" }, none)
  ArmorEncode := fun _ => (lit "ok", none)

/-- A slot content as a sum of its three cases. -/
def fieldToSum : Field → Bool ⊕ (Int ⊕ Nat)
  | Field.bool x => Sum.inl x
  | Field.int64 x => Sum.inr (Sum.inl x)
  | Field.uoffset x => Sum.inr (Sum.inr x)

/-- Inverse of `fieldToSum`. -/
def fieldOfSum : Bool ⊕ (Int ⊕ Nat) → Field
  | Sum.inl x => Field.bool x
  | Sum.inr (Sum.inl x) => Field.int64 x
  | Sum.inr (Sum.inr x) => Field.uoffset x

instance : Encodable Field :=
  Encodable.ofLeftInverse fieldToSum fieldOfSum (fun x => by cases x <;> rfl)

/-- An object as a sum of its three cases. -/
def objectToSum : Object → Bytes ⊕ (Bytes ⊕ List (Nat × Field))
  | Object.string s => Sum.inl s
  | Object.byteVector v => Sum.inr (Sum.inl v)
  | Object.table fields => Sum.inr (Sum.inr fields)

/-- Inverse of `objectToSum`. -/
def objectOfSum : Bytes ⊕ (Bytes ⊕ List (Nat × Field)) → Object
  | Sum.inl s => Object.string s
  | Sum.inr (Sum.inl v) => Object.byteVector v
  | Sum.inr (Sum.inr fields) => Object.table fields

instance : Encodable Object :=
  Encodable.ofLeftInverse objectToSum objectOfSum (fun x => by cases x <;> rfl)

instance : Encodable Finished :=
  Encodable.ofLeftInverse (fun f => (f.objects, f.root)) (fun p => ⟨p.1, p.2⟩) (fun _ => rfl)

/-- A byte layout: the base-256 digits of the code number of the finished buffer. -/
def wire : Wire where
  encode := fun f => some ((Nat.digits 256 (Encodable.encode f)).map (fun d => Fin.ofNat d))
  decode := fun buf =>
    match buf with
    | none => none
    | some bytes => Encodable.decode (Nat.ofDigits 256 (bytes.map (fun b => b.val)))

end Sample

/-! ## Vocabulary of the results -/

namespace model

open flatbuffers

/-- Whether a reader decodes the buffer and finds exactly one of the output slot and the
error slot present. -/
def exactlyOneSlot (w : Wire) (buf : GoBytes) : Bool :=
  match GetRootAsResponse w buf with
  | none => false
  | some r => xor (Response.hasOutput r) (Response.hasError r)

/-- Whether a reader decodes the buffer and finds the given text in the error slot and the
output slot absent. -/
def carriesOnlyError (w : Wire) (buf : GoBytes) (message : GoString) : Bool :=
  match GetRootAsResponse w buf with
  | none => false
  | some r => decide (Response.Error r = some message) && !Response.hasOutput r

/-- Whether a reader decodes the buffer and finds neither the output slot nor the error slot
present. -/
def noSlot (w : Wire) (buf : GoBytes) : Bool :=
  match GetRootAsResponse w buf with
  | none => false
  | some r => !Response.hasOutput r && !Response.hasError r

/-- The buffer an error response finishes as, on a builder already holding `objs`: the
error text, then a root table with only the error slot set. -/
def errorBuffer (objs : List Object) (message : GoString) : Finished :=
  ⟨(objs ++ [Object.string message]) ++
      [Object.table [(ResponseErrorSlot, Field.uoffset (objs.length + 1))]],
    (objs ++ [Object.string message]).length + 1⟩

/-- The buffer a successful text response finishes as: the text, then a root table with only
the output slot set. -/
def textBuffer (objs : List Object) (output : GoString) : Finished :=
  ⟨(objs ++ [Object.string output]) ++
      [Object.table [(ResponseOutputSlot, Field.uoffset (objs.length + 1))]],
    (objs ++ [Object.string output]).length + 1⟩

/-- The buffer a successful bytes response finishes as: the byte vector, then a root table
with only the output slot set. -/
def vectorBuffer (objs : List Object) (output : GoBytes) : Finished :=
  ⟨(objs ++ [Object.byteVector (output.getD [])]) ++
      [Object.table [(ResponseOutputSlot, Field.uoffset (objs.length + 1))]],
    (objs ++ [Object.byteVector (output.getD [])]).length + 1⟩

/-- The buffer a successful integer or boolean response finishes as when the scalar differs
from its schema default: a root table with only the output slot set, holding the scalar. -/
def scalarBuffer (objs : List Object) (output : Field) : Finished :=
  ⟨objs ++ [Object.table [(ResponseOutputSlot, output)]], objs.length + 1⟩

/-- The buffer a successful integer or boolean response finishes as when the scalar is its
schema default: a root table with no slot set. -/
def defaultBuffer (objs : List Object) : Finished :=
  ⟨objs ++ [Object.table []], objs.length + 1⟩

/-- The buffer a successful key-pair response finishes as: the two key texts, the key-pair
table referring to them, then a root table whose output slot refers to the key-pair table. -/
def keyPairBuffer (objs : List Object) (publicKey privateKey : GoString) : Finished :=
  ⟨(((objs ++ [Object.string publicKey]) ++ [Object.string privateKey]) ++
      [Object.table [(KeyPairPrivateKeySlot,
          Field.uoffset ((objs ++ [Object.string publicKey]).length + 1)),
        (KeyPairPublicKeySlot, Field.uoffset (objs.length + 1))]]) ++
      [Object.table [(ResponseOutputSlot,
        Field.uoffset (((objs ++ [Object.string publicKey]) ++
          [Object.string privateKey]).length + 1))]],
    ((((objs ++ [Object.string publicKey]) ++ [Object.string privateKey]) ++
      [Object.table [(KeyPairPrivateKeySlot,
          Field.uoffset ((objs ++ [Object.string publicKey]).length + 1)),
        (KeyPairPublicKeySlot, Field.uoffset (objs.length + 1))]]).length + 1)⟩

end model

namespace openPGPBridge

/-- Whether the request reader `Call` runs for the name reads the payload without panicking.
A name outside the catalog has no reader and nothing to read. -/
def requestReadable (pkg : model.Package) (name : GoString) (payload : GoBytes) : Bool :=
  if name = lit "decrypt" then
    (model.GetRootAsDecryptRequest pkg payload 0).isReturned
  else if name = lit "decryptFile" then
    (model.GetRootAsDecryptFileRequest pkg payload 0).isReturned
  else if name = lit "decryptBytes" then
    (model.GetRootAsDecryptBytesRequest pkg payload 0).isReturned
  else if name = lit "encrypt" then
    (model.GetRootAsEncryptRequest pkg payload 0).isReturned
  else if name = lit "encryptFile" then
    (model.GetRootAsEncryptFileRequest pkg payload 0).isReturned
  else if name = lit "encryptBytes" then
    (model.GetRootAsEncryptBytesRequest pkg payload 0).isReturned
  else if name = lit "sign" then
    (model.GetRootAsSignRequest pkg payload 0).isReturned
  else if name = lit "signFile" then
    (model.GetRootAsSignFileRequest pkg payload 0).isReturned
  else if name = lit "signBytes" then
    (model.GetRootAsSignBytesRequest pkg payload 0).isReturned
  else if name = lit "signBytesToString" then
    (model.GetRootAsSignBytesRequest pkg payload 0).isReturned
  else if name = lit "verify" then
    (model.GetRootAsVerifyRequest pkg payload 0).isReturned
  else if name = lit "verifyFile" then
    (model.GetRootAsVerifyFileRequest pkg payload 0).isReturned
  else if name = lit "verifyBytes" then
    (model.GetRootAsVerifyBytesRequest pkg payload 0).isReturned
  else if name = lit "decryptSymmetric" then
    (model.GetRootAsDecryptSymmetricRequest pkg payload 0).isReturned
  else if name = lit "decryptSymmetricFile" then
    (model.GetRootAsDecryptSymmetricFileRequest pkg payload 0).isReturned
  else if name = lit "decryptSymmetricBytes" then
    (model.GetRootAsDecryptSymmetricBytesRequest pkg payload 0).isReturned
  else if name = lit "encryptSymmetric" then
    (model.GetRootAsEncryptSymmetricRequest pkg payload 0).isReturned
  else if name = lit "encryptSymmetricFile" then
    (model.GetRootAsEncryptSymmetricFileRequest pkg payload 0).isReturned
  else if name = lit "encryptSymmetricBytes" then
    (model.GetRootAsEncryptSymmetricBytesRequest pkg payload 0).isReturned
  else if name = lit "generate" then
    (model.GetRootAsGenerateRequest pkg payload 0).isReturned
  else if name = lit "armorEncode" then
    (model.GetRootAsArmorEncodeRequest pkg payload 0).isReturned
  else true

/-- The KeyOptions the specification announces for a generate request with empty options:
the values the option decoders give for unset enum codes, and zero levels. -/
def specDefaultKeyOptions : openpgp.KeyOptions :=
  { Hash := lit "sha256"
    Cipher := lit "aes128"
    Compression := lit "none"
    CompressionLevel := 0
    RSABits := 0 }

end openPGPBridge

/-! ## The handler contract in the words of the specification

A handler decodes the request, calls the engine function with the decoded parameters and
encodes the returned pair in the shape of the operation's result type. The definitions below
state the decoding and what a reader finds in an encoded pair, independently of `call.go`;
absent nested messages are resolved as the code resolves them. -/

namespace Spec

/-- A text parameter: the empty string for an absent field, the same octets for a present
one. -/
def text (field : GoBytes) : GoString :=
  field.getD []

/-- The hash table: three explicit codes, every other code (unset included) "sha256". -/
def hash (pkg : model.Package) (code : model.Hash) : GoString :=
  ([(pkg.HashSHA224, lit "sha224"), (pkg.HashSHA384, lit "sha384"),
    (pkg.HashSHA512, lit "sha512")].lookup code).getD (lit "sha256")

/-- The cipher table: two explicit codes, every other code (unset included) "aes128". -/
def cipher (pkg : model.Package) (code : model.Cipher) : GoString :=
  ([(pkg.CipherAES192, lit "aes192"), (pkg.CipherAES256, lit "aes256")].lookup code).getD
    (lit "aes128")

/-- The compression table: two explicit codes, every other code (unset included) "none". -/
def compression (pkg : model.Package) (code : model.Compression) : GoString :=
  ([(pkg.CompressionZIP, lit "zip"), (pkg.CompressionZLIB, lit "zlib")].lookup code).getD
    (lit "none")

/-- The KeyOptions parameter: the zero-valued KeyOptions for an absent message; for a present
one the three enum codes through their tables and the two integers as they are. -/
def keyOptions (pkg : model.Package) (field : Option model.KeyOptions) :
    Option openpgp.KeyOptions :=
  match field with
  | none =>
    some { Hash := [], Cipher := [], Compression := [], CompressionLevel := 0, RSABits := 0 }
  | some k =>
    some { Hash := hash pkg k.Hash
           Cipher := cipher pkg k.Cipher
           Compression := compression pkg k.Compression
           CompressionLevel := k.CompressionLevel
           RSABits := k.RsaBits }

/-- The FileHints parameter: the empty FileHints for an absent message, the three fields of a
present one. -/
def fileHints (field : Option model.FileHints) : Option openpgp.FileHints :=
  match field with
  | none => some { IsBinary := false, FileName := [], ModTime := [] }
  | some h =>
    some { IsBinary := h.IsBinary, FileName := text h.FileName, ModTime := text h.ModTime }

/-- The signer Entity parameter: nil for an absent message, the three texts of a present
one. -/
def entity (field : Option model.Entity) : Option openpgp.Entity :=
  match field with
  | none => none
  | some e =>
    some { PublicKey := text e.PublicKey
           PrivateKey := text e.PrivateKey
           Passphrase := text e.Passphrase }

/-- The Options parameter of generate: for an absent message only the KeyOptions are set, to
the value for an absent KeyOptions; for a present one the KeyOptions and the four texts. -/
def options (pkg : model.Package) (field : Option model.Options) : Option openpgp.Options :=
  match field with
  | none =>
    some { KeyOptions := keyOptions pkg none, Name := [], Comment := [], Email := [],
           Passphrase := [] }
  | some o =>
    some { KeyOptions := keyOptions pkg o.KeyOptions
           Name := text o.Name
           Comment := text o.Comment
           Email := text o.Email
           Passphrase := text o.Passphrase }

/-- What a reader finds in the text encoding of a pair: the error text alone for a non-nil
error, the result alone otherwise. -/
def textResponse (result : GoString) (err : Option GoError) : model.StringResponse :=
  match err with
  | some e => { Output := none, Error := some e.Error }
  | none => { Output := some result, Error := none }

/-- What a reader finds in the bytes encoding of a pair; a nil result reads as no octets. -/
def bytesResponse (result : GoBytes) (err : Option GoError) : model.BytesResponse :=
  match err with
  | some e => { Output := none, Error := some e.Error }
  | none => { Output := some (result.getD []), Error := none }

/-- What a reader finds in the integer encoding of a pair; the output accessor of a response
without output yields 0. -/
def intResponse (result : Int) (err : Option GoError) : model.IntResponse :=
  match err with
  | some e => { Output := 0, Error := some e.Error }
  | none => { Output := result, Error := none }

/-- What a reader finds in the boolean encoding of a pair; the output accessor of a response
without output yields false. -/
def boolResponse (result : Bool) (err : Option GoError) : model.BoolResponse :=
  match err with
  | some e => { Output := false, Error := some e.Error }
  | none => { Output := result, Error := none }

/-- What a reader finds in the key-pair encoding of a pair: the error text alone for a
non-nil error, otherwise the two key texts of the key pair. -/
def keyPairResponse (result : Option openpgp.KeyPair) (err : Option GoError) :
    model.KeyPairResponse :=
  match err with
  | some e => { Output := none, Error := some e.Error }
  | none =>
    { Output := result.map (fun keyPair =>
        { PublicKey := some keyPair.PublicKey, PrivateKey := some keyPair.PrivateKey })
      Error := none }

end Spec

/-! ## Results -/

namespace Sample

open flatbuffers

/-- The sample layout is readable. -/
theorem wire_roundTrips : wire.RoundTrips := by
  intro f
  have hdigits : ((Nat.digits 256 (Encodable.encode f)).map (fun d => (Fin.ofNat d : Byte))).map
      (fun b => b.val) = Nat.digits 256 (Encodable.encode f) := by
    rw [List.map_map]
    conv_rhs => rw [← List.map_id (Nat.digits 256 (Encodable.encode f))]
    apply List.map_congr_left
    intro d hd
    have hlt : d < 256 := Nat.digits_lt_base (by norm_num) hd
    simp [Fin.ofNat, Nat.mod_eq_of_lt hlt]
  show Encodable.decode (Nat.ofDigits 256 (((Nat.digits 256 (Encodable.encode f)).map
    (fun d => (Fin.ofNat d : Byte))).map (fun b => b.val))) = some f
  rw [hdigits, Nat.ofDigits_digits, Encodable.encodek]

end Sample

namespace flatbuffers

/-- The object stored last sits at the offset equal to the number of objects. -/
theorem Finished.object_last (objs : List Object) (t : Object) (root : UOffsetT) :
    (Finished.mk (objs ++ [t]) root).object (objs.length + 1) = some t := by
  simp [Finished.object]

/-- An object followed by further ones is found at its own offset. -/
theorem Finished.object_append (objs : List Object) (a : Object) (rest : List Object)
    (root : UOffsetT) :
    (Finished.mk ((objs ++ [a]) ++ rest) root).object (objs.length + 1) = some a := by
  show ((objs ++ [a]) ++ rest)[objs.length]? = some a
  rw [List.append_assoc, List.getElem?_append_right (le_refl _), Nat.sub_self]
  simp

end flatbuffers

namespace model

open flatbuffers

theorem errorBuffer_slots (objs : List Object) (message : GoString) :
    Response.Error (errorBuffer objs message) = some message ∧
    Response.hasError (errorBuffer objs message) = true ∧
    Response.hasOutput (errorBuffer objs message) = false := by
  have hroot : (errorBuffer objs message).object (errorBuffer objs message).root =
      some (Object.table [(ResponseErrorSlot, Field.uoffset (objs.length + 1))]) :=
    Finished.object_last _ _ _
  have htext : (errorBuffer objs message).object (objs.length + 1) =
      some (Object.string message) :=
    Finished.object_append _ _ _ _
  refine ⟨?_, ?_, ?_⟩
  · simp [Response.Error, Finished.bytesField, Finished.field, hroot, htext, List.lookup]
  · simp [Response.hasError, Finished.field, hroot, List.lookup]
  · simp [Response.hasOutput, Finished.field, hroot, List.lookup, ResponseOutputSlot,
      ResponseErrorSlot]

end model

namespace model

open flatbuffers

theorem textBuffer_slots (objs : List Object) (output : GoString) :
    Response.OutputBytes (textBuffer objs output) = some output ∧
    Response.Error (textBuffer objs output) = none ∧
    Response.hasOutput (textBuffer objs output) = true ∧
    Response.hasError (textBuffer objs output) = false := by
  have hroot : (textBuffer objs output).object (textBuffer objs output).root =
      some (Object.table [(ResponseOutputSlot, Field.uoffset (objs.length + 1))]) :=
    Finished.object_last _ _ _
  have htext : (textBuffer objs output).object (objs.length + 1) =
      some (Object.string output) :=
    Finished.object_append _ _ _ _
  refine ⟨?_, ?_, ?_, ?_⟩
  · simp [Response.OutputBytes, Finished.bytesField, Finished.field, hroot, htext, List.lookup]
  · simp [Response.Error, Finished.bytesField, Finished.field, hroot, List.lookup,
      ResponseOutputSlot, ResponseErrorSlot]
  · simp [Response.hasOutput, Finished.field, hroot, List.lookup]
  · simp [Response.hasError, Finished.field, hroot, List.lookup, ResponseOutputSlot,
      ResponseErrorSlot]

theorem vectorBuffer_slots (objs : List Object) (output : GoBytes) :
    Response.OutputBytes (vectorBuffer objs output) = some (output.getD []) ∧
    Response.Error (vectorBuffer objs output) = none ∧
    Response.hasOutput (vectorBuffer objs output) = true ∧
    Response.hasError (vectorBuffer objs output) = false := by
  have hroot : (vectorBuffer objs output).object (vectorBuffer objs output).root =
      some (Object.table [(ResponseOutputSlot, Field.uoffset (objs.length + 1))]) :=
    Finished.object_last _ _ _
  have hvec : (vectorBuffer objs output).object (objs.length + 1) =
      some (Object.byteVector (output.getD [])) :=
    Finished.object_append _ _ _ _
  refine ⟨?_, ?_, ?_, ?_⟩
  · simp [Response.OutputBytes, Finished.bytesField, Finished.field, hroot, hvec, List.lookup]
  · simp [Response.Error, Finished.bytesField, Finished.field, hroot, List.lookup,
      ResponseOutputSlot, ResponseErrorSlot]
  · simp [Response.hasOutput, Finished.field, hroot, List.lookup]
  · simp [Response.hasError, Finished.field, hroot, List.lookup, ResponseOutputSlot,
      ResponseErrorSlot]

theorem scalarBuffer_slots (objs : List Object) (output : Field) :
    (scalarBuffer objs output).field (scalarBuffer objs output).root ResponseOutputSlot =
      some output ∧
    Response.Error (scalarBuffer objs output) = none ∧
    Response.hasOutput (scalarBuffer objs output) = true ∧
    Response.hasError (scalarBuffer objs output) = false := by
  have hroot : (scalarBuffer objs output).object (scalarBuffer objs output).root =
      some (Object.table [(ResponseOutputSlot, output)]) :=
    Finished.object_last _ _ _
  refine ⟨?_, ?_, ?_, ?_⟩
  · simp [Finished.field, hroot, List.lookup]
  · simp [Response.Error, Finished.bytesField, Finished.field, hroot, List.lookup,
      ResponseOutputSlot, ResponseErrorSlot]
  · simp [Response.hasOutput, Finished.field, hroot, List.lookup]
  · simp [Response.hasError, Finished.field, hroot, List.lookup, ResponseOutputSlot,
      ResponseErrorSlot]

theorem keyPairBuffer_slots (objs : List Object) (publicKey privateKey : GoString) :
    Response.Error (keyPairBuffer objs publicKey privateKey) = none ∧
    Response.hasOutput (keyPairBuffer objs publicKey privateKey) = true ∧
    Response.hasError (keyPairBuffer objs publicKey privateKey) = false := by
  have hroot : (keyPairBuffer objs publicKey privateKey).object
      (keyPairBuffer objs publicKey privateKey).root =
      some (Object.table [(ResponseOutputSlot,
        Field.uoffset (((objs ++ [Object.string publicKey]) ++
          [Object.string privateKey]).length + 1))]) :=
    Finished.object_last _ _ _
  refine ⟨?_, ?_, ?_⟩
  · simp [Response.Error, Finished.bytesField, Finished.field, hroot, List.lookup,
      ResponseOutputSlot, ResponseErrorSlot]
  · simp [Response.hasOutput, Finished.field, hroot, List.lookup]
  · simp [Response.hasError, Finished.field, hroot, List.lookup, ResponseOutputSlot,
      ResponseErrorSlot]

/-- A readable layout gives back the slots of an error buffer. -/
theorem carriesOnlyError_encode (w : Wire) (hw : w.RoundTrips) (objs : List Object)
    (message : GoString) :
    carriesOnlyError w (w.encode (errorBuffer objs message)) message = true := by
  obtain ⟨h1, _, h3⟩ := errorBuffer_slots objs message
  simp [carriesOnlyError, GetRootAsResponse, hw (errorBuffer objs message), h1, h3]

/-- A readable layout shows exactly one slot on a decoded buffer whose two slot flags
differ. -/
theorem exactlyOneSlot_encode (w : Wire) (hw : w.RoundTrips) (f : Finished)
    (h : Response.hasOutput f ≠ Response.hasError f) :
    exactlyOneSlot w (w.encode f) = true := by
  simp only [exactlyOneSlot, GetRootAsResponse, hw f]
  revert h
  cases Response.hasOutput f <;> cases Response.hasError f <;> simp

end model

namespace openPGPBridge

open flatbuffers

section encoderEquations

variable (wire : Wire) (m : Instance) (response : Builder)

theorem keyPairResponse_error (output : Option openpgp.KeyPair) (e : GoError) :
    m._keyPairResponse wire response output (some e) =
      Outcome.returned (wire.encode (model.errorBuffer response.objects e.Error)) := rfl

theorem keyPairResponse_ok (output : openpgp.KeyPair) :
    m._keyPairResponse wire response (some output) none =
      Outcome.returned (wire.encode
        (model.keyPairBuffer response.objects output.PublicKey output.PrivateKey)) := rfl

theorem keyPairResponse_nil :
    m._keyPairResponse wire response none none = Outcome.panicked := rfl

theorem boolResponse_error (output : Bool) (e : GoError) :
    m._boolResponse wire response output (some e) =
      wire.encode (model.errorBuffer response.objects e.Error) := rfl

theorem boolResponse_true :
    m._boolResponse wire response true none =
      wire.encode (model.scalarBuffer response.objects (Field.bool true)) := rfl

theorem boolResponse_false :
    m._boolResponse wire response false none =
      wire.encode (model.defaultBuffer response.objects) := rfl

theorem bytesResponse_error (output : GoBytes) (e : GoError) :
    m._bytesResponse wire response output (some e) =
      wire.encode (model.errorBuffer response.objects e.Error) := rfl

theorem bytesResponse_ok (output : GoBytes) :
    m._bytesResponse wire response output none =
      wire.encode (model.vectorBuffer response.objects output) := rfl

theorem intResponse_error (output : Int) (e : GoError) :
    m._intResponse wire response output (some e) =
      wire.encode (model.errorBuffer response.objects e.Error) := rfl

theorem intResponse_ok (output : Int) (h : output ≠ 0) :
    m._intResponse wire response output none =
      wire.encode (model.scalarBuffer response.objects (Field.int64 output)) := by
  simp only [Instance._intResponse, model.IntResponseAddOutput, if_neg h]
  rfl

theorem intResponse_zero :
    m._intResponse wire response 0 none =
      wire.encode (model.defaultBuffer response.objects) := rfl

theorem stringResponse_error (output : GoString) (e : GoError) :
    m._stringResponse wire response output (some e) =
      wire.encode (model.errorBuffer response.objects e.Error) := rfl

theorem stringResponse_ok (output : GoString) :
    m._stringResponse wire response output none =
      wire.encode (model.textBuffer response.objects output) := rfl

end encoderEquations

end openPGPBridge

namespace flatbuffers

/-- An object is found at the offset one past the number of objects before it. -/
theorem Finished.object_at (front back : List Object) (a : Object) (root : UOffsetT) :
    (Finished.mk (front ++ a :: back) root).object (front.length + 1) = some a := by
  show (front ++ a :: back)[front.length]? = some a
  rw [List.getElem?_append_right (le_refl _), Nat.sub_self]
  simp

end flatbuffers

namespace model

open flatbuffers

/-- A buffer whose root table has no output slot reads as the defaults of every shape. -/
theorem output_absent_views (r : Finished) (h : r.field r.root ResponseOutputSlot = none) :
    Response.hasOutput r = false ∧ Response.OutputBytes r = none ∧
    Response.OutputInt r = 0 ∧ Response.OutputBool r = false ∧
    Response.OutputKeyPair r = none := by
  simp [Response.hasOutput, Response.OutputBytes, Response.OutputInt, Response.OutputBool,
    Response.OutputKeyPair, Finished.bytesField, h]

theorem errorBuffer_output_absent (objs : List Object) (message : GoString) :
    (errorBuffer objs message).field (errorBuffer objs message).root ResponseOutputSlot =
      none := by
  have hroot : (errorBuffer objs message).object (errorBuffer objs message).root =
      some (Object.table [(ResponseErrorSlot, Field.uoffset (objs.length + 1))]) :=
    Finished.object_last _ _ _
  simp [Finished.field, hroot, List.lookup, ResponseOutputSlot, ResponseErrorSlot]

theorem defaultBuffer_slots (objs : List Object) :
    (defaultBuffer objs).field (defaultBuffer objs).root ResponseOutputSlot = none ∧
    Response.Error (defaultBuffer objs) = none ∧
    Response.hasError (defaultBuffer objs) = false := by
  have hroot : (defaultBuffer objs).object (defaultBuffer objs).root =
      some (Object.table []) :=
    Finished.object_last _ _ _
  refine ⟨?_, ?_, ?_⟩
  · simp [Finished.field, hroot, List.lookup]
  · simp [Response.Error, Finished.bytesField, Finished.field, hroot, List.lookup]
  · simp [Response.hasError, Finished.field, hroot, List.lookup]

theorem scalarBuffer_views (objs : List Object) :
    (∀ x : Int, Response.OutputInt (scalarBuffer objs (Field.int64 x)) = x) ∧
    (∀ x : Bool, Response.OutputBool (scalarBuffer objs (Field.bool x)) = x) := by
  constructor
  · intro x
    have h := (scalarBuffer_slots objs (Field.int64 x)).1
    simp [Response.OutputInt, h]
  · intro x
    have h := (scalarBuffer_slots objs (Field.bool x)).1
    simp [Response.OutputBool, h]

theorem keyPairBuffer_view (objs : List Object) (publicKey privateKey : GoString) :
    Response.OutputKeyPair (keyPairBuffer objs publicKey privateKey) =
      some { PublicKey := some publicKey, PrivateKey := some privateKey } := by
  have hroot : (keyPairBuffer objs publicKey privateKey).object
      (keyPairBuffer objs publicKey privateKey).root =
      some (Object.table [(ResponseOutputSlot,
        Field.uoffset (((objs ++ [Object.string publicKey]) ++
          [Object.string privateKey]).length + 1))]) :=
    Finished.object_last _ _ _
  have hpair : (keyPairBuffer objs publicKey privateKey).object
      (((objs ++ [Object.string publicKey]) ++ [Object.string privateKey]).length + 1) =
      some (Object.table [(KeyPairPrivateKeySlot,
          Field.uoffset ((objs ++ [Object.string publicKey]).length + 1)),
        (KeyPairPublicKeySlot, Field.uoffset (objs.length + 1))]) :=
    Finished.object_append _ _ _ _
  have hprivate : (keyPairBuffer objs publicKey privateKey).object
      ((objs ++ [Object.string publicKey]).length + 1) = some (Object.string privateKey) := by
    have h := Finished.object_at (objs ++ [Object.string publicKey])
      [Object.table [(KeyPairPrivateKeySlot,
          Field.uoffset ((objs ++ [Object.string publicKey]).length + 1)),
        (KeyPairPublicKeySlot, Field.uoffset (objs.length + 1))],
       Object.table [(ResponseOutputSlot,
        Field.uoffset (((objs ++ [Object.string publicKey]) ++
          [Object.string privateKey]).length + 1))]]
      (Object.string privateKey) (keyPairBuffer objs publicKey privateKey).root
    simpa [keyPairBuffer, List.append_assoc] using h
  have hpublic : (keyPairBuffer objs publicKey privateKey).object (objs.length + 1) =
      some (Object.string publicKey) := by
    have h := Finished.object_at objs
      [Object.string privateKey,
       Object.table [(KeyPairPrivateKeySlot,
          Field.uoffset ((objs ++ [Object.string publicKey]).length + 1)),
        (KeyPairPublicKeySlot, Field.uoffset (objs.length + 1))],
       Object.table [(ResponseOutputSlot,
        Field.uoffset (((objs ++ [Object.string publicKey]) ++
          [Object.string privateKey]).length + 1))]]
      (Object.string publicKey) (keyPairBuffer objs publicKey privateKey).root
    simpa [keyPairBuffer, List.append_assoc] using h
  have hprivate2 : (keyPairBuffer objs publicKey privateKey).object (objs.length + 1 + 1) =
      some (Object.string privateKey) := by
    rw [← hprivate, List.length_append, List.length_singleton]
  simp only [Response.OutputKeyPair, Finished.field, hroot, List.lookup, beq_self_eq_true,
    hpair, Finished.bytesField]
  simp [KeyPairPublicKeySlot, KeyPairPrivateKeySlot, List.lookup, hprivate2, hpublic]

/-- A readable layout shows no slot on a decoded buffer that has neither. -/
theorem noSlot_encode (w : Wire) (hw : w.RoundTrips) (f : Finished)
    (ho : Response.hasOutput f = false) (he : Response.hasError f = false) :
    noSlot w (w.encode f) = true := by
  simp [noSlot, GetRootAsResponse, hw f, ho, he]

/-- A readable layout shows two or no slots on a decoded buffer whose slot flags agree. -/
theorem exactlyOneSlot_encode_false (w : Wire) (hw : w.RoundTrips) (f : Finished)
    (h : Response.hasOutput f = Response.hasError f) :
    exactlyOneSlot w (w.encode f) = false := by
  simp [exactlyOneSlot, GetRootAsResponse, hw f, h]

end model

namespace openPGPBridge

open flatbuffers

/-- Both branches of a handler pass the engine's error on to the encoder, so the handler
encodes the `(result, error)` pair as the engine returned it. -/
theorem Run.match_err {α β : Type} (r : openpgp.Invoked α)
    (enc : α → Option GoError → Outcome β) :
    (match r.err with
      | some err => (⟨[r.event], enc r.output (some err)⟩ : Run β)
      | none => ⟨[r.event], enc r.output none⟩) = ⟨[r.event], enc r.output r.err⟩ := by
  cases r.err <;> rfl

section handlerEquations

variable (pkg : model.Package) (wire : Wire) (m : Instance) (payload : GoBytes)

/-- What `decrypt` does on a request it could read: one `Decrypt` invocation on the
decoded fields, then the encoding of the pair it returned. -/
theorem decrypt_eq (request : model.DecryptRequest)
    (hread : model.GetRootAsDecryptRequest pkg payload 0 = Outcome.returned request) :
    m.decrypt pkg wire payload =
      let result := m.inst.Decrypt (m.toString request.Message) (m.toString request.PrivateKey)
        (m.toString request.Passphrase) (m.parseKeyOptions pkg request.Options)
      { trace := [{ call := openpgp.EngineCall.Decrypt (m.toString request.Message)
                        (m.toString request.PrivateKey) (m.toString request.Passphrase)
                        (m.parseKeyOptions pkg request.Options),
                    err := result.2 }]
        outcome := Outcome.returned (m._stringResponse wire (NewBuilder 0) result.1 result.2) } := by
  unfold Instance.decrypt
  rw [hread]
  exact Run.match_err (m.inst.invokeDecrypt _ _ _ _)
    (fun o e => Outcome.returned (m._stringResponse wire (NewBuilder 0) o e))

/-- What `decrypt` does on a request it could not read: it panics before any engine
invocation. -/
theorem decrypt_unread
    (hread : model.GetRootAsDecryptRequest pkg payload 0 = Outcome.panicked) :
    m.decrypt pkg wire payload = { trace := [], outcome := Outcome.panicked } := by
  unfold Instance.decrypt
  rw [hread]

/-- What `decryptFile` does on a request it could read: one `DecryptFile` invocation on the
decoded fields, then the encoding of the pair it returned. -/
theorem decryptFile_eq (request : model.DecryptFileRequest)
    (hread : model.GetRootAsDecryptFileRequest pkg payload 0 = Outcome.returned request) :
    m.decryptFile pkg wire payload =
      let result := m.inst.DecryptFile (m.toString request.Input) (m.toString request.Output)
        (m.toString request.PrivateKey) (m.toString request.Passphrase)
        (m.parseKeyOptions pkg request.Options)
      { trace := [{ call := openpgp.EngineCall.DecryptFile (m.toString request.Input)
                        (m.toString request.Output) (m.toString request.PrivateKey)
                        (m.toString request.Passphrase) (m.parseKeyOptions pkg request.Options),
                    err := result.2 }]
        outcome := Outcome.returned
          (m._intResponse wire (NewBuilder 0) (int64 result.1) result.2) } := by
  unfold Instance.decryptFile
  rw [hread]
  exact Run.match_err (m.inst.invokeDecryptFile _ _ _ _ _)
    (fun o e => Outcome.returned (m._intResponse wire (NewBuilder 0) (int64 o) e))

/-- What `decryptFile` does on a request it could not read: it panics before any engine
invocation. -/
theorem decryptFile_unread
    (hread : model.GetRootAsDecryptFileRequest pkg payload 0 = Outcome.panicked) :
    m.decryptFile pkg wire payload = { trace := [], outcome := Outcome.panicked } := by
  unfold Instance.decryptFile
  rw [hread]

/-- What `decryptBytes` does on a request it could read: one `DecryptBytes` invocation on the
decoded fields, then the encoding of the pair it returned. -/
theorem decryptBytes_eq (request : model.DecryptBytesRequest)
    (hread : model.GetRootAsDecryptBytesRequest pkg payload 0 = Outcome.returned request) :
    m.decryptBytes pkg wire payload =
      let result := m.inst.DecryptBytes request.MessageBytes (m.toString request.PrivateKey)
        (m.toString request.Passphrase) (m.parseKeyOptions pkg request.Options)
      { trace := [{ call := openpgp.EngineCall.DecryptBytes request.MessageBytes
                        (m.toString request.PrivateKey) (m.toString request.Passphrase)
                        (m.parseKeyOptions pkg request.Options),
                    err := result.2 }]
        outcome := Outcome.returned (m._bytesResponse wire (NewBuilder 0) result.1 result.2) } := by
  unfold Instance.decryptBytes
  rw [hread]
  exact Run.match_err (m.inst.invokeDecryptBytes _ _ _ _)
    (fun o e => Outcome.returned (m._bytesResponse wire (NewBuilder 0) o e))

/-- What `decryptBytes` does on a request it could not read: it panics before any engine
invocation. -/
theorem decryptBytes_unread
    (hread : model.GetRootAsDecryptBytesRequest pkg payload 0 = Outcome.panicked) :
    m.decryptBytes pkg wire payload = { trace := [], outcome := Outcome.panicked } := by
  unfold Instance.decryptBytes
  rw [hread]

/-- What `encrypt` does on a request it could read: one `Encrypt` invocation on the
decoded fields, then the encoding of the pair it returned. -/
theorem encrypt_eq (request : model.EncryptRequest)
    (hread : model.GetRootAsEncryptRequest pkg payload 0 = Outcome.returned request) :
    m.encrypt pkg wire payload =
      let result := m.inst.Encrypt (m.toString request.Message) (m.toString request.PublicKey)
        (m.parseEntity request.Signed) (m.parseFileHints request.FileHints)
        (m.parseKeyOptions pkg request.Options)
      { trace := [{ call := openpgp.EngineCall.Encrypt (m.toString request.Message)
                        (m.toString request.PublicKey) (m.parseEntity request.Signed)
                        (m.parseFileHints request.FileHints)
                        (m.parseKeyOptions pkg request.Options),
                    err := result.2 }]
        outcome := Outcome.returned (m._stringResponse wire (NewBuilder 0) result.1 result.2) } := by
  unfold Instance.encrypt
  rw [hread]
  exact Run.match_err (m.inst.invokeEncrypt _ _ _ _ _)
    (fun o e => Outcome.returned (m._stringResponse wire (NewBuilder 0) o e))

/-- What `encrypt` does on a request it could not read: it panics before any engine
invocation. -/
theorem encrypt_unread
    (hread : model.GetRootAsEncryptRequest pkg payload 0 = Outcome.panicked) :
    m.encrypt pkg wire payload = { trace := [], outcome := Outcome.panicked } := by
  unfold Instance.encrypt
  rw [hread]

/-- What `encryptFile` does on a request it could read: one `EncryptFile` invocation on the
decoded fields, then the encoding of the pair it returned. -/
theorem encryptFile_eq (request : model.EncryptFileRequest)
    (hread : model.GetRootAsEncryptFileRequest pkg payload 0 = Outcome.returned request) :
    m.encryptFile pkg wire payload =
      let result := m.inst.EncryptFile (m.toString request.Input) (m.toString request.Output)
        (m.toString request.PublicKey) (m.parseEntity request.Signed)
        (m.parseFileHints request.FileHints) (m.parseKeyOptions pkg request.Options)
      { trace := [{ call := openpgp.EngineCall.EncryptFile (m.toString request.Input)
                        (m.toString request.Output) (m.toString request.PublicKey)
                        (m.parseEntity request.Signed) (m.parseFileHints request.FileHints)
                        (m.parseKeyOptions pkg request.Options),
                    err := result.2 }]
        outcome := Outcome.returned
          (m._intResponse wire (NewBuilder 0) (int64 result.1) result.2) } := by
  unfold Instance.encryptFile
  rw [hread]
  exact Run.match_err (m.inst.invokeEncryptFile _ _ _ _ _ _)
    (fun o e => Outcome.returned (m._intResponse wire (NewBuilder 0) (int64 o) e))

/-- What `encryptFile` does on a request it could not read: it panics before any engine
invocation. -/
theorem encryptFile_unread
    (hread : model.GetRootAsEncryptFileRequest pkg payload 0 = Outcome.panicked) :
    m.encryptFile pkg wire payload = { trace := [], outcome := Outcome.panicked } := by
  unfold Instance.encryptFile
  rw [hread]

/-- What `encryptBytes` does on a request it could read: one `EncryptBytes` invocation on the
decoded fields, then the encoding of the pair it returned. -/
theorem encryptBytes_eq (request : model.EncryptBytesRequest)
    (hread : model.GetRootAsEncryptBytesRequest pkg payload 0 = Outcome.returned request) :
    m.encryptBytes pkg wire payload =
      let result := m.inst.EncryptBytes request.MessageBytes (m.toString request.PublicKey)
        (m.parseEntity request.Signed) (m.parseFileHints request.FileHints)
        (m.parseKeyOptions pkg request.Options)
      { trace := [{ call := openpgp.EngineCall.EncryptBytes request.MessageBytes
                        (m.toString request.PublicKey) (m.parseEntity request.Signed)
                        (m.parseFileHints request.FileHints)
                        (m.parseKeyOptions pkg request.Options),
                    err := result.2 }]
        outcome := Outcome.returned (m._bytesResponse wire (NewBuilder 0) result.1 result.2) } := by
  unfold Instance.encryptBytes
  rw [hread]
  exact Run.match_err (m.inst.invokeEncryptBytes _ _ _ _ _)
    (fun o e => Outcome.returned (m._bytesResponse wire (NewBuilder 0) o e))

/-- What `encryptBytes` does on a request it could not read: it panics before any engine
invocation. -/
theorem encryptBytes_unread
    (hread : model.GetRootAsEncryptBytesRequest pkg payload 0 = Outcome.panicked) :
    m.encryptBytes pkg wire payload = { trace := [], outcome := Outcome.panicked } := by
  unfold Instance.encryptBytes
  rw [hread]

/-- What `sign` does on a request it could read: one `Sign` invocation on the
decoded fields, then the encoding of the pair it returned. -/
theorem sign_eq (request : model.SignRequest)
    (hread : model.GetRootAsSignRequest pkg payload 0 = Outcome.returned request) :
    m.sign pkg wire payload =
      let result := m.inst.Sign (m.toString request.Message) (m.toString request.PublicKey)
        (m.toString request.PrivateKey) (m.toString request.Passphrase)
        (m.parseKeyOptions pkg request.Options)
      { trace := [{ call := openpgp.EngineCall.Sign (m.toString request.Message)
                        (m.toString request.PublicKey) (m.toString request.PrivateKey)
                        (m.toString request.Passphrase) (m.parseKeyOptions pkg request.Options),
                    err := result.2 }]
        outcome := Outcome.returned (m._stringResponse wire (NewBuilder 0) result.1 result.2) } := by
  unfold Instance.sign
  rw [hread]
  exact Run.match_err (m.inst.invokeSign _ _ _ _ _)
    (fun o e => Outcome.returned (m._stringResponse wire (NewBuilder 0) o e))

/-- What `sign` does on a request it could not read: it panics before any engine
invocation. -/
theorem sign_unread
    (hread : model.GetRootAsSignRequest pkg payload 0 = Outcome.panicked) :
    m.sign pkg wire payload = { trace := [], outcome := Outcome.panicked } := by
  unfold Instance.sign
  rw [hread]

/-- What `signFile` does on a request it could read: one `SignFile` invocation on the
decoded fields, then the encoding of the pair it returned. -/
theorem signFile_eq (request : model.SignFileRequest)
    (hread : model.GetRootAsSignFileRequest pkg payload 0 = Outcome.returned request) :
    m.signFile pkg wire payload =
      let result := m.inst.SignFile (m.toString request.Input) (m.toString request.PublicKey)
        (m.toString request.PrivateKey) (m.toString request.Passphrase)
        (m.parseKeyOptions pkg request.Options)
      { trace := [{ call := openpgp.EngineCall.SignFile (m.toString request.Input)
                        (m.toString request.PublicKey) (m.toString request.PrivateKey)
                        (m.toString request.Passphrase) (m.parseKeyOptions pkg request.Options),
                    err := result.2 }]
        outcome := Outcome.returned (m._stringResponse wire (NewBuilder 0) result.1 result.2) } := by
  unfold Instance.signFile
  rw [hread]
  exact Run.match_err (m.inst.invokeSignFile _ _ _ _ _)
    (fun o e => Outcome.returned (m._stringResponse wire (NewBuilder 0) o e))

/-- What `signFile` does on a request it could not read: it panics before any engine
invocation. -/
theorem signFile_unread
    (hread : model.GetRootAsSignFileRequest pkg payload 0 = Outcome.panicked) :
    m.signFile pkg wire payload = { trace := [], outcome := Outcome.panicked } := by
  unfold Instance.signFile
  rw [hread]

/-- What `signBytes` does on a request it could read: one `SignBytes` invocation on the
decoded fields, then the encoding of the pair it returned. -/
theorem signBytes_eq (request : model.SignBytesRequest)
    (hread : model.GetRootAsSignBytesRequest pkg payload 0 = Outcome.returned request) :
    m.signBytes pkg wire payload =
      let result := m.inst.SignBytes request.MessageBytes (m.toString request.PublicKey)
        (m.toString request.PrivateKey) (m.toString request.Passphrase)
        (m.parseKeyOptions pkg request.Options)
      { trace := [{ call := openpgp.EngineCall.SignBytes request.MessageBytes
                        (m.toString request.PublicKey) (m.toString request.PrivateKey)
                        (m.toString request.Passphrase) (m.parseKeyOptions pkg request.Options),
                    err := result.2 }]
        outcome := Outcome.returned (m._bytesResponse wire (NewBuilder 0) result.1 result.2) } := by
  unfold Instance.signBytes
  rw [hread]
  exact Run.match_err (m.inst.invokeSignBytes _ _ _ _ _)
    (fun o e => Outcome.returned (m._bytesResponse wire (NewBuilder 0) o e))

/-- What `signBytes` does on a request it could not read: it panics before any engine
invocation. -/
theorem signBytes_unread
    (hread : model.GetRootAsSignBytesRequest pkg payload 0 = Outcome.panicked) :
    m.signBytes pkg wire payload = { trace := [], outcome := Outcome.panicked } := by
  unfold Instance.signBytes
  rw [hread]

/-- What `signBytesToString` does on a request it could read: one `SignBytesToString` invocation on the
decoded fields, then the encoding of the pair it returned. -/
theorem signBytesToString_eq (request : model.SignBytesRequest)
    (hread : model.GetRootAsSignBytesRequest pkg payload 0 = Outcome.returned request) :
    m.signBytesToString pkg wire payload =
      let result := m.inst.SignBytesToString request.MessageBytes (m.toString request.PublicKey)
        (m.toString request.PrivateKey) (m.toString request.Passphrase)
        (m.parseKeyOptions pkg request.Options)
      { trace := [{ call := openpgp.EngineCall.SignBytesToString request.MessageBytes
                        (m.toString request.PublicKey) (m.toString request.PrivateKey)
                        (m.toString request.Passphrase) (m.parseKeyOptions pkg request.Options),
                    err := result.2 }]
        outcome := Outcome.returned (m._stringResponse wire (NewBuilder 0) result.1 result.2) } := by
  unfold Instance.signBytesToString
  rw [hread]
  exact Run.match_err (m.inst.invokeSignBytesToString _ _ _ _ _)
    (fun o e => Outcome.returned (m._stringResponse wire (NewBuilder 0) o e))

/-- What `signBytesToString` does on a request it could not read: it panics before any engine
invocation. -/
theorem signBytesToString_unread
    (hread : model.GetRootAsSignBytesRequest pkg payload 0 = Outcome.panicked) :
    m.signBytesToString pkg wire payload = { trace := [], outcome := Outcome.panicked } := by
  unfold Instance.signBytesToString
  rw [hread]

/-- What `verify` does on a request it could read: one `Verify` invocation on the
decoded fields, then the encoding of the pair it returned. -/
theorem verify_eq (request : model.VerifyRequest)
    (hread : model.GetRootAsVerifyRequest pkg payload 0 = Outcome.returned request) :
    m.verify pkg wire payload =
      let result := m.inst.Verify (m.toString request.Signature) (m.toString request.Message)
        (m.toString request.PublicKey)
      { trace := [{ call := openpgp.EngineCall.Verify (m.toString request.Signature)
                        (m.toString request.Message) (m.toString request.PublicKey),
                    err := result.2 }]
        outcome := Outcome.returned (m._boolResponse wire (NewBuilder 0) result.1 result.2) } := by
  unfold Instance.verify
  rw [hread]
  exact Run.match_err (m.inst.invokeVerify _ _ _)
    (fun o e => Outcome.returned (m._boolResponse wire (NewBuilder 0) o e))

/-- What `verify` does on a request it could not read: it panics before any engine
invocation. -/
theorem verify_unread
    (hread : model.GetRootAsVerifyRequest pkg payload 0 = Outcome.panicked) :
    m.verify pkg wire payload = { trace := [], outcome := Outcome.panicked } := by
  unfold Instance.verify
  rw [hread]

/-- What `verifyFile` does on a request it could read: one `VerifyFile` invocation on the
decoded fields, then the encoding of the pair it returned. -/
theorem verifyFile_eq (request : model.VerifyFileRequest)
    (hread : model.GetRootAsVerifyFileRequest pkg payload 0 = Outcome.returned request) :
    m.verifyFile pkg wire payload =
      let result := m.inst.VerifyFile (m.toString request.Signature) (m.toString request.Input)
        (m.toString request.PublicKey)
      { trace := [{ call := openpgp.EngineCall.VerifyFile (m.toString request.Signature)
                        (m.toString request.Input) (m.toString request.PublicKey),
                    err := result.2 }]
        outcome := Outcome.returned (m._boolResponse wire (NewBuilder 0) result.1 result.2) } := by
  unfold Instance.verifyFile
  rw [hread]
  exact Run.match_err (m.inst.invokeVerifyFile _ _ _)
    (fun o e => Outcome.returned (m._boolResponse wire (NewBuilder 0) o e))

/-- What `verifyFile` does on a request it could not read: it panics before any engine
invocation. -/
theorem verifyFile_unread
    (hread : model.GetRootAsVerifyFileRequest pkg payload 0 = Outcome.panicked) :
    m.verifyFile pkg wire payload = { trace := [], outcome := Outcome.panicked } := by
  unfold Instance.verifyFile
  rw [hread]

/-- What `verifyBytes` does on a request it could read: one `VerifyBytes` invocation on the
decoded fields, then the encoding of the pair it returned. -/
theorem verifyBytes_eq (request : model.VerifyBytesRequest)
    (hread : model.GetRootAsVerifyBytesRequest pkg payload 0 = Outcome.returned request) :
    m.verifyBytes pkg wire payload =
      let result := m.inst.VerifyBytes (m.toString request.Signature) request.MessageBytes
        (m.toString request.PublicKey)
      { trace := [{ call := openpgp.EngineCall.VerifyBytes (m.toString request.Signature)
                        request.MessageBytes (m.toString request.PublicKey),
                    err := result.2 }]
        outcome := Outcome.returned (m._boolResponse wire (NewBuilder 0) result.1 result.2) } := by
  unfold Instance.verifyBytes
  rw [hread]
  exact Run.match_err (m.inst.invokeVerifyBytes _ _ _)
    (fun o e => Outcome.returned (m._boolResponse wire (NewBuilder 0) o e))

/-- What `verifyBytes` does on a request it could not read: it panics before any engine
invocation. -/
theorem verifyBytes_unread
    (hread : model.GetRootAsVerifyBytesRequest pkg payload 0 = Outcome.panicked) :
    m.verifyBytes pkg wire payload = { trace := [], outcome := Outcome.panicked } := by
  unfold Instance.verifyBytes
  rw [hread]

/-- What `decryptSymmetric` does on a request it could read: one `DecryptSymmetric` invocation on the
decoded fields, then the encoding of the pair it returned. -/
theorem decryptSymmetric_eq (request : model.DecryptSymmetricRequest)
    (hread : model.GetRootAsDecryptSymmetricRequest pkg payload 0 = Outcome.returned request) :
    m.decryptSymmetric pkg wire payload =
      let result := m.inst.DecryptSymmetric (m.toString request.Message)
        (m.toString request.Passphrase) (m.parseKeyOptions pkg request.Options)
      { trace := [{ call := openpgp.EngineCall.DecryptSymmetric (m.toString request.Message)
                        (m.toString request.Passphrase) (m.parseKeyOptions pkg request.Options),
                    err := result.2 }]
        outcome := Outcome.returned (m._stringResponse wire (NewBuilder 0) result.1 result.2) } := by
  unfold Instance.decryptSymmetric
  rw [hread]
  exact Run.match_err (m.inst.invokeDecryptSymmetric _ _ _)
    (fun o e => Outcome.returned (m._stringResponse wire (NewBuilder 0) o e))

/-- What `decryptSymmetric` does on a request it could not read: it panics before any engine
invocation. -/
theorem decryptSymmetric_unread
    (hread : model.GetRootAsDecryptSymmetricRequest pkg payload 0 = Outcome.panicked) :
    m.decryptSymmetric pkg wire payload = { trace := [], outcome := Outcome.panicked } := by
  unfold Instance.decryptSymmetric
  rw [hread]

/-- What `decryptSymmetricFile` does on a request it could read: one `DecryptSymmetricFile` invocation on the
decoded fields, then the encoding of the pair it returned. -/
theorem decryptSymmetricFile_eq (request : model.DecryptSymmetricFileRequest)
    (hread : model.GetRootAsDecryptSymmetricFileRequest pkg payload 0 = Outcome.returned request) :
    m.decryptSymmetricFile pkg wire payload =
      let result := m.inst.DecryptSymmetricFile (m.toString request.Input)
        (m.toString request.Output) (m.toString request.Passphrase)
        (m.parseKeyOptions pkg request.Options)
      { trace := [{ call := openpgp.EngineCall.DecryptSymmetricFile (m.toString request.Input)
                        (m.toString request.Output) (m.toString request.Passphrase)
                        (m.parseKeyOptions pkg request.Options),
                    err := result.2 }]
        outcome := Outcome.returned
          (m._intResponse wire (NewBuilder 0) (int64 result.1) result.2) } := by
  unfold Instance.decryptSymmetricFile
  rw [hread]
  exact Run.match_err (m.inst.invokeDecryptSymmetricFile _ _ _ _)
    (fun o e => Outcome.returned (m._intResponse wire (NewBuilder 0) (int64 o) e))

/-- What `decryptSymmetricFile` does on a request it could not read: it panics before any engine
invocation. -/
theorem decryptSymmetricFile_unread
    (hread : model.GetRootAsDecryptSymmetricFileRequest pkg payload 0 = Outcome.panicked) :
    m.decryptSymmetricFile pkg wire payload = { trace := [], outcome := Outcome.panicked } := by
  unfold Instance.decryptSymmetricFile
  rw [hread]

/-- What `decryptSymmetricBytes` does on a request it could read: one `DecryptSymmetricBytes` invocation on the
decoded fields, then the encoding of the pair it returned. -/
theorem decryptSymmetricBytes_eq (request : model.DecryptSymmetricBytesRequest)
    (hread : model.GetRootAsDecryptSymmetricBytesRequest pkg payload 0 = Outcome.returned request) :
    m.decryptSymmetricBytes pkg wire payload =
      let result := m.inst.DecryptSymmetricBytes request.MessageBytes
        (m.toString request.Passphrase) (m.parseKeyOptions pkg request.Options)
      { trace := [{ call := openpgp.EngineCall.DecryptSymmetricBytes request.MessageBytes
                        (m.toString request.Passphrase) (m.parseKeyOptions pkg request.Options),
                    err := result.2 }]
        outcome := Outcome.returned (m._bytesResponse wire (NewBuilder 0) result.1 result.2) } := by
  unfold Instance.decryptSymmetricBytes
  rw [hread]
  exact Run.match_err (m.inst.invokeDecryptSymmetricBytes _ _ _)
    (fun o e => Outcome.returned (m._bytesResponse wire (NewBuilder 0) o e))

/-- What `decryptSymmetricBytes` does on a request it could not read: it panics before any engine
invocation. -/
theorem decryptSymmetricBytes_unread
    (hread : model.GetRootAsDecryptSymmetricBytesRequest pkg payload 0 = Outcome.panicked) :
    m.decryptSymmetricBytes pkg wire payload = { trace := [], outcome := Outcome.panicked } := by
  unfold Instance.decryptSymmetricBytes
  rw [hread]

/-- What `encryptSymmetric` does on a request it could read: one `EncryptSymmetric` invocation on the
decoded fields, then the encoding of the pair it returned. -/
theorem encryptSymmetric_eq (request : model.EncryptSymmetricRequest)
    (hread : model.GetRootAsEncryptSymmetricRequest pkg payload 0 = Outcome.returned request) :
    m.encryptSymmetric pkg wire payload =
      let result := m.inst.EncryptSymmetric (m.toString request.Message)
        (m.toString request.Passphrase) (m.parseFileHints request.FileHints)
        (m.parseKeyOptions pkg request.Options)
      { trace := [{ call := openpgp.EngineCall.EncryptSymmetric (m.toString request.Message)
                        (m.toString request.Passphrase) (m.parseFileHints request.FileHints)
                        (m.parseKeyOptions pkg request.Options),
                    err := result.2 }]
        outcome := Outcome.returned (m._stringResponse wire (NewBuilder 0) result.1 result.2) } := by
  unfold Instance.encryptSymmetric
  rw [hread]
  exact Run.match_err (m.inst.invokeEncryptSymmetric _ _ _ _)
    (fun o e => Outcome.returned (m._stringResponse wire (NewBuilder 0) o e))

/-- What `encryptSymmetric` does on a request it could not read: it panics before any engine
invocation. -/
theorem encryptSymmetric_unread
    (hread : model.GetRootAsEncryptSymmetricRequest pkg payload 0 = Outcome.panicked) :
    m.encryptSymmetric pkg wire payload = { trace := [], outcome := Outcome.panicked } := by
  unfold Instance.encryptSymmetric
  rw [hread]

/-- What `encryptSymmetricFile` does on a request it could read: one `EncryptSymmetricFile` invocation on the
decoded fields, then the encoding of the pair it returned. -/
theorem encryptSymmetricFile_eq (request : model.EncryptSymmetricFileRequest)
    (hread : model.GetRootAsEncryptSymmetricFileRequest pkg payload 0 = Outcome.returned request) :
    m.encryptSymmetricFile pkg wire payload =
      let result := m.inst.EncryptSymmetricFile (m.toString request.Input)
        (m.toString request.Output) (m.toString request.Passphrase)
        (m.parseFileHints request.FileHints) (m.parseKeyOptions pkg request.Options)
      { trace := [{ call := openpgp.EngineCall.EncryptSymmetricFile (m.toString request.Input)
                        (m.toString request.Output) (m.toString request.Passphrase)
                        (m.parseFileHints request.FileHints)
                        (m.parseKeyOptions pkg request.Options),
                    err := result.2 }]
        outcome := Outcome.returned
          (m._intResponse wire (NewBuilder 0) (int64 result.1) result.2) } := by
  unfold Instance.encryptSymmetricFile
  rw [hread]
  exact Run.match_err (m.inst.invokeEncryptSymmetricFile _ _ _ _ _)
    (fun o e => Outcome.returned (m._intResponse wire (NewBuilder 0) (int64 o) e))

/-- What `encryptSymmetricFile` does on a request it could not read: it panics before any engine
invocation. -/
theorem encryptSymmetricFile_unread
    (hread : model.GetRootAsEncryptSymmetricFileRequest pkg payload 0 = Outcome.panicked) :
    m.encryptSymmetricFile pkg wire payload = { trace := [], outcome := Outcome.panicked } := by
  unfold Instance.encryptSymmetricFile
  rw [hread]

/-- What `encryptSymmetricBytes` does on a request it could read: one `EncryptSymmetricBytes` invocation on the
decoded fields, then the encoding of the pair it returned. -/
theorem encryptSymmetricBytes_eq (request : model.EncryptSymmetricBytesRequest)
    (hread : model.GetRootAsEncryptSymmetricBytesRequest pkg payload 0 = Outcome.returned request) :
    m.encryptSymmetricBytes pkg wire payload =
      let result := m.inst.EncryptSymmetricBytes request.MessageBytes
        (m.toString request.Passphrase) (m.parseFileHints request.FileHints)
        (m.parseKeyOptions pkg request.Options)
      { trace := [{ call := openpgp.EngineCall.EncryptSymmetricBytes request.MessageBytes
                        (m.toString request.Passphrase) (m.parseFileHints request.FileHints)
                        (m.parseKeyOptions pkg request.Options),
                    err := result.2 }]
        outcome := Outcome.returned (m._bytesResponse wire (NewBuilder 0) result.1 result.2) } := by
  unfold Instance.encryptSymmetricBytes
  rw [hread]
  exact Run.match_err (m.inst.invokeEncryptSymmetricBytes _ _ _ _)
    (fun o e => Outcome.returned (m._bytesResponse wire (NewBuilder 0) o e))

/-- What `encryptSymmetricBytes` does on a request it could not read: it panics before any engine
invocation. -/
theorem encryptSymmetricBytes_unread
    (hread : model.GetRootAsEncryptSymmetricBytesRequest pkg payload 0 = Outcome.panicked) :
    m.encryptSymmetricBytes pkg wire payload = { trace := [], outcome := Outcome.panicked } := by
  unfold Instance.encryptSymmetricBytes
  rw [hread]

/-- What `generate` does on a request it could read: one `Generate` invocation on the
decoded fields, then the encoding of the pair it returned. -/
theorem generate_eq (request : model.GenerateRequest)
    (hread : model.GetRootAsGenerateRequest pkg payload 0 = Outcome.returned request) :
    m.generate pkg wire payload =
      let result := m.inst.Generate (m.parseOptions pkg request.Options)
      { trace := [{ call := openpgp.EngineCall.Generate (m.parseOptions pkg request.Options),
                    err := result.2 }]
        outcome := m._keyPairResponse wire (NewBuilder 0) result.1 result.2 } := by
  unfold Instance.generate
  rw [hread]
  exact Run.match_err (m.inst.invokeGenerate _)
    (fun o e => m._keyPairResponse wire (NewBuilder 0) o e)

/-- What `generate` does on a request it could not read: it panics before any engine
invocation. -/
theorem generate_unread
    (hread : model.GetRootAsGenerateRequest pkg payload 0 = Outcome.panicked) :
    m.generate pkg wire payload = { trace := [], outcome := Outcome.panicked } := by
  unfold Instance.generate
  rw [hread]

/-- What `armorEncode` does on a request it could read: one `ArmorEncode` invocation on the
decoded fields, then the encoding of the pair it returned. -/
theorem armorEncode_eq (request : model.ArmorEncodeRequest)
    (hread : model.GetRootAsArmorEncodeRequest pkg payload 0 = Outcome.returned request) :
    m.armorEncode pkg wire payload =
      let result := m.inst.ArmorEncode request.PacketBytes
      { trace := [{ call := openpgp.EngineCall.ArmorEncode request.PacketBytes,
                    err := result.2 }]
        outcome := Outcome.returned (m._stringResponse wire (NewBuilder 0) result.1 result.2) } := by
  unfold Instance.armorEncode
  rw [hread]
  exact Run.match_err (m.inst.invokeArmorEncode _)
    (fun o e => Outcome.returned (m._stringResponse wire (NewBuilder 0) o e))

/-- What `armorEncode` does on a request it could not read: it panics before any engine
invocation. -/
theorem armorEncode_unread
    (hread : model.GetRootAsArmorEncodeRequest pkg payload 0 = Outcome.panicked) :
    m.armorEncode pkg wire payload = { trace := [], outcome := Outcome.panicked } := by
  unfold Instance.armorEncode
  rw [hread]

end handlerEquations

section dispatch

variable (pkg : model.Package) (wire : Wire) (engine : openpgp.FastOpenPGP) (payload : GoBytes)

theorem Call_decrypt : Call pkg wire engine (lit "decrypt") payload =
    returnOutput ((NewInstance engine).decrypt pkg wire payload) := rfl

theorem Call_decryptFile : Call pkg wire engine (lit "decryptFile") payload =
    returnOutput ((NewInstance engine).decryptFile pkg wire payload) := rfl

theorem Call_decryptBytes : Call pkg wire engine (lit "decryptBytes") payload =
    returnOutput ((NewInstance engine).decryptBytes pkg wire payload) := rfl

theorem Call_encrypt : Call pkg wire engine (lit "encrypt") payload =
    returnOutput ((NewInstance engine).encrypt pkg wire payload) := rfl

theorem Call_encryptFile : Call pkg wire engine (lit "encryptFile") payload =
    returnOutput ((NewInstance engine).encryptFile pkg wire payload) := rfl

theorem Call_encryptBytes : Call pkg wire engine (lit "encryptBytes") payload =
    returnOutput ((NewInstance engine).encryptBytes pkg wire payload) := rfl

theorem Call_sign : Call pkg wire engine (lit "sign") payload =
    returnOutput ((NewInstance engine).sign pkg wire payload) := rfl

theorem Call_signFile : Call pkg wire engine (lit "signFile") payload =
    returnOutput ((NewInstance engine).signFile pkg wire payload) := rfl

theorem Call_signBytes : Call pkg wire engine (lit "signBytes") payload =
    returnOutput ((NewInstance engine).signBytes pkg wire payload) := rfl

theorem Call_signBytesToString : Call pkg wire engine (lit "signBytesToString") payload =
    returnOutput ((NewInstance engine).signBytesToString pkg wire payload) := rfl

theorem Call_verify : Call pkg wire engine (lit "verify") payload =
    returnOutput ((NewInstance engine).verify pkg wire payload) := rfl

theorem Call_verifyFile : Call pkg wire engine (lit "verifyFile") payload =
    returnOutput ((NewInstance engine).verifyFile pkg wire payload) := rfl

theorem Call_verifyBytes : Call pkg wire engine (lit "verifyBytes") payload =
    returnOutput ((NewInstance engine).verifyBytes pkg wire payload) := rfl

theorem Call_decryptSymmetric : Call pkg wire engine (lit "decryptSymmetric") payload =
    returnOutput ((NewInstance engine).decryptSymmetric pkg wire payload) := rfl

theorem Call_decryptSymmetricFile : Call pkg wire engine (lit "decryptSymmetricFile") payload =
    returnOutput ((NewInstance engine).decryptSymmetricFile pkg wire payload) := rfl

theorem Call_decryptSymmetricBytes : Call pkg wire engine (lit "decryptSymmetricBytes") payload =
    returnOutput ((NewInstance engine).decryptSymmetricBytes pkg wire payload) := rfl

theorem Call_encryptSymmetric : Call pkg wire engine (lit "encryptSymmetric") payload =
    returnOutput ((NewInstance engine).encryptSymmetric pkg wire payload) := rfl

theorem Call_encryptSymmetricFile : Call pkg wire engine (lit "encryptSymmetricFile") payload =
    returnOutput ((NewInstance engine).encryptSymmetricFile pkg wire payload) := rfl

theorem Call_encryptSymmetricBytes : Call pkg wire engine (lit "encryptSymmetricBytes") payload =
    returnOutput ((NewInstance engine).encryptSymmetricBytes pkg wire payload) := rfl

theorem Call_generate : Call pkg wire engine (lit "generate") payload =
    returnOutput ((NewInstance engine).generate pkg wire payload) := rfl

theorem Call_armorEncode : Call pkg wire engine (lit "armorEncode") payload =
    returnOutput ((NewInstance engine).armorEncode pkg wire payload) := rfl

end dispatch

end openPGPBridge

namespace openPGPBridge

open flatbuffers

theorem returnOutput_trace (handled : Run GoBytes) :
    (returnOutput handled).trace = handled.trace := by
  unfold returnOutput
  cases handled.outcome <;> rfl

theorem returnOutput_outcome (handled : Run GoBytes) (buf : GoBytes)
    (h : handled.outcome = Outcome.returned buf) :
    (returnOutput handled).outcome = Outcome.returned (buf, none) := by
  unfold returnOutput
  rw [h]

section encoderFacts

variable (wire : Wire) (hw : wire.RoundTrips) (m : Instance) (response : Builder)
include hw

theorem stringResponse_carries (output : GoString) (err : Option GoError) (e : GoError)
    (h : err = some e) :
    model.carriesOnlyError wire (m._stringResponse wire response output err) e.Error = true := by
  subst h
  rw [stringResponse_error]
  exact model.carriesOnlyError_encode wire hw _ _

theorem bytesResponse_carries (output : GoBytes) (err : Option GoError) (e : GoError)
    (h : err = some e) :
    model.carriesOnlyError wire (m._bytesResponse wire response output err) e.Error = true := by
  subst h
  rw [bytesResponse_error]
  exact model.carriesOnlyError_encode wire hw _ _

theorem intResponse_carries (output : Int) (err : Option GoError) (e : GoError)
    (h : err = some e) :
    model.carriesOnlyError wire (m._intResponse wire response output err) e.Error = true := by
  subst h
  rw [intResponse_error]
  exact model.carriesOnlyError_encode wire hw _ _

theorem boolResponse_carries (output : Bool) (err : Option GoError) (e : GoError)
    (h : err = some e) :
    model.carriesOnlyError wire (m._boolResponse wire response output err) e.Error = true := by
  subst h
  rw [boolResponse_error]
  exact model.carriesOnlyError_encode wire hw _ _

theorem keyPairResponse_carries (output : Option openpgp.KeyPair) (err : Option GoError)
    (e : GoError) (h : err = some e) :
    ∃ buf, m._keyPairResponse wire response output err = Outcome.returned buf ∧
      model.carriesOnlyError wire buf e.Error = true := by
  subst h
  exact ⟨_, keyPairResponse_error wire m response output e,
    model.carriesOnlyError_encode wire hw _ _⟩

theorem errorBuffer_exactlyOne (objs : List Object) (message : GoString) :
    model.exactlyOneSlot wire (wire.encode (model.errorBuffer objs message)) = true := by
  obtain ⟨_, h2, h3⟩ := model.errorBuffer_slots objs message
  exact model.exactlyOneSlot_encode wire hw _ (by rw [h2, h3]; decide)

theorem stringResponse_exactlyOne (output : GoString) (err : Option GoError) :
    model.exactlyOneSlot wire (m._stringResponse wire response output err) = true := by
  cases err with
  | some e => rw [stringResponse_error]; exact errorBuffer_exactlyOne wire hw _ _
  | none =>
    rw [stringResponse_ok]
    obtain ⟨_, _, h3, h4⟩ := model.textBuffer_slots response.objects output
    exact model.exactlyOneSlot_encode wire hw _ (by rw [h3, h4]; decide)

theorem bytesResponse_exactlyOne (output : GoBytes) (err : Option GoError) :
    model.exactlyOneSlot wire (m._bytesResponse wire response output err) = true := by
  cases err with
  | some e => rw [bytesResponse_error]; exact errorBuffer_exactlyOne wire hw _ _
  | none =>
    rw [bytesResponse_ok]
    obtain ⟨_, _, h3, h4⟩ := model.vectorBuffer_slots response.objects output
    exact model.exactlyOneSlot_encode wire hw _ (by rw [h3, h4]; decide)

theorem intResponse_exactlyOne (output : Int) (err : Option GoError)
    (h : output ≠ 0 ∨ err ≠ none) :
    model.exactlyOneSlot wire (m._intResponse wire response output err) = true := by
  cases err with
  | some e => rw [intResponse_error]; exact errorBuffer_exactlyOne wire hw _ _
  | none =>
    have hne : output ≠ 0 := h.resolve_right (fun hx => hx rfl)
    rw [intResponse_ok wire m response output hne]
    obtain ⟨_, _, h3, h4⟩ := model.scalarBuffer_slots response.objects (Field.int64 output)
    exact model.exactlyOneSlot_encode wire hw _ (by rw [h3, h4]; decide)

/-- The integer 0 with a nil error is encoded with neither slot. -/
theorem intResponse_zero_noSlot :
    model.noSlot wire (m._intResponse wire response 0 none) = true ∧
    model.exactlyOneSlot wire (m._intResponse wire response 0 none) = false := by
  obtain ⟨h1, _, h3⟩ := model.defaultBuffer_slots response.objects
  have ho := (model.output_absent_views _ h1).1
  rw [intResponse_zero]
  exact ⟨model.noSlot_encode wire hw _ ho h3,
    model.exactlyOneSlot_encode_false wire hw _ (by rw [ho, h3])⟩

theorem boolResponse_exactlyOne (output : Bool) (err : Option GoError)
    (h : output = true ∨ err ≠ none) :
    model.exactlyOneSlot wire (m._boolResponse wire response output err) = true := by
  cases err with
  | some e => rw [boolResponse_error]; exact errorBuffer_exactlyOne wire hw _ _
  | none =>
    have ht : output = true := h.resolve_right (fun hx => hx rfl)
    subst ht
    rw [boolResponse_true]
    obtain ⟨_, _, h3, h4⟩ := model.scalarBuffer_slots response.objects (Field.bool true)
    exact model.exactlyOneSlot_encode wire hw _ (by rw [h3, h4]; decide)

/-- The boolean false with a nil error is encoded with neither slot. -/
theorem boolResponse_false_noSlot :
    model.noSlot wire (m._boolResponse wire response false none) = true ∧
    model.exactlyOneSlot wire (m._boolResponse wire response false none) = false := by
  obtain ⟨h1, _, h3⟩ := model.defaultBuffer_slots response.objects
  have ho := (model.output_absent_views _ h1).1
  rw [boolResponse_false]
  exact ⟨model.noSlot_encode wire hw _ ho h3,
    model.exactlyOneSlot_encode_false wire hw _ (by rw [ho, h3])⟩

theorem keyPairResponse_exactlyOne (output : openpgp.KeyPair) (err : Option GoError) :
    ∃ buf, m._keyPairResponse wire response (some output) err = Outcome.returned buf ∧
      model.exactlyOneSlot wire buf = true := by
  cases err with
  | some e =>
    exact ⟨_, keyPairResponse_error wire m response _ e, errorBuffer_exactlyOne wire hw _ _⟩
  | none =>
    obtain ⟨_, h2, h3⟩ :=
      model.keyPairBuffer_slots response.objects output.PublicKey output.PrivateKey
    exact ⟨_, keyPairResponse_ok wire m response output,
      model.exactlyOneSlot_encode wire hw _ (by rw [h2, h3]; decide)⟩

/-- What a reader finds in an encoded error, whatever the shape. -/
theorem errorBuffer_reads (objs : List Object) (message : GoString) :
    model.GetRootAsResponse wire (wire.encode (model.errorBuffer objs message)) =
        some (model.errorBuffer objs message) ∧
    model.Response.Error (model.errorBuffer objs message) = some message ∧
    model.Response.OutputBytes (model.errorBuffer objs message) = none ∧
    model.Response.OutputInt (model.errorBuffer objs message) = 0 ∧
    model.Response.OutputBool (model.errorBuffer objs message) = false ∧
    model.Response.OutputKeyPair (model.errorBuffer objs message) = none := by
  obtain ⟨_, h2, h3, h4, h5⟩ :=
    model.output_absent_views _ (model.errorBuffer_output_absent objs message)
  exact ⟨hw _, (model.errorBuffer_slots objs message).1, h2, h3, h4, h5⟩

theorem stringResponse_reads (output : GoString) (err : Option GoError) :
    model.GetRootAsStringResponse wire (m._stringResponse wire response output err) =
      some (Spec.textResponse output err) := by
  cases err with
  | some e =>
    obtain ⟨h0, h1, h2, _⟩ := errorBuffer_reads wire hw response.objects e.Error
    rw [stringResponse_error]
    simp only [model.GetRootAsStringResponse, h0, Option.map_some', h1, h2, Spec.textResponse]
  | none =>
    obtain ⟨h1, h2, _, _⟩ := model.textBuffer_slots response.objects output
    rw [stringResponse_ok]
    simp only [model.GetRootAsStringResponse, model.GetRootAsResponse,
      hw (model.textBuffer response.objects output), Option.map_some', h1, h2,
      Spec.textResponse]

theorem bytesResponse_reads (output : GoBytes) (err : Option GoError) :
    model.GetRootAsBytesResponse wire (m._bytesResponse wire response output err) =
      some (Spec.bytesResponse output err) := by
  cases err with
  | some e =>
    obtain ⟨h0, h1, h2, _⟩ := errorBuffer_reads wire hw response.objects e.Error
    rw [bytesResponse_error]
    simp only [model.GetRootAsBytesResponse, h0, Option.map_some', h1, h2, Spec.bytesResponse]
  | none =>
    obtain ⟨h1, h2, _, _⟩ := model.vectorBuffer_slots response.objects output
    rw [bytesResponse_ok]
    simp only [model.GetRootAsBytesResponse, model.GetRootAsResponse,
      hw (model.vectorBuffer response.objects output), Option.map_some', h1, h2,
      Spec.bytesResponse]

theorem intResponse_reads (output : Int) (err : Option GoError) :
    model.GetRootAsIntResponse wire (m._intResponse wire response output err) =
      some (Spec.intResponse output err) := by
  cases err with
  | some e =>
    obtain ⟨h0, h1, _, h3, _⟩ := errorBuffer_reads wire hw response.objects e.Error
    rw [intResponse_error]
    simp only [model.GetRootAsIntResponse, h0, Option.map_some', h1, h3, Spec.intResponse]
  | none =>
    by_cases hz : output = 0
    · subst hz
      obtain ⟨h1, h2, _⟩ := model.defaultBuffer_slots response.objects
      have h3 := (model.output_absent_views _ h1).2.2.1
      rw [intResponse_zero]
      simp only [model.GetRootAsIntResponse, model.GetRootAsResponse,
        hw (model.defaultBuffer response.objects), Option.map_some', h2, h3, Spec.intResponse]
    · have h1 := (model.scalarBuffer_views response.objects).1 output
      have h2 := (model.scalarBuffer_slots response.objects (Field.int64 output)).2.1
      rw [intResponse_ok wire m response output hz]
      simp only [model.GetRootAsIntResponse, model.GetRootAsResponse,
        hw (model.scalarBuffer response.objects (Field.int64 output)), Option.map_some', h1, h2,
        Spec.intResponse]

theorem boolResponse_reads (output : Bool) (err : Option GoError) :
    model.GetRootAsBoolResponse wire (m._boolResponse wire response output err) =
      some (Spec.boolResponse output err) := by
  cases err with
  | some e =>
    obtain ⟨h0, h1, _, _, h4, _⟩ := errorBuffer_reads wire hw response.objects e.Error
    rw [boolResponse_error]
    simp only [model.GetRootAsBoolResponse, h0, Option.map_some', h1, h4, Spec.boolResponse]
  | none =>
    cases output with
    | false =>
      obtain ⟨h1, h2, _⟩ := model.defaultBuffer_slots response.objects
      have h3 := (model.output_absent_views _ h1).2.2.2.1
      rw [boolResponse_false]
      simp only [model.GetRootAsBoolResponse, model.GetRootAsResponse,
        hw (model.defaultBuffer response.objects), Option.map_some', h2, h3, Spec.boolResponse]
    | true =>
      have h1 := (model.scalarBuffer_views response.objects).2 true
      have h2 := (model.scalarBuffer_slots response.objects (Field.bool true)).2.1
      rw [boolResponse_true]
      simp only [model.GetRootAsBoolResponse, model.GetRootAsResponse,
        hw (model.scalarBuffer response.objects (Field.bool true)), Option.map_some', h1, h2,
        Spec.boolResponse]

theorem keyPairResponse_reads (output : Option openpgp.KeyPair) (err : Option GoError)
    (h : output = none → err ≠ none) :
    ∃ buf, m._keyPairResponse wire response output err = Outcome.returned buf ∧
      model.GetRootAsKeyPairResponse wire buf =
        some (Spec.keyPairResponse output err) := by
  cases err with
  | some e =>
    obtain ⟨h0, h1, _, _, _, h5⟩ := errorBuffer_reads wire hw response.objects e.Error
    refine ⟨_, keyPairResponse_error wire m response output e, ?_⟩
    simp only [model.GetRootAsKeyPairResponse, h0, Option.map_some', h1, h5,
      Spec.keyPairResponse]
  | none =>
    cases output with
    | none => exact absurd rfl (h rfl)
    | some keyPair =>
      have h1 := model.keyPairBuffer_view response.objects keyPair.PublicKey keyPair.PrivateKey
      have h2 :=
        (model.keyPairBuffer_slots response.objects keyPair.PublicKey keyPair.PrivateKey).1
      refine ⟨_, keyPairResponse_ok wire m response keyPair, ?_⟩
      simp only [model.GetRootAsKeyPairResponse, model.GetRootAsResponse,
        hw (model.keyPairBuffer response.objects keyPair.PublicKey keyPair.PrivateKey),
        Option.map_some', h1, h2, Spec.keyPairResponse]

end encoderFacts

section decoding

variable (pkg : model.Package) (m : Instance)

theorem toString_eq_spec (field : GoBytes) : m.toString field = Spec.text field := by
  cases field <;> rfl

theorem int64_eq (x : Int) : int64 x = x := rfl

theorem parseHash_eq_spec (code : model.Hash) : m.parseHash pkg code = Spec.hash pkg code := by
  unfold Instance.parseHash Spec.hash
  simp only [List.lookup]
  split_ifs with h1 h2 h3 h4
  · subst h1; simp
  · subst h2; simp [beq_false_of_ne h1]
  · subst h3; simp [beq_false_of_ne h1, beq_false_of_ne h2]
  · simp [beq_false_of_ne h1, beq_false_of_ne h2, beq_false_of_ne h3]
  · simp [beq_false_of_ne h1, beq_false_of_ne h2, beq_false_of_ne h3]

theorem parseCipher_eq_spec (code : model.Cipher) :
    m.parseCipher pkg code = Spec.cipher pkg code := by
  unfold Instance.parseCipher Spec.cipher
  simp only [List.lookup]
  split_ifs with h1 h2 h3
  · subst h1; simp
  · subst h2; simp [beq_false_of_ne h1]
  · simp [beq_false_of_ne h1, beq_false_of_ne h2]
  · simp [beq_false_of_ne h1, beq_false_of_ne h2]

theorem parseCompression_eq_spec (code : model.Compression) :
    m.parseCompression pkg code = Spec.compression pkg code := by
  unfold Instance.parseCompression Spec.compression
  simp only [List.lookup]
  split_ifs with h1 h2 h3
  · subst h1; simp
  · subst h2; simp [beq_false_of_ne h1]
  · simp [beq_false_of_ne h1, beq_false_of_ne h2]
  · simp [beq_false_of_ne h1, beq_false_of_ne h2]

theorem parseKeyOptions_eq_spec (field : Option model.KeyOptions) :
    m.parseKeyOptions pkg field = Spec.keyOptions pkg field := by
  cases field with
  | none => rfl
  | some k =>
    simp only [Instance.parseKeyOptions, Spec.keyOptions, parseHash_eq_spec,
      parseCipher_eq_spec, parseCompression_eq_spec]
    rfl

theorem parseFileHints_eq_spec (field : Option model.FileHints) :
    m.parseFileHints field = Spec.fileHints field := by
  cases field with
  | none => rfl
  | some h => simp only [Instance.parseFileHints, Spec.fileHints, toString_eq_spec]

theorem parseEntity_eq_spec (field : Option model.Entity) :
    m.parseEntity field = Spec.entity field := by
  cases field with
  | none => rfl
  | some e => simp only [Instance.parseEntity, Spec.entity, toString_eq_spec]

theorem parseOptions_eq_spec (field : Option model.Options) :
    m.parseOptions pkg field = Spec.options pkg field := by
  cases field with
  | none => rfl
  | some o =>
    simp only [Instance.parseOptions, Spec.options, toString_eq_spec, parseKeyOptions_eq_spec]

end decoding

/-- A payload too short to hold a root offset makes every root reader panic. -/
theorem GetRootAs_short {α : Type} (read : GoBytes → Nat → Outcome α) (payload : GoBytes)
    (h : (payload.getD []).length < 4) : model.GetRootAs read payload 0 = Outcome.panicked := by
  unfold model.GetRootAs
  rw [if_pos (by simpa using h)]

section readable

variable (pkg : model.Package) (payload : GoBytes)

theorem requestReadable_decrypt : requestReadable pkg (lit "decrypt") payload =
    (model.GetRootAsDecryptRequest pkg payload 0).isReturned := rfl

theorem requestReadable_decryptFile : requestReadable pkg (lit "decryptFile") payload =
    (model.GetRootAsDecryptFileRequest pkg payload 0).isReturned := rfl

theorem requestReadable_decryptBytes : requestReadable pkg (lit "decryptBytes") payload =
    (model.GetRootAsDecryptBytesRequest pkg payload 0).isReturned := rfl

theorem requestReadable_encrypt : requestReadable pkg (lit "encrypt") payload =
    (model.GetRootAsEncryptRequest pkg payload 0).isReturned := rfl

theorem requestReadable_encryptFile : requestReadable pkg (lit "encryptFile") payload =
    (model.GetRootAsEncryptFileRequest pkg payload 0).isReturned := rfl

theorem requestReadable_encryptBytes : requestReadable pkg (lit "encryptBytes") payload =
    (model.GetRootAsEncryptBytesRequest pkg payload 0).isReturned := rfl

theorem requestReadable_sign : requestReadable pkg (lit "sign") payload =
    (model.GetRootAsSignRequest pkg payload 0).isReturned := rfl

theorem requestReadable_signFile : requestReadable pkg (lit "signFile") payload =
    (model.GetRootAsSignFileRequest pkg payload 0).isReturned := rfl

theorem requestReadable_signBytes : requestReadable pkg (lit "signBytes") payload =
    (model.GetRootAsSignBytesRequest pkg payload 0).isReturned := rfl

theorem requestReadable_signBytesToString : requestReadable pkg (lit "signBytesToString") payload =
    (model.GetRootAsSignBytesRequest pkg payload 0).isReturned := rfl

theorem requestReadable_verify : requestReadable pkg (lit "verify") payload =
    (model.GetRootAsVerifyRequest pkg payload 0).isReturned := rfl

theorem requestReadable_verifyFile : requestReadable pkg (lit "verifyFile") payload =
    (model.GetRootAsVerifyFileRequest pkg payload 0).isReturned := rfl

theorem requestReadable_verifyBytes : requestReadable pkg (lit "verifyBytes") payload =
    (model.GetRootAsVerifyBytesRequest pkg payload 0).isReturned := rfl

theorem requestReadable_decryptSymmetric : requestReadable pkg (lit "decryptSymmetric") payload =
    (model.GetRootAsDecryptSymmetricRequest pkg payload 0).isReturned := rfl

theorem requestReadable_decryptSymmetricFile : requestReadable pkg (lit "decryptSymmetricFile") payload =
    (model.GetRootAsDecryptSymmetricFileRequest pkg payload 0).isReturned := rfl

theorem requestReadable_decryptSymmetricBytes : requestReadable pkg (lit "decryptSymmetricBytes") payload =
    (model.GetRootAsDecryptSymmetricBytesRequest pkg payload 0).isReturned := rfl

theorem requestReadable_encryptSymmetric : requestReadable pkg (lit "encryptSymmetric") payload =
    (model.GetRootAsEncryptSymmetricRequest pkg payload 0).isReturned := rfl

theorem requestReadable_encryptSymmetricFile : requestReadable pkg (lit "encryptSymmetricFile") payload =
    (model.GetRootAsEncryptSymmetricFileRequest pkg payload 0).isReturned := rfl

theorem requestReadable_encryptSymmetricBytes : requestReadable pkg (lit "encryptSymmetricBytes") payload =
    (model.GetRootAsEncryptSymmetricBytesRequest pkg payload 0).isReturned := rfl

theorem requestReadable_generate : requestReadable pkg (lit "generate") payload =
    (model.GetRootAsGenerateRequest pkg payload 0).isReturned := rfl

theorem requestReadable_armorEncode : requestReadable pkg (lit "armorEncode") payload =
    (model.GetRootAsArmorEncodeRequest pkg payload 0).isReturned := rfl

end readable

/-- A payload too short to hold a root offset is readable for no catalog operation. -/
theorem requestReadable_short (pkg : model.Package) (name : GoString) (payload : GoBytes)
    (h : name ∈ catalog) (hshort : (payload.getD []).length < 4) :
    requestReadable pkg name payload = false := by
  simp only [catalog, List.mem_cons, List.mem_singleton, List.not_mem_nil, or_false] at h
  rcases h with rfl | rfl | rfl | rfl | rfl | rfl | rfl | rfl | rfl | rfl | rfl | rfl | rfl | rfl | rfl | rfl | rfl | rfl | rfl | rfl | rfl
  · rw [requestReadable_decrypt]
    unfold model.GetRootAsDecryptRequest
    rw [GetRootAs_short _ payload hshort]
    rfl
  · rw [requestReadable_decryptFile]
    unfold model.GetRootAsDecryptFileRequest
    rw [GetRootAs_short _ payload hshort]
    rfl
  · rw [requestReadable_decryptBytes]
    unfold model.GetRootAsDecryptBytesRequest
    rw [GetRootAs_short _ payload hshort]
    rfl
  · rw [requestReadable_encrypt]
    unfold model.GetRootAsEncryptRequest
    rw [GetRootAs_short _ payload hshort]
    rfl
  · rw [requestReadable_encryptFile]
    unfold model.GetRootAsEncryptFileRequest
    rw [GetRootAs_short _ payload hshort]
    rfl
  · rw [requestReadable_encryptBytes]
    unfold model.GetRootAsEncryptBytesRequest
    rw [GetRootAs_short _ payload hshort]
    rfl
  · rw [requestReadable_sign]
    unfold model.GetRootAsSignRequest
    rw [GetRootAs_short _ payload hshort]
    rfl
  · rw [requestReadable_signFile]
    unfold model.GetRootAsSignFileRequest
    rw [GetRootAs_short _ payload hshort]
    rfl
  · rw [requestReadable_signBytes]
    unfold model.GetRootAsSignBytesRequest
    rw [GetRootAs_short _ payload hshort]
    rfl
  · rw [requestReadable_signBytesToString]
    unfold model.GetRootAsSignBytesRequest
    rw [GetRootAs_short _ payload hshort]
    rfl
  · rw [requestReadable_verify]
    unfold model.GetRootAsVerifyRequest
    rw [GetRootAs_short _ payload hshort]
    rfl
  · rw [requestReadable_verifyFile]
    unfold model.GetRootAsVerifyFileRequest
    rw [GetRootAs_short _ payload hshort]
    rfl
  · rw [requestReadable_verifyBytes]
    unfold model.GetRootAsVerifyBytesRequest
    rw [GetRootAs_short _ payload hshort]
    rfl
  · rw [requestReadable_decryptSymmetric]
    unfold model.GetRootAsDecryptSymmetricRequest
    rw [GetRootAs_short _ payload hshort]
    rfl
  · rw [requestReadable_decryptSymmetricFile]
    unfold model.GetRootAsDecryptSymmetricFileRequest
    rw [GetRootAs_short _ payload hshort]
    rfl
  · rw [requestReadable_decryptSymmetricBytes]
    unfold model.GetRootAsDecryptSymmetricBytesRequest
    rw [GetRootAs_short _ payload hshort]
    rfl
  · rw [requestReadable_encryptSymmetric]
    unfold model.GetRootAsEncryptSymmetricRequest
    rw [GetRootAs_short _ payload hshort]
    rfl
  · rw [requestReadable_encryptSymmetricFile]
    unfold model.GetRootAsEncryptSymmetricFileRequest
    rw [GetRootAs_short _ payload hshort]
    rfl
  · rw [requestReadable_encryptSymmetricBytes]
    unfold model.GetRootAsEncryptSymmetricBytesRequest
    rw [GetRootAs_short _ payload hshort]
    rfl
  · rw [requestReadable_generate]
    unfold model.GetRootAsGenerateRequest
    rw [GetRootAs_short _ payload hshort]
    rfl
  · rw [requestReadable_armorEncode]
    unfold model.GetRootAsArmorEncodeRequest
    rw [GetRootAs_short _ payload hshort]
    rfl

/-- The shape of the results about `Call` on a request it read: one logged invocation whose
error, if any, is carried alone by the returned response. -/
theorem carries_of_read (wire : Wire) (e : GoError) (run : Run (GoBytes × Option GoError))
    (readable : Bool) (ev : openpgp.EngineEvent) (buf : GoBytes)
    (hrun : run = { trace := [ev], outcome := Outcome.returned (buf, none) })
    (hc : ev.err = some e → model.carriesOnlyError wire buf e.Error = true) :
    (∀ ev ∈ run.trace, ev.err = some e → ∃ buf,
        run.outcome = Outcome.returned (buf, none) ∧
        model.carriesOnlyError wire buf e.Error = true) ∧
    (readable = true → ∃ ev, run.trace = [ev]) := by
  subst hrun
  refine ⟨fun ev2 hmem he => ?_, fun _ => ⟨ev, rfl⟩⟩
  have hev : ev2 = ev := by simpa using hmem
  subst hev
  exact ⟨buf, rfl, hc he⟩

/-- The same for generate, whose encoder may panic when no error was returned. -/
theorem carries_of_generate (wire : Wire) (e : GoError) (readable : Bool)
    (ev : openpgp.EngineEvent) (encoded : Outcome GoBytes)
    (hc : ev.err = some e → ∃ buf, encoded = Outcome.returned buf ∧
      model.carriesOnlyError wire buf e.Error = true) :
    (∀ ev2 ∈ (returnOutput { trace := [ev], outcome := encoded }).trace, ev2.err = some e →
      ∃ buf, (returnOutput { trace := [ev], outcome := encoded }).outcome =
          Outcome.returned (buf, none) ∧
        model.carriesOnlyError wire buf e.Error = true) ∧
    (readable = true → ∃ ev2, (returnOutput { trace := [ev], outcome := encoded }).trace =
      [ev2]) := by
  refine ⟨fun ev2 hmem he => ?_, fun _ => ⟨ev, returnOutput_trace _⟩⟩
  rw [returnOutput_trace] at hmem
  have hev : ev2 = ev := by simpa using hmem
  subst hev
  obtain ⟨buf, hbuf, hcarries⟩ := hc he
  exact ⟨buf, returnOutput_outcome _ buf hbuf, hcarries⟩

/-- The same on a request that could not be read: no invocation at all. -/
theorem carries_of_unread (wire : Wire) (e : GoError) (run : Run (GoBytes × Option GoError))
    (readable : Bool) (hrun : run = { trace := [], outcome := Outcome.panicked })
    (hr : readable = false) :
    (∀ ev ∈ run.trace, ev.err = some e → ∃ buf,
        run.outcome = Outcome.returned (buf, none) ∧
        model.carriesOnlyError wire buf e.Error = true) ∧
    (readable = true → ∃ ev, run.trace = [ev]) := by
  subst hrun
  refine ⟨fun ev hmem _ => absurd hmem (List.not_mem_nil ev), fun ht => ?_⟩
  rw [hr] at ht
  exact absurd ht (by decide)

/-- Every catalog operation makes at most one engine invocation, exactly one when the request
is readable, and an error that invocation returns ends up, alone, in the error slot of the
response `Call` returns. -/
theorem Call_carries (pkg : model.Package) (wire : Wire) (hw : wire.RoundTrips)
    (engine : openpgp.FastOpenPGP) (name : GoString) (payload : GoBytes) (e : GoError)
    (h : name ∈ catalog) :
    (∀ ev ∈ (Call pkg wire engine name payload).trace, ev.err = some e → ∃ buf,
        (Call pkg wire engine name payload).outcome = Outcome.returned (buf, none) ∧
        model.carriesOnlyError wire buf e.Error = true) ∧
    (requestReadable pkg name payload = true →
      ∃ ev, (Call pkg wire engine name payload).trace = [ev]) := by
  simp only [catalog, List.mem_cons, List.mem_singleton, List.not_mem_nil, or_false] at h
  rcases h with rfl | rfl | rfl | rfl | rfl | rfl | rfl | rfl | rfl | rfl | rfl | rfl | rfl | rfl | rfl | rfl | rfl | rfl | rfl | rfl | rfl
  · cases hread : model.GetRootAsDecryptRequest pkg payload 0 with
    | returned request =>
      rw [Call_decrypt, decrypt_eq pkg wire (NewInstance engine) payload request hread]
      exact carries_of_read wire e _ _ _ _ rfl
        (fun he => stringResponse_carries wire hw (NewInstance engine) _ _ _ e he)
    | panicked =>
      rw [Call_decrypt, decrypt_unread pkg wire (NewInstance engine) payload hread]
      exact carries_of_unread wire e _ _ rfl (by rw [requestReadable_decrypt, hread]; rfl)
  · cases hread : model.GetRootAsDecryptFileRequest pkg payload 0 with
    | returned request =>
      rw [Call_decryptFile, decryptFile_eq pkg wire (NewInstance engine) payload request hread]
      exact carries_of_read wire e _ _ _ _ rfl
        (fun he => intResponse_carries wire hw (NewInstance engine) _ _ _ e he)
    | panicked =>
      rw [Call_decryptFile, decryptFile_unread pkg wire (NewInstance engine) payload hread]
      exact carries_of_unread wire e _ _ rfl (by rw [requestReadable_decryptFile, hread]; rfl)
  · cases hread : model.GetRootAsDecryptBytesRequest pkg payload 0 with
    | returned request =>
      rw [Call_decryptBytes, decryptBytes_eq pkg wire (NewInstance engine) payload request hread]
      exact carries_of_read wire e _ _ _ _ rfl
        (fun he => bytesResponse_carries wire hw (NewInstance engine) _ _ _ e he)
    | panicked =>
      rw [Call_decryptBytes, decryptBytes_unread pkg wire (NewInstance engine) payload hread]
      exact carries_of_unread wire e _ _ rfl (by rw [requestReadable_decryptBytes, hread]; rfl)
  · cases hread : model.GetRootAsEncryptRequest pkg payload 0 with
    | returned request =>
      rw [Call_encrypt, encrypt_eq pkg wire (NewInstance engine) payload request hread]
      exact carries_of_read wire e _ _ _ _ rfl
        (fun he => stringResponse_carries wire hw (NewInstance engine) _ _ _ e he)
    | panicked =>
      rw [Call_encrypt, encrypt_unread pkg wire (NewInstance engine) payload hread]
      exact carries_of_unread wire e _ _ rfl (by rw [requestReadable_encrypt, hread]; rfl)
  · cases hread : model.GetRootAsEncryptFileRequest pkg payload 0 with
    | returned request =>
      rw [Call_encryptFile, encryptFile_eq pkg wire (NewInstance engine) payload request hread]
      exact carries_of_read wire e _ _ _ _ rfl
        (fun he => intResponse_carries wire hw (NewInstance engine) _ _ _ e he)
    | panicked =>
      rw [Call_encryptFile, encryptFile_unread pkg wire (NewInstance engine) payload hread]
      exact carries_of_unread wire e _ _ rfl (by rw [requestReadable_encryptFile, hread]; rfl)
  · cases hread : model.GetRootAsEncryptBytesRequest pkg payload 0 with
    | returned request =>
      rw [Call_encryptBytes, encryptBytes_eq pkg wire (NewInstance engine) payload request hread]
      exact carries_of_read wire e _ _ _ _ rfl
        (fun he => bytesResponse_carries wire hw (NewInstance engine) _ _ _ e he)
    | panicked =>
      rw [Call_encryptBytes, encryptBytes_unread pkg wire (NewInstance engine) payload hread]
      exact carries_of_unread wire e _ _ rfl (by rw [requestReadable_encryptBytes, hread]; rfl)
  · cases hread : model.GetRootAsSignRequest pkg payload 0 with
    | returned request =>
      rw [Call_sign, sign_eq pkg wire (NewInstance engine) payload request hread]
      exact carries_of_read wire e _ _ _ _ rfl
        (fun he => stringResponse_carries wire hw (NewInstance engine) _ _ _ e he)
    | panicked =>
      rw [Call_sign, sign_unread pkg wire (NewInstance engine) payload hread]
      exact carries_of_unread wire e _ _ rfl (by rw [requestReadable_sign, hread]; rfl)
  · cases hread : model.GetRootAsSignFileRequest pkg payload 0 with
    | returned request =>
      rw [Call_signFile, signFile_eq pkg wire (NewInstance engine) payload request hread]
      exact carries_of_read wire e _ _ _ _ rfl
        (fun he => stringResponse_carries wire hw (NewInstance engine) _ _ _ e he)
    | panicked =>
      rw [Call_signFile, signFile_unread pkg wire (NewInstance engine) payload hread]
      exact carries_of_unread wire e _ _ rfl (by rw [requestReadable_signFile, hread]; rfl)
  · cases hread : model.GetRootAsSignBytesRequest pkg payload 0 with
    | returned request =>
      rw [Call_signBytes, signBytes_eq pkg wire (NewInstance engine) payload request hread]
      exact carries_of_read wire e _ _ _ _ rfl
        (fun he => bytesResponse_carries wire hw (NewInstance engine) _ _ _ e he)
    | panicked =>
      rw [Call_signBytes, signBytes_unread pkg wire (NewInstance engine) payload hread]
      exact carries_of_unread wire e _ _ rfl (by rw [requestReadable_signBytes, hread]; rfl)
  · cases hread : model.GetRootAsSignBytesRequest pkg payload 0 with
    | returned request =>
      rw [Call_signBytesToString, signBytesToString_eq pkg wire (NewInstance engine) payload request hread]
      exact carries_of_read wire e _ _ _ _ rfl
        (fun he => stringResponse_carries wire hw (NewInstance engine) _ _ _ e he)
    | panicked =>
      rw [Call_signBytesToString, signBytesToString_unread pkg wire (NewInstance engine) payload hread]
      exact carries_of_unread wire e _ _ rfl (by rw [requestReadable_signBytesToString, hread]; rfl)
  · cases hread : model.GetRootAsVerifyRequest pkg payload 0 with
    | returned request =>
      rw [Call_verify, verify_eq pkg wire (NewInstance engine) payload request hread]
      exact carries_of_read wire e _ _ _ _ rfl
        (fun he => boolResponse_carries wire hw (NewInstance engine) _ _ _ e he)
    | panicked =>
      rw [Call_verify, verify_unread pkg wire (NewInstance engine) payload hread]
      exact carries_of_unread wire e _ _ rfl (by rw [requestReadable_verify, hread]; rfl)
  · cases hread : model.GetRootAsVerifyFileRequest pkg payload 0 with
    | returned request =>
      rw [Call_verifyFile, verifyFile_eq pkg wire (NewInstance engine) payload request hread]
      exact carries_of_read wire e _ _ _ _ rfl
        (fun he => boolResponse_carries wire hw (NewInstance engine) _ _ _ e he)
    | panicked =>
      rw [Call_verifyFile, verifyFile_unread pkg wire (NewInstance engine) payload hread]
      exact carries_of_unread wire e _ _ rfl (by rw [requestReadable_verifyFile, hread]; rfl)
  · cases hread : model.GetRootAsVerifyBytesRequest pkg payload 0 with
    | returned request =>
      rw [Call_verifyBytes, verifyBytes_eq pkg wire (NewInstance engine) payload request hread]
      exact carries_of_read wire e _ _ _ _ rfl
        (fun he => boolResponse_carries wire hw (NewInstance engine) _ _ _ e he)
    | panicked =>
      rw [Call_verifyBytes, verifyBytes_unread pkg wire (NewInstance engine) payload hread]
      exact carries_of_unread wire e _ _ rfl (by rw [requestReadable_verifyBytes, hread]; rfl)
  · cases hread : model.GetRootAsDecryptSymmetricRequest pkg payload 0 with
    | returned request =>
      rw [Call_decryptSymmetric, decryptSymmetric_eq pkg wire (NewInstance engine) payload request hread]
      exact carries_of_read wire e _ _ _ _ rfl
        (fun he => stringResponse_carries wire hw (NewInstance engine) _ _ _ e he)
    | panicked =>
      rw [Call_decryptSymmetric, decryptSymmetric_unread pkg wire (NewInstance engine) payload hread]
      exact carries_of_unread wire e _ _ rfl (by rw [requestReadable_decryptSymmetric, hread]; rfl)
  · cases hread : model.GetRootAsDecryptSymmetricFileRequest pkg payload 0 with
    | returned request =>
      rw [Call_decryptSymmetricFile, decryptSymmetricFile_eq pkg wire (NewInstance engine) payload request hread]
      exact carries_of_read wire e _ _ _ _ rfl
        (fun he => intResponse_carries wire hw (NewInstance engine) _ _ _ e he)
    | panicked =>
      rw [Call_decryptSymmetricFile, decryptSymmetricFile_unread pkg wire (NewInstance engine) payload hread]
      exact carries_of_unread wire e _ _ rfl (by rw [requestReadable_decryptSymmetricFile, hread]; rfl)
  · cases hread : model.GetRootAsDecryptSymmetricBytesRequest pkg payload 0 with
    | returned request =>
      rw [Call_decryptSymmetricBytes, decryptSymmetricBytes_eq pkg wire (NewInstance engine) payload request hread]
      exact carries_of_read wire e _ _ _ _ rfl
        (fun he => bytesResponse_carries wire hw (NewInstance engine) _ _ _ e he)
    | panicked =>
      rw [Call_decryptSymmetricBytes, decryptSymmetricBytes_unread pkg wire (NewInstance engine) payload hread]
      exact carries_of_unread wire e _ _ rfl (by rw [requestReadable_decryptSymmetricBytes, hread]; rfl)
  · cases hread : model.GetRootAsEncryptSymmetricRequest pkg payload 0 with
    | returned request =>
      rw [Call_encryptSymmetric, encryptSymmetric_eq pkg wire (NewInstance engine) payload request hread]
      exact carries_of_read wire e _ _ _ _ rfl
        (fun he => stringResponse_carries wire hw (NewInstance engine) _ _ _ e he)
    | panicked =>
      rw [Call_encryptSymmetric, encryptSymmetric_unread pkg wire (NewInstance engine) payload hread]
      exact carries_of_unread wire e _ _ rfl (by rw [requestReadable_encryptSymmetric, hread]; rfl)
  · cases hread : model.GetRootAsEncryptSymmetricFileRequest pkg payload 0 with
    | returned request =>
      rw [Call_encryptSymmetricFile, encryptSymmetricFile_eq pkg wire (NewInstance engine) payload request hread]
      exact carries_of_read wire e _ _ _ _ rfl
        (fun he => intResponse_carries wire hw (NewInstance engine) _ _ _ e he)
    | panicked =>
      rw [Call_encryptSymmetricFile, encryptSymmetricFile_unread pkg wire (NewInstance engine) payload hread]
      exact carries_of_unread wire e _ _ rfl (by rw [requestReadable_encryptSymmetricFile, hread]; rfl)
  · cases hread : model.GetRootAsEncryptSymmetricBytesRequest pkg payload 0 with
    | returned request =>
      rw [Call_encryptSymmetricBytes, encryptSymmetricBytes_eq pkg wire (NewInstance engine) payload request hread]
      exact carries_of_read wire e _ _ _ _ rfl
        (fun he => bytesResponse_carries wire hw (NewInstance engine) _ _ _ e he)
    | panicked =>
      rw [Call_encryptSymmetricBytes, encryptSymmetricBytes_unread pkg wire (NewInstance engine) payload hread]
      exact carries_of_unread wire e _ _ rfl (by rw [requestReadable_encryptSymmetricBytes, hread]; rfl)
  · cases hread : model.GetRootAsGenerateRequest pkg payload 0 with
    | returned request =>
      rw [Call_generate, generate_eq pkg wire (NewInstance engine) payload request hread]
      exact carries_of_generate wire e _ _ _
        (fun he => keyPairResponse_carries wire hw (NewInstance engine) _ _ _ e he)
    | panicked =>
      rw [Call_generate, generate_unread pkg wire (NewInstance engine) payload hread]
      exact carries_of_unread wire e _ _ rfl (by rw [requestReadable_generate, hread]; rfl)
  · cases hread : model.GetRootAsArmorEncodeRequest pkg payload 0 with
    | returned request =>
      rw [Call_armorEncode, armorEncode_eq pkg wire (NewInstance engine) payload request hread]
      exact carries_of_read wire e _ _ _ _ rfl
        (fun he => stringResponse_carries wire hw (NewInstance engine) _ _ _ e he)
    | panicked =>
      rw [Call_armorEncode, armorEncode_unread pkg wire (NewInstance engine) payload hread]
      exact carries_of_unread wire e _ _ rfl (by rw [requestReadable_armorEncode, hread]; rfl)

/-- Every catalog operation other than `generate` returns a response and a nil error on a
request it can read. -/
theorem Call_returns (pkg : model.Package) (wire : Wire) (engine : openpgp.FastOpenPGP)
    (name : GoString) (payload : GoBytes) (h : name ∈ catalog) (hne : name ≠ lit "generate")
    (hr : requestReadable pkg name payload = true) :
    ∃ output, (Call pkg wire engine name payload).outcome = Outcome.returned (output, none) := by
  simp only [catalog, List.mem_cons, List.mem_singleton, List.not_mem_nil, or_false] at h
  rcases h with rfl | rfl | rfl | rfl | rfl | rfl | rfl | rfl | rfl | rfl | rfl | rfl | rfl | rfl | rfl | rfl | rfl | rfl | rfl | rfl | rfl
  · cases hread : model.GetRootAsDecryptRequest pkg payload 0 with
    | returned request =>
      exact ⟨_, by rw [Call_decrypt, decrypt_eq pkg wire (NewInstance engine) payload request hread]; rfl⟩
    | panicked =>
      rw [requestReadable_decrypt, hread] at hr
      exact absurd hr (by decide)
  · cases hread : model.GetRootAsDecryptFileRequest pkg payload 0 with
    | returned request =>
      exact ⟨_, by rw [Call_decryptFile, decryptFile_eq pkg wire (NewInstance engine) payload request hread]; rfl⟩
    | panicked =>
      rw [requestReadable_decryptFile, hread] at hr
      exact absurd hr (by decide)
  · cases hread : model.GetRootAsDecryptBytesRequest pkg payload 0 with
    | returned request =>
      exact ⟨_, by rw [Call_decryptBytes, decryptBytes_eq pkg wire (NewInstance engine) payload request hread]; rfl⟩
    | panicked =>
      rw [requestReadable_decryptBytes, hread] at hr
      exact absurd hr (by decide)
  · cases hread : model.GetRootAsEncryptRequest pkg payload 0 with
    | returned request =>
      exact ⟨_, by rw [Call_encrypt, encrypt_eq pkg wire (NewInstance engine) payload request hread]; rfl⟩
    | panicked =>
      rw [requestReadable_encrypt, hread] at hr
      exact absurd hr (by decide)
  · cases hread : model.GetRootAsEncryptFileRequest pkg payload 0 with
    | returned request =>
      exact ⟨_, by rw [Call_encryptFile, encryptFile_eq pkg wire (NewInstance engine) payload request hread]; rfl⟩
    | panicked =>
      rw [requestReadable_encryptFile, hread] at hr
      exact absurd hr (by decide)
  · cases hread : model.GetRootAsEncryptBytesRequest pkg payload 0 with
    | returned request =>
      exact ⟨_, by rw [Call_encryptBytes, encryptBytes_eq pkg wire (NewInstance engine) payload request hread]; rfl⟩
    | panicked =>
      rw [requestReadable_encryptBytes, hread] at hr
      exact absurd hr (by decide)
  · cases hread : model.GetRootAsSignRequest pkg payload 0 with
    | returned request =>
      exact ⟨_, by rw [Call_sign, sign_eq pkg wire (NewInstance engine) payload request hread]; rfl⟩
    | panicked =>
      rw [requestReadable_sign, hread] at hr
      exact absurd hr (by decide)
  · cases hread : model.GetRootAsSignFileRequest pkg payload 0 with
    | returned request =>
      exact ⟨_, by rw [Call_signFile, signFile_eq pkg wire (NewInstance engine) payload request hread]; rfl⟩
    | panicked =>
      rw [requestReadable_signFile, hread] at hr
      exact absurd hr (by decide)
  · cases hread : model.GetRootAsSignBytesRequest pkg payload 0 with
    | returned request =>
      exact ⟨_, by rw [Call_signBytes, signBytes_eq pkg wire (NewInstance engine) payload request hread]; rfl⟩
    | panicked =>
      rw [requestReadable_signBytes, hread] at hr
      exact absurd hr (by decide)
  · cases hread : model.GetRootAsSignBytesRequest pkg payload 0 with
    | returned request =>
      exact ⟨_, by rw [Call_signBytesToString, signBytesToString_eq pkg wire (NewInstance engine) payload request hread]; rfl⟩
    | panicked =>
      rw [requestReadable_signBytesToString, hread] at hr
      exact absurd hr (by decide)
  · cases hread : model.GetRootAsVerifyRequest pkg payload 0 with
    | returned request =>
      exact ⟨_, by rw [Call_verify, verify_eq pkg wire (NewInstance engine) payload request hread]; rfl⟩
    | panicked =>
      rw [requestReadable_verify, hread] at hr
      exact absurd hr (by decide)
  · cases hread : model.GetRootAsVerifyFileRequest pkg payload 0 with
    | returned request =>
      exact ⟨_, by rw [Call_verifyFile, verifyFile_eq pkg wire (NewInstance engine) payload request hread]; rfl⟩
    | panicked =>
      rw [requestReadable_verifyFile, hread] at hr
      exact absurd hr (by decide)
  · cases hread : model.GetRootAsVerifyBytesRequest pkg payload 0 with
    | returned request =>
      exact ⟨_, by rw [Call_verifyBytes, verifyBytes_eq pkg wire (NewInstance engine) payload request hread]; rfl⟩
    | panicked =>
      rw [requestReadable_verifyBytes, hread] at hr
      exact absurd hr (by decide)
  · cases hread : model.GetRootAsDecryptSymmetricRequest pkg payload 0 with
    | returned request =>
      exact ⟨_, by rw [Call_decryptSymmetric, decryptSymmetric_eq pkg wire (NewInstance engine) payload request hread]; rfl⟩
    | panicked =>
      rw [requestReadable_decryptSymmetric, hread] at hr
      exact absurd hr (by decide)
  · cases hread : model.GetRootAsDecryptSymmetricFileRequest pkg payload 0 with
    | returned request =>
      exact ⟨_, by rw [Call_decryptSymmetricFile, decryptSymmetricFile_eq pkg wire (NewInstance engine) payload request hread]; rfl⟩
    | panicked =>
      rw [requestReadable_decryptSymmetricFile, hread] at hr
      exact absurd hr (by decide)
  · cases hread : model.GetRootAsDecryptSymmetricBytesRequest pkg payload 0 with
    | returned request =>
      exact ⟨_, by rw [Call_decryptSymmetricBytes, decryptSymmetricBytes_eq pkg wire (NewInstance engine) payload request hread]; rfl⟩
    | panicked =>
      rw [requestReadable_decryptSymmetricBytes, hread] at hr
      exact absurd hr (by decide)
  · cases hread : model.GetRootAsEncryptSymmetricRequest pkg payload 0 with
    | returned request =>
      exact ⟨_, by rw [Call_encryptSymmetric, encryptSymmetric_eq pkg wire (NewInstance engine) payload request hread]; rfl⟩
    | panicked =>
      rw [requestReadable_encryptSymmetric, hread] at hr
      exact absurd hr (by decide)
  · cases hread : model.GetRootAsEncryptSymmetricFileRequest pkg payload 0 with
    | returned request =>
      exact ⟨_, by rw [Call_encryptSymmetricFile, encryptSymmetricFile_eq pkg wire (NewInstance engine) payload request hread]; rfl⟩
    | panicked =>
      rw [requestReadable_encryptSymmetricFile, hread] at hr
      exact absurd hr (by decide)
  · cases hread : model.GetRootAsEncryptSymmetricBytesRequest pkg payload 0 with
    | returned request =>
      exact ⟨_, by rw [Call_encryptSymmetricBytes, encryptSymmetricBytes_eq pkg wire (NewInstance engine) payload request hread]; rfl⟩
    | panicked =>
      rw [requestReadable_encryptSymmetricBytes, hread] at hr
      exact absurd hr (by decide)
  · exact absurd rfl hne
  · cases hread : model.GetRootAsArmorEncodeRequest pkg payload 0 with
    | returned request =>
      exact ⟨_, by rw [Call_armorEncode, armorEncode_eq pkg wire (NewInstance engine) payload request hread]; rfl⟩
    | panicked =>
      rw [requestReadable_armorEncode, hread] at hr
      exact absurd hr (by decide)

/-- On a request its reader cannot read, every catalog operation panics before any engine
invocation. -/
theorem Call_unread (pkg : model.Package) (wire : Wire) (engine : openpgp.FastOpenPGP)
    (name : GoString) (payload : GoBytes) (h : name ∈ catalog)
    (hr : requestReadable pkg name payload = false) :
    Call pkg wire engine name payload = { trace := [], outcome := Outcome.panicked } := by
  simp only [catalog, List.mem_cons, List.mem_singleton, List.not_mem_nil, or_false] at h
  rcases h with rfl | rfl | rfl | rfl | rfl | rfl | rfl | rfl | rfl | rfl | rfl | rfl | rfl | rfl | rfl | rfl | rfl | rfl | rfl | rfl | rfl
  · cases hread : model.GetRootAsDecryptRequest pkg payload 0 with
    | returned request =>
      rw [requestReadable_decrypt, hread] at hr
      exact Bool.noConfusion hr
    | panicked =>
      rw [Call_decrypt, decrypt_unread pkg wire (NewInstance engine) payload hread]
      rfl
  · cases hread : model.GetRootAsDecryptFileRequest pkg payload 0 with
    | returned request =>
      rw [requestReadable_decryptFile, hread] at hr
      exact Bool.noConfusion hr
    | panicked =>
      rw [Call_decryptFile, decryptFile_unread pkg wire (NewInstance engine) payload hread]
      rfl
  · cases hread : model.GetRootAsDecryptBytesRequest pkg payload 0 with
    | returned request =>
      rw [requestReadable_decryptBytes, hread] at hr
      exact Bool.noConfusion hr
    | panicked =>
      rw [Call_decryptBytes, decryptBytes_unread pkg wire (NewInstance engine) payload hread]
      rfl
  · cases hread : model.GetRootAsEncryptRequest pkg payload 0 with
    | returned request =>
      rw [requestReadable_encrypt, hread] at hr
      exact Bool.noConfusion hr
    | panicked =>
      rw [Call_encrypt, encrypt_unread pkg wire (NewInstance engine) payload hread]
      rfl
  · cases hread : model.GetRootAsEncryptFileRequest pkg payload 0 with
    | returned request =>
      rw [requestReadable_encryptFile, hread] at hr
      exact Bool.noConfusion hr
    | panicked =>
      rw [Call_encryptFile, encryptFile_unread pkg wire (NewInstance engine) payload hread]
      rfl
  · cases hread : model.GetRootAsEncryptBytesRequest pkg payload 0 with
    | returned request =>
      rw [requestReadable_encryptBytes, hread] at hr
      exact Bool.noConfusion hr
    | panicked =>
      rw [Call_encryptBytes, encryptBytes_unread pkg wire (NewInstance engine) payload hread]
      rfl
  · cases hread : model.GetRootAsSignRequest pkg payload 0 with
    | returned request =>
      rw [requestReadable_sign, hread] at hr
      exact Bool.noConfusion hr
    | panicked =>
      rw [Call_sign, sign_unread pkg wire (NewInstance engine) payload hread]
      rfl
  · cases hread : model.GetRootAsSignFileRequest pkg payload 0 with
    | returned request =>
      rw [requestReadable_signFile, hread] at hr
      exact Bool.noConfusion hr
    | panicked =>
      rw [Call_signFile, signFile_unread pkg wire (NewInstance engine) payload hread]
      rfl
  · cases hread : model.GetRootAsSignBytesRequest pkg payload 0 with
    | returned request =>
      rw [requestReadable_signBytes, hread] at hr
      exact Bool.noConfusion hr
    | panicked =>
      rw [Call_signBytes, signBytes_unread pkg wire (NewInstance engine) payload hread]
      rfl
  · cases hread : model.GetRootAsSignBytesRequest pkg payload 0 with
    | returned request =>
      rw [requestReadable_signBytesToString, hread] at hr
      exact Bool.noConfusion hr
    | panicked =>
      rw [Call_signBytesToString, signBytesToString_unread pkg wire (NewInstance engine) payload hread]
      rfl
  · cases hread : model.GetRootAsVerifyRequest pkg payload 0 with
    | returned request =>
      rw [requestReadable_verify, hread] at hr
      exact Bool.noConfusion hr
    | panicked =>
      rw [Call_verify, verify_unread pkg wire (NewInstance engine) payload hread]
      rfl
  · cases hread : model.GetRootAsVerifyFileRequest pkg payload 0 with
    | returned request =>
      rw [requestReadable_verifyFile, hread] at hr
      exact Bool.noConfusion hr
    | panicked =>
      rw [Call_verifyFile, verifyFile_unread pkg wire (NewInstance engine) payload hread]
      rfl
  · cases hread : model.GetRootAsVerifyBytesRequest pkg payload 0 with
    | returned request =>
      rw [requestReadable_verifyBytes, hread] at hr
      exact Bool.noConfusion hr
    | panicked =>
      rw [Call_verifyBytes, verifyBytes_unread pkg wire (NewInstance engine) payload hread]
      rfl
  · cases hread : model.GetRootAsDecryptSymmetricRequest pkg payload 0 with
    | returned request =>
      rw [requestReadable_decryptSymmetric, hread] at hr
      exact Bool.noConfusion hr
    | panicked =>
      rw [Call_decryptSymmetric, decryptSymmetric_unread pkg wire (NewInstance engine) payload hread]
      rfl
  · cases hread : model.GetRootAsDecryptSymmetricFileRequest pkg payload 0 with
    | returned request =>
      rw [requestReadable_decryptSymmetricFile, hread] at hr
      exact Bool.noConfusion hr
    | panicked =>
      rw [Call_decryptSymmetricFile, decryptSymmetricFile_unread pkg wire (NewInstance engine) payload hread]
      rfl
  · cases hread : model.GetRootAsDecryptSymmetricBytesRequest pkg payload 0 with
    | returned request =>
      rw [requestReadable_decryptSymmetricBytes, hread] at hr
      exact Bool.noConfusion hr
    | panicked =>
      rw [Call_decryptSymmetricBytes, decryptSymmetricBytes_unread pkg wire (NewInstance engine) payload hread]
      rfl
  · cases hread : model.GetRootAsEncryptSymmetricRequest pkg payload 0 with
    | returned request =>
      rw [requestReadable_encryptSymmetric, hread] at hr
      exact Bool.noConfusion hr
    | panicked =>
      rw [Call_encryptSymmetric, encryptSymmetric_unread pkg wire (NewInstance engine) payload hread]
      rfl
  · cases hread : model.GetRootAsEncryptSymmetricFileRequest pkg payload 0 with
    | returned request =>
      rw [requestReadable_encryptSymmetricFile, hread] at hr
      exact Bool.noConfusion hr
    | panicked =>
      rw [Call_encryptSymmetricFile, encryptSymmetricFile_unread pkg wire (NewInstance engine) payload hread]
      rfl
  · cases hread : model.GetRootAsEncryptSymmetricBytesRequest pkg payload 0 with
    | returned request =>
      rw [requestReadable_encryptSymmetricBytes, hread] at hr
      exact Bool.noConfusion hr
    | panicked =>
      rw [Call_encryptSymmetricBytes, encryptSymmetricBytes_unread pkg wire (NewInstance engine) payload hread]
      rfl
  · cases hread : model.GetRootAsGenerateRequest pkg payload 0 with
    | returned request =>
      rw [requestReadable_generate, hread] at hr
      exact Bool.noConfusion hr
    | panicked =>
      rw [Call_generate, generate_unread pkg wire (NewInstance engine) payload hread]
      rfl
  · cases hread : model.GetRootAsArmorEncodeRequest pkg payload 0 with
    | returned request =>
      rw [requestReadable_armorEncode, hread] at hr
      exact Bool.noConfusion hr
    | panicked =>
      rw [Call_armorEncode, armorEncode_unread pkg wire (NewInstance engine) payload hread]
      rfl

/-- The operation `generate` returns a response and a nil error on a request it can read,
unless the engine hands back a nil key pair together with a nil error. -/
theorem Call_generate_returns (pkg : model.Package) (wire : Wire)
    (engine : openpgp.FastOpenPGP) (payload : GoBytes) (request : model.GenerateRequest)
    (hread : model.GetRootAsGenerateRequest pkg payload 0 = Outcome.returned request)
    (hgen : ¬ ((engine.Generate ((NewInstance engine).parseOptions pkg request.Options)).1 = none ∧
      (engine.Generate ((NewInstance engine).parseOptions pkg request.Options)).2 = none)) :
    ∃ output, (Call pkg wire engine (lit "generate") payload).outcome =
      Outcome.returned (output, none) := by
  rw [Call_generate, generate_eq pkg wire (NewInstance engine) payload request hread]
  dsimp only
  have hinst : (NewInstance engine).inst = engine := rfl
  rw [hinst]
  generalize engine.Generate ((NewInstance engine).parseOptions pkg request.Options) = result
    at hgen
  obtain ⟨output, err⟩ := result
  cases err with
  | some e =>
    exact ⟨_, returnOutput_outcome _ _
      (keyPairResponse_error wire (NewInstance engine) _ output e)⟩
  | none =>
    cases output with
    | none => exact absurd ⟨rfl, rfl⟩ hgen
    | some keyPair =>
      exact ⟨_, returnOutput_outcome _ _
        (keyPairResponse_ok wire (NewInstance engine) _ keyPair)⟩

end openPGPBridge

/-! ## The claims -/

namespace openPGPBridge

open flatbuffers

/-- C1. For every operation name outside the catalog and every payload, `Call` invokes no
engine function and returns nil response bytes together with an error whose message is
"not implemented: " followed by exactly that name. -/
theorem Call_unknown_name (pkg : model.Package) (wire : Wire) (engine : openpgp.FastOpenPGP)
    (name : GoString) (payload : GoBytes) (h : name ∉ catalog) :
    Call pkg wire engine name payload =
      { trace := []
        outcome := Outcome.returned (none, some { Error := lit "not implemented: " ++ name }) } := by
  simp only [catalog, List.mem_cons, List.mem_singleton, List.not_mem_nil, or_false, not_or] at h
  obtain ⟨h1, h2, h3, h4, h5, h6, h7, h8, h9, h10, h11, h12, h13, h14, h15, h16, h17, h18,
    h19, h20, h21⟩ := h
  unfold Call
  simp only [if_neg h1, if_neg h2, if_neg h3, if_neg h4, if_neg h5, if_neg h6, if_neg h7,
    if_neg h8, if_neg h9, if_neg h10, if_neg h11, if_neg h12, if_neg h13, if_neg h14,
    if_neg h15, if_neg h16, if_neg h17, if_neg h18, if_neg h19, if_neg h20, if_neg h21]
  rfl

/-- C1 at the name "not-a-real-op", and at "Decrypt", which differs from a catalog name only
in the case of its first letter. -/
theorem Call_unknown_name_witness :
    (lit "not-a-real-op" ∉ catalog ∧
      Call Sample.pkg Sample.wire (Sample.engine none) (lit "not-a-real-op") (some [1, 2]) =
        { trace := []
          outcome := Outcome.returned
            (none, some { Error := lit "not implemented: " ++ lit "not-a-real-op" }) }) ∧
    (lit "Decrypt" ∉ catalog ∧
      Call Sample.pkg Sample.wire (Sample.engine none) (lit "Decrypt") none =
        { trace := []
          outcome := Outcome.returned
            (none, some { Error := lit "not implemented: " ++ lit "Decrypt" }) }) :=
  ⟨⟨by decide, Call_unknown_name Sample.pkg Sample.wire (Sample.engine none)
      (lit "not-a-real-op") (some [1, 2]) (by decide)⟩,
   ⟨by decide, Call_unknown_name Sample.pkg Sample.wire (Sample.engine none)
      (lit "Decrypt") none (by decide)⟩⟩

/-- C2 (counterexample). Two names of the catalog on which `Call` does not return a nil
error. On "decrypt" with a nil payload the request reader indexes the root offset of an empty
buffer and the call panics before any engine invocation. On "generate" with a readable
payload and an engine whose `Generate` returns a nil key pair and a nil error, the key-pair
encoder reads a field of the nil key pair and the call panics after the engine invocation. -/
theorem Call_catalog_panics :
    (lit "decrypt" ∈ catalog ∧
      Call Sample.pkg Sample.wire (Sample.engine none) (lit "decrypt") none =
        { trace := [], outcome := Outcome.panicked }) ∧
    (lit "generate" ∈ catalog ∧
      Call Sample.pkg Sample.wire (Sample.engine none) (lit "generate") (some [0, 0, 0, 0]) =
        { trace := [{ call := openpgp.EngineCall.Generate (some { KeyOptions := some {} }),
                      err := none }]
          outcome := Outcome.panicked }) := by
  decide

/-- C2 (as amended). For every name in the catalog and whatever pair the engine returns:
on a payload the request reader of the operation reads, `Call` returns a response and a nil
error, provided that for the name "generate" the engine does not return a nil key pair
together with a nil error; on a payload the reader cannot read, `Call` panics before any
engine invocation; and a payload shorter than the 4 octets of a root offset, the nil payload
included, cannot be read. -/
theorem Call_catalog_readable_nil_error (pkg : model.Package) (wire : Wire)
    (engine : openpgp.FastOpenPGP) (name : GoString) (payload : GoBytes)
    (h : name ∈ catalog) :
    (requestReadable pkg name payload = true →
      (name = lit "generate" → ∀ request : model.GenerateRequest,
        model.GetRootAsGenerateRequest pkg payload 0 = Outcome.returned request →
        ¬ ((engine.Generate (Spec.options pkg request.Options)).1 = none ∧
          (engine.Generate (Spec.options pkg request.Options)).2 = none)) →
      ∃ output,
        (Call pkg wire engine name payload).outcome = Outcome.returned (output, none)) ∧
    (requestReadable pkg name payload = false →
      Call pkg wire engine name payload = { trace := [], outcome := Outcome.panicked }) ∧
    ((payload.getD []).length < 4 → requestReadable pkg name payload = false) := by
  refine ⟨fun hr hgen => ?_, Call_unread pkg wire engine name payload h,
    requestReadable_short pkg name payload h⟩
  by_cases hname : name = lit "generate"
  · subst hname
    rw [requestReadable_generate] at hr
    cases hread : model.GetRootAsGenerateRequest pkg payload 0 with
    | returned request =>
      have hg := hgen rfl request hread
      rw [← parseOptions_eq_spec pkg (NewInstance engine)] at hg
      exact Call_generate_returns pkg wire engine payload request hread hg
    | panicked =>
      rw [hread] at hr
      exact Bool.noConfusion hr
  · exact Call_returns pkg wire engine name payload h hname hr

/-- C2 (as amended) at the name "generate" with an engine that fails and at the name
"verifyBytes" with an engine that succeeds, both on a readable payload, and at the name
"decrypt" on a payload of three octets. -/
theorem Call_catalog_readable_nil_error_witness :
    (lit "generate" ∈ catalog ∧
      requestReadable Sample.pkg (lit "generate") (some [0, 0, 0, 0]) = true ∧
      ∃ output, (Call Sample.pkg Sample.wire (Sample.engine (some { Error := lit "no entropy" }))
        (lit "generate") (some [0, 0, 0, 0])).outcome = Outcome.returned (output, none)) ∧
    (lit "verifyBytes" ∈ catalog ∧
      requestReadable Sample.pkg (lit "verifyBytes") (some [0, 0, 0, 0, 1, 2, 3]) = true ∧
      ∃ output, (Call Sample.pkg Sample.wire Sample.engineOK
        (lit "verifyBytes") (some [0, 0, 0, 0, 1, 2, 3])).outcome =
          Outcome.returned (output, none)) ∧
    (lit "decrypt" ∈ catalog ∧
      requestReadable Sample.pkg (lit "decrypt") (some [1, 2, 3]) = false ∧
      Call Sample.pkg Sample.wire Sample.engineOK (lit "decrypt") (some [1, 2, 3]) =
        { trace := [], outcome := Outcome.panicked }) :=
  ⟨⟨by decide, by decide,
     (Call_catalog_readable_nil_error Sample.pkg Sample.wire
       (Sample.engine (some { Error := lit "no entropy" })) (lit "generate")
       (some [0, 0, 0, 0]) (by decide)).1 (by decide)
       (fun _ _ _ hx => Option.noConfusion hx.2)⟩,
   ⟨by decide, by decide,
     (Call_catalog_readable_nil_error Sample.pkg Sample.wire Sample.engineOK
       (lit "verifyBytes") (some [0, 0, 0, 0, 1, 2, 3]) (by decide)).1 (by decide)
       (fun hname => absurd hname (by decide))⟩,
   ⟨by decide,
     (Call_catalog_readable_nil_error Sample.pkg Sample.wire Sample.engineOK
       (lit "decrypt") (some [1, 2, 3]) (by decide)).2.2 (by decide),
     (Call_catalog_readable_nil_error Sample.pkg Sample.wire Sample.engineOK
       (lit "decrypt") (some [1, 2, 3]) (by decide)).2.1 (by decide)⟩⟩

/-- C3 (counterexample). The integer encoder given 0 and a nil error, and the boolean encoder
given false and a nil error, produce a response with neither the output slot nor the error
slot: a scalar equal to its schema default is not written. The key-pair encoder given a nil
key pair and a nil error produces no response at all: it reads the public key of the nil key
pair and panics. -/
theorem encoders_zero_values_not_one_slot :
    (model.exactlyOneSlot Sample.wire ((NewInstance (Sample.engine none))._intResponse
        Sample.wire (NewBuilder 0) 0 none) = false ∧
      model.noSlot Sample.wire ((NewInstance (Sample.engine none))._intResponse
        Sample.wire (NewBuilder 0) 0 none) = true) ∧
    (model.exactlyOneSlot Sample.wire ((NewInstance (Sample.engine none))._boolResponse
        Sample.wire (NewBuilder 0) false none) = false ∧
      model.noSlot Sample.wire ((NewInstance (Sample.engine none))._boolResponse
        Sample.wire (NewBuilder 0) false none) = true) ∧
    (NewInstance (Sample.engine none))._keyPairResponse Sample.wire (NewBuilder 0) none none =
      Outcome.panicked :=
  ⟨⟨(intResponse_zero_noSlot Sample.wire Sample.wire_roundTrips
      (NewInstance (Sample.engine none)) (NewBuilder 0)).2,
    (intResponse_zero_noSlot Sample.wire Sample.wire_roundTrips
      (NewInstance (Sample.engine none)) (NewBuilder 0)).1⟩,
   ⟨(boolResponse_false_noSlot Sample.wire Sample.wire_roundTrips
      (NewInstance (Sample.engine none)) (NewBuilder 0)).2,
    (boolResponse_false_noSlot Sample.wire Sample.wire_roundTrips
      (NewInstance (Sample.engine none)) (NewBuilder 0)).1⟩,
   by decide⟩

/-- C3 (as amended). Over a readable byte layout, a response has exactly one of the output
slot and the error slot present when it is produced by the text encoder or the bytes encoder
(for every value, empty ones included, and every error or nil), by the integer encoder for an
integer other than 0 or a non-nil error, by the boolean encoder for true or a non-nil error,
and by the key-pair encoder for a non-nil key pair or a non-nil error. The integer encoder
given 0 and the boolean encoder given false, each with a nil error, produce a response with
neither slot, in which a reader finds the output 0, respectively false, and no error. -/
theorem encoders_exactly_one_slot (wire : Wire) (hw : wire.RoundTrips) (m : Instance)
    (response : Builder) (text : GoString) (bytes : GoBytes) (number : Int) (flag : Bool)
    (keyPair : Option openpgp.KeyPair) (err : Option GoError) :
    model.exactlyOneSlot wire (m._stringResponse wire response text err) = true ∧
    model.exactlyOneSlot wire (m._bytesResponse wire response bytes err) = true ∧
    ((number ≠ 0 ∨ err ≠ none) →
      model.exactlyOneSlot wire (m._intResponse wire response number err) = true) ∧
    ((flag = true ∨ err ≠ none) →
      model.exactlyOneSlot wire (m._boolResponse wire response flag err) = true) ∧
    ((keyPair = none → err ≠ none) →
      ∃ buf, m._keyPairResponse wire response keyPair err = Outcome.returned buf ∧
        model.exactlyOneSlot wire buf = true) ∧
    (model.noSlot wire (m._intResponse wire response 0 none) = true ∧
      model.GetRootAsIntResponse wire (m._intResponse wire response 0 none) =
        some { Output := 0, Error := none }) ∧
    (model.noSlot wire (m._boolResponse wire response false none) = true ∧
      model.GetRootAsBoolResponse wire (m._boolResponse wire response false none) =
        some { Output := false, Error := none }) := by
  refine ⟨stringResponse_exactlyOne wire hw m response text err,
    bytesResponse_exactlyOne wire hw m response bytes err,
    intResponse_exactlyOne wire hw m response number err,
    boolResponse_exactlyOne wire hw m response flag err, fun hk => ?_,
    ⟨(intResponse_zero_noSlot wire hw m response).1,
      intResponse_reads wire hw m response 0 none⟩,
    ⟨(boolResponse_false_noSlot wire hw m response).1,
      boolResponse_reads wire hw m response false none⟩⟩
  cases keyPair with
  | some pair => exact keyPairResponse_exactlyOne wire hw m response pair err
  | none =>
    cases err with
    | none => exact absurd rfl (hk rfl)
    | some e =>
      exact ⟨_, keyPairResponse_error wire m response none e,
        errorBuffer_exactlyOne wire hw _ _⟩

/-- C3 (as amended) at the empty text, the empty bytes, the integer 42, the boolean true and
a key pair of two empty texts, each with a nil error. -/
theorem encoders_exactly_one_slot_witness :
    Sample.wire.RoundTrips ∧
    model.exactlyOneSlot Sample.wire ((NewInstance (Sample.engine none))._stringResponse
      Sample.wire (NewBuilder 0) (lit "") none) = true ∧
    model.exactlyOneSlot Sample.wire ((NewInstance (Sample.engine none))._bytesResponse
      Sample.wire (NewBuilder 0) (some []) none) = true ∧
    model.exactlyOneSlot Sample.wire ((NewInstance (Sample.engine none))._intResponse
      Sample.wire (NewBuilder 0) 42 none) = true ∧
    model.exactlyOneSlot Sample.wire ((NewInstance (Sample.engine none))._boolResponse
      Sample.wire (NewBuilder 0) true none) = true ∧
    ∃ buf, (NewInstance (Sample.engine none))._keyPairResponse Sample.wire (NewBuilder 0)
        (some { PublicKey := lit "", PrivateKey := lit "" }) none = Outcome.returned buf ∧
      model.exactlyOneSlot Sample.wire buf = true :=
  have all := encoders_exactly_one_slot Sample.wire Sample.wire_roundTrips
    (NewInstance (Sample.engine none)) (NewBuilder 0) (lit "") (some []) 42 true
    (some { PublicKey := lit "", PrivateKey := lit "" }) none
  ⟨Sample.wire_roundTrips, all.1, all.2.1, all.2.2.1 (Or.inl (by decide)),
    all.2.2.2.1 (Or.inl rfl), all.2.2.2.2.1 (by decide)⟩

/-- C4. Over a readable byte layout and for every non-nil error `e`, each of the five
response encoders, whatever success value comes with `e` (a nil key pair included), produces
a response whose error slot holds exactly the text `e.Error()` and whose output slot is
absent. Consequently, for every catalog operation, whenever its engine invocation returns
`e`, `Call` returns a response with that text in its error slot; on a request its reader
reads, the operation makes exactly one engine invocation. -/
theorem encoders_error_slot (pkg : model.Package) (wire : Wire) (hw : wire.RoundTrips)
    (m : Instance) (response : Builder) (e : GoError) :
    (∀ output : GoString,
      model.carriesOnlyError wire (m._stringResponse wire response output (some e)) e.Error
        = true) ∧
    (∀ output : GoBytes,
      model.carriesOnlyError wire (m._bytesResponse wire response output (some e)) e.Error
        = true) ∧
    (∀ output : Int,
      model.carriesOnlyError wire (m._intResponse wire response output (some e)) e.Error
        = true) ∧
    (∀ output : Bool,
      model.carriesOnlyError wire (m._boolResponse wire response output (some e)) e.Error
        = true) ∧
    (∀ output : Option openpgp.KeyPair,
      ∃ buf, m._keyPairResponse wire response output (some e) = Outcome.returned buf ∧
        model.carriesOnlyError wire buf e.Error = true) ∧
    (∀ (engine : openpgp.FastOpenPGP) (name : GoString) (payload : GoBytes),
      name ∈ catalog →
      (∀ ev ∈ (Call pkg wire engine name payload).trace, ev.err = some e → ∃ buf,
        (Call pkg wire engine name payload).outcome = Outcome.returned (buf, none) ∧
        model.carriesOnlyError wire buf e.Error = true) ∧
      (requestReadable pkg name payload = true →
        ∃ ev, (Call pkg wire engine name payload).trace = [ev] ∧
          (ev.err = some e → ∃ buf,
            (Call pkg wire engine name payload).outcome = Outcome.returned (buf, none) ∧
            model.carriesOnlyError wire buf e.Error = true))) :=
  ⟨fun output => stringResponse_carries wire hw m response output (some e) e rfl,
   fun output => bytesResponse_carries wire hw m response output (some e) e rfl,
   fun output => intResponse_carries wire hw m response output (some e) e rfl,
   fun output => boolResponse_carries wire hw m response output (some e) e rfl,
   fun output => keyPairResponse_carries wire hw m response output (some e) e rfl,
   fun engine name payload h =>
     ⟨(Call_carries pkg wire hw engine name payload e h).1,
      fun hr =>
        match (Call_carries pkg wire hw engine name payload e h).2 hr with
        | ⟨ev, hev⟩ =>
          ⟨ev, hev, (Call_carries pkg wire hw engine name payload e h).1 ev
            (by rw [hev]; exact List.mem_singleton_self ev)⟩⟩⟩

/-- C4 at the error "bad passphrase": the key-pair encoder given a nil key pair, and `Call`
on "decrypt" with a readable payload and an engine that returns that error. -/
theorem encoders_error_slot_witness :
    Sample.wire.RoundTrips ∧
    (∃ buf, (NewInstance (Sample.engine none))._keyPairResponse Sample.wire (NewBuilder 0) none
        (some { Error := lit "bad passphrase" }) = Outcome.returned buf ∧
      model.carriesOnlyError Sample.wire buf (lit "bad passphrase") = true) ∧
    (lit "decrypt" ∈ catalog ∧
      requestReadable Sample.pkg (lit "decrypt") (some [0, 0, 0, 0, 1]) = true ∧
      ∃ ev, (Call Sample.pkg Sample.wire (Sample.engine (some { Error := lit "bad passphrase" }))
          (lit "decrypt") (some [0, 0, 0, 0, 1])).trace = [ev] ∧
        (ev.err = some { Error := lit "bad passphrase" } → ∃ buf,
          (Call Sample.pkg Sample.wire (Sample.engine (some { Error := lit "bad passphrase" }))
            (lit "decrypt") (some [0, 0, 0, 0, 1])).outcome = Outcome.returned (buf, none) ∧
          model.carriesOnlyError Sample.wire buf (lit "bad passphrase") = true)) :=
  ⟨Sample.wire_roundTrips,
   (encoders_error_slot Sample.pkg Sample.wire Sample.wire_roundTrips
     (NewInstance (Sample.engine none)) (NewBuilder 0) { Error := lit "bad passphrase" }).2.2.2.2.1
     none,
   by decide, by decide,
   ((encoders_error_slot Sample.pkg Sample.wire Sample.wire_roundTrips
     (NewInstance (Sample.engine none)) (NewBuilder 0) { Error := lit "bad passphrase" }).2.2.2.2.2
     (Sample.engine (some { Error := lit "bad passphrase" })) (lit "decrypt")
     (some [0, 0, 0, 0, 1]) (by decide)).2 (by decide)⟩

/-- C5. Over a readable byte layout, decoding the bytes `_stringResponse` produces for a text
`s` and a nil error as a text response yields an output equal to `s` and no error slot. -/
theorem stringResponse_round_trip (wire : Wire) (hw : wire.RoundTrips) (m : Instance)
    (response : Builder) (s : GoString) :
    model.GetRootAsStringResponse wire (m._stringResponse wire response s none) =
      some { Output := some s, Error := none } := by
  rw [stringResponse_ok]
  obtain ⟨h1, h2, _, _⟩ := model.textBuffer_slots response.objects s
  simp only [model.GetRootAsStringResponse, model.GetRootAsResponse,
    hw (model.textBuffer response.objects s), Option.map_some', h1, h2]

/-- C5 at the text "hello". -/
theorem stringResponse_round_trip_witness :
    Sample.wire.RoundTrips ∧
    model.GetRootAsStringResponse Sample.wire
      ((NewInstance (Sample.engine none))._stringResponse Sample.wire (NewBuilder 0)
        (lit "hello") none) = some { Output := some (lit "hello"), Error := none } :=
  ⟨Sample.wire_roundTrips,
   stringResponse_round_trip Sample.wire Sample.wire_roundTrips (NewInstance (Sample.engine none))
     (NewBuilder 0) (lit "hello")⟩

end openPGPBridge

namespace openPGPBridge

open flatbuffers

/-- C6. The option decoders are total and follow the fixed table for every enum code:
`parseHash` maps SHA224, SHA384, SHA512 to "sha224", "sha384", "sha512" and every other code
to "sha256"; `parseCipher` maps AES192, AES256 to "aes192", "aes256" and every other code to
"aes128"; `parseCompression` maps ZIP, ZLIB to "zip", "zlib" and every other code to "none".
Each result is one of the texts of its table. -/
theorem option_decoders_table (pkg : model.Package) (hd : pkg.CasesDistinct) (m : Instance)
    (hash : model.Hash) (cipher : model.Cipher) (compression : model.Compression) :
    ((hash = pkg.HashSHA224 → m.parseHash pkg hash = lit "sha224") ∧
     (hash = pkg.HashSHA384 → m.parseHash pkg hash = lit "sha384") ∧
     (hash = pkg.HashSHA512 → m.parseHash pkg hash = lit "sha512") ∧
     (hash ≠ pkg.HashSHA224 → hash ≠ pkg.HashSHA384 → hash ≠ pkg.HashSHA512 →
        m.parseHash pkg hash = lit "sha256") ∧
     m.parseHash pkg hash ∈ [lit "sha224", lit "sha384", lit "sha512", lit "sha256"]) ∧
    ((cipher = pkg.CipherAES192 → m.parseCipher pkg cipher = lit "aes192") ∧
     (cipher = pkg.CipherAES256 → m.parseCipher pkg cipher = lit "aes256") ∧
     (cipher ≠ pkg.CipherAES192 → cipher ≠ pkg.CipherAES256 →
        m.parseCipher pkg cipher = lit "aes128") ∧
     m.parseCipher pkg cipher ∈ [lit "aes192", lit "aes256", lit "aes128"]) ∧
    ((compression = pkg.CompressionZIP → m.parseCompression pkg compression = lit "zip") ∧
     (compression = pkg.CompressionZLIB → m.parseCompression pkg compression = lit "zlib") ∧
     (compression ≠ pkg.CompressionZIP → compression ≠ pkg.CompressionZLIB →
        m.parseCompression pkg compression = lit "none") ∧
     m.parseCompression pkg compression ∈ [lit "zip", lit "zlib", lit "none"]) := by
  obtain ⟨hh, hc, hz⟩ := hd
  simp only [List.nodup_cons, List.mem_cons, List.mem_singleton, List.not_mem_nil, or_false,
    not_or, List.nodup_nil, and_true, not_false_eq_true] at hh hc hz
  refine ⟨⟨?_, ?_, ?_, ?_, ?_⟩, ⟨?_, ?_, ?_, ?_⟩, ⟨?_, ?_, ?_, ?_⟩⟩
  · intro h
    simp [Instance.parseHash, h]
  · intro h
    have h1 : ¬ pkg.HashSHA384 = pkg.HashSHA224 := fun hx => hh.1.1 hx.symm
    simp [Instance.parseHash, h, h1]
  · intro h
    have h1 : ¬ pkg.HashSHA512 = pkg.HashSHA224 := fun hx => hh.1.2.1 hx.symm
    have h2 : ¬ pkg.HashSHA512 = pkg.HashSHA384 := fun hx => hh.2.1.1 hx.symm
    simp [Instance.parseHash, h, h1, h2]
  · intro h1 h2 h3
    simp [Instance.parseHash, h1, h2, h3]
  · unfold Instance.parseHash
    split_ifs <;> simp
  · intro h
    simp [Instance.parseCipher, h]
  · intro h
    have h1 : ¬ pkg.CipherAES256 = pkg.CipherAES192 := fun hx => hc.1.1 hx.symm
    simp [Instance.parseCipher, h, h1]
  · intro h1 h2
    simp [Instance.parseCipher, h1, h2]
  · unfold Instance.parseCipher
    split_ifs <;> simp
  · intro h
    simp [Instance.parseCompression, h]
  · intro h
    have h1 : ¬ pkg.CompressionZLIB = pkg.CompressionZIP := fun hx => hz.1.1 hx.symm
    simp [Instance.parseCompression, h, h1]
  · intro h1 h2
    simp [Instance.parseCompression, h1, h2]
  · unfold Instance.parseCompression
    split_ifs <;> simp

/-- C6 with the schema numbering, at the unset hash code 0, the out-of-range cipher code 99
and the compression code of ZIP. -/
theorem option_decoders_table_witness :
    Sample.pkg.CasesDistinct ∧
    (NewInstance (Sample.engine none)).parseHash Sample.pkg 0 = lit "sha256" ∧
    (NewInstance (Sample.engine none)).parseCipher Sample.pkg 99 = lit "aes128" ∧
    (NewInstance (Sample.engine none)).parseCompression Sample.pkg 2 = lit "zip" :=
  ⟨by decide,
   (option_decoders_table Sample.pkg (by decide) (NewInstance (Sample.engine none)) 0 99 2).1.2.2.2.1
     (by decide) (by decide) (by decide),
   (option_decoders_table Sample.pkg (by decide) (NewInstance (Sample.engine none)) 0 99 2).2.1.2.2.1
     (by decide) (by decide),
   (option_decoders_table Sample.pkg (by decide) (NewInstance (Sample.engine none)) 0 99 2).2.2.1
     rfl⟩

/-- C7 (counterexample). On a generate request whose `Options` is absent, the KeyOptions
forwarded to the engine has empty hash, cipher and compression texts; it is not the value
with "sha256", "aes128" and "none". -/
theorem generate_absent_options_not_spec_defaults :
    model.GetRootAsGenerateRequest Sample.pkg (some [0, 0, 0, 0]) 0 =
      Outcome.returned { Options := none } ∧
    ((NewInstance (Sample.engine none)).generate Sample.pkg Sample.wire
        (some [0, 0, 0, 0])).trace =
      [{ call := openpgp.EngineCall.Generate
                   (some { KeyOptions := some { Hash := [], Cipher := [], Compression := [],
                                                CompressionLevel := 0, RSABits := 0 } }),
         err := none }] ∧
    ((NewInstance (Sample.engine none)).generate Sample.pkg Sample.wire
        (some [0, 0, 0, 0])).trace ≠
      [{ call := openpgp.EngineCall.Generate (some { KeyOptions := some specDefaultKeyOptions }),
         err := none }] :=
  ⟨rfl, by decide, by decide⟩

/-- C7 (as amended). For every generate request that is read and whose `Options` is absent, or
present without KeyOptions, the KeyOptions that `generate` forwards to the engine is the
zero-valued one: empty hash, cipher and compression texts, compression level 0 and RSA
bits 0. -/
theorem generate_empty_options_forwards_zero (pkg : model.Package) (wire : Wire)
    (m : Instance) (payload : GoBytes) (request : model.GenerateRequest)
    (hread : model.GetRootAsGenerateRequest pkg payload 0 = Outcome.returned request)
    (h : request.Options = none ∨ ∃ o, request.Options = some o ∧ o.KeyOptions = none) :
    ∃ options err, (m.generate pkg wire payload).trace =
        [{ call := openpgp.EngineCall.Generate (some options), err := err }] ∧
      options.KeyOptions = some
        { Hash := [], Cipher := [], Compression := [], CompressionLevel := 0, RSABits := 0 } := by
  rw [generate_eq pkg wire m payload request hread]
  dsimp only
  rcases h with h | ⟨o, h, hk⟩
  · rw [h]
    exact ⟨_, _, rfl, rfl⟩
  · rw [h]
    refine ⟨_, _, rfl, ?_⟩
    show m.parseKeyOptions pkg o.KeyOptions = _
    rw [hk]
    rfl

/-- C7 (as amended) on a request with `Options` absent and on one with `Options` present
without KeyOptions. -/
theorem generate_empty_options_forwards_zero_witness :
    (model.GetRootAsGenerateRequest Sample.pkg (some [0, 0, 0, 0]) 0 =
        Outcome.returned { Options := none } ∧
      ∃ options err, ((NewInstance (Sample.engine none)).generate Sample.pkg Sample.wire
          (some [0, 0, 0, 0])).trace =
          [{ call := openpgp.EngineCall.Generate (some options), err := err }] ∧
        options.KeyOptions = some
          { Hash := [], Cipher := [], Compression := [], CompressionLevel := 0, RSABits := 0 }) ∧
    (model.GetRootAsGenerateRequest Sample.pkg (some [0, 0, 0, 0, 65]) 0 =
        Outcome.returned
          { Options := some { KeyOptions := none, Name := some [65], Comment := none,
                              Email := none, Passphrase := none } } ∧
      ∃ options err, ((NewInstance (Sample.engine none)).generate Sample.pkg Sample.wire
          (some [0, 0, 0, 0, 65])).trace =
          [{ call := openpgp.EngineCall.Generate (some options), err := err }] ∧
        options.KeyOptions = some
          { Hash := [], Cipher := [], Compression := [], CompressionLevel := 0, RSABits := 0 }) :=
  ⟨⟨rfl, generate_empty_options_forwards_zero Sample.pkg Sample.wire
      (NewInstance (Sample.engine none)) (some [0, 0, 0, 0]) _ rfl (Or.inl rfl)⟩,
   ⟨rfl, generate_empty_options_forwards_zero Sample.pkg Sample.wire
      (NewInstance (Sample.engine none)) (some [0, 0, 0, 0, 65]) _ rfl
      (Or.inr ⟨_, rfl, rfl⟩)⟩⟩

/-- C8. For each of the seven `*Bytes` operations and every byte sequence `B`: when the
message-bytes field of the request read from the payload holds `B`, the handler makes one
engine invocation, of the same-named engine function, whose message argument is the slice
holding exactly `B`. -/
theorem bytes_operations_forward_message (pkg : model.Package) (wire : Wire) (m : Instance)
    (payload : GoBytes) (B : Bytes) :
    (∀ request : model.DecryptBytesRequest, model.GetRootAsDecryptBytesRequest pkg payload 0 = Outcome.returned request →
      request.MessageBytes = some B →
      ∃ privateKey passphrase options err, (m.decryptBytes pkg wire payload).trace =
        [{ call := openpgp.EngineCall.DecryptBytes (some B) privateKey passphrase options,
           err := err }]) ∧
    (∀ request : model.EncryptBytesRequest, model.GetRootAsEncryptBytesRequest pkg payload 0 = Outcome.returned request →
      request.MessageBytes = some B →
      ∃ publicKey signed fileHints options err, (m.encryptBytes pkg wire payload).trace =
        [{ call := openpgp.EngineCall.EncryptBytes (some B) publicKey signed fileHints options,
           err := err }]) ∧
    (∀ request : model.SignBytesRequest, model.GetRootAsSignBytesRequest pkg payload 0 = Outcome.returned request →
      request.MessageBytes = some B →
      ∃ publicKey privateKey passphrase options err, (m.signBytes pkg wire payload).trace =
        [{ call := openpgp.EngineCall.SignBytes (some B) publicKey privateKey passphrase options,
           err := err }]) ∧
    (∀ request : model.SignBytesRequest, model.GetRootAsSignBytesRequest pkg payload 0 = Outcome.returned request →
      request.MessageBytes = some B →
      ∃ publicKey privateKey passphrase options err,
        (m.signBytesToString pkg wire payload).trace =
        [{ call := openpgp.EngineCall.SignBytesToString (some B) publicKey privateKey
                     passphrase options,
           err := err }]) ∧
    (∀ request : model.VerifyBytesRequest, model.GetRootAsVerifyBytesRequest pkg payload 0 = Outcome.returned request →
      request.MessageBytes = some B →
      ∃ signature publicKey err, (m.verifyBytes pkg wire payload).trace =
        [{ call := openpgp.EngineCall.VerifyBytes signature (some B) publicKey, err := err }]) ∧
    (∀ request : model.DecryptSymmetricBytesRequest, model.GetRootAsDecryptSymmetricBytesRequest pkg payload 0 = Outcome.returned request →
      request.MessageBytes = some B →
      ∃ passphrase options err, (m.decryptSymmetricBytes pkg wire payload).trace =
        [{ call := openpgp.EngineCall.DecryptSymmetricBytes (some B) passphrase options,
           err := err }]) ∧
    (∀ request : model.EncryptSymmetricBytesRequest, model.GetRootAsEncryptSymmetricBytesRequest pkg payload 0 = Outcome.returned request →
      request.MessageBytes = some B →
      ∃ passphrase fileHints options err, (m.encryptSymmetricBytes pkg wire payload).trace =
        [{ call := openpgp.EngineCall.EncryptSymmetricBytes (some B) passphrase fileHints
                     options,
           err := err }]) := by
  refine ⟨?_, ?_, ?_, ?_, ?_, ?_, ?_⟩
  · intro request hread hB
    rw [decryptBytes_eq pkg wire m payload request hread]
    dsimp only
    rw [hB]
    exact ⟨_, _, _, _, rfl⟩
  · intro request hread hB
    rw [encryptBytes_eq pkg wire m payload request hread]
    dsimp only
    rw [hB]
    exact ⟨_, _, _, _, _, rfl⟩
  · intro request hread hB
    rw [signBytes_eq pkg wire m payload request hread]
    dsimp only
    rw [hB]
    exact ⟨_, _, _, _, _, rfl⟩
  · intro request hread hB
    rw [signBytesToString_eq pkg wire m payload request hread]
    dsimp only
    rw [hB]
    exact ⟨_, _, _, _, _, rfl⟩
  · intro request hread hB
    rw [verifyBytes_eq pkg wire m payload request hread]
    dsimp only
    rw [hB]
    exact ⟨_, _, _, rfl⟩
  · intro request hread hB
    rw [decryptSymmetricBytes_eq pkg wire m payload request hread]
    dsimp only
    rw [hB]
    exact ⟨_, _, _, rfl⟩
  · intro request hread hB
    rw [encryptSymmetricBytes_eq pkg wire m payload request hread]
    dsimp only
    rw [hB]
    exact ⟨_, _, _, _, rfl⟩

end openPGPBridge

namespace openPGPBridge

open flatbuffers

/-- C8 on a payload whose message bytes, after the root offset, are 0xFF 0x00 0x80, which is
not valid UTF-8: each of the seven operations hands the engine exactly these three octets. -/
theorem bytes_operations_forward_message_witness :
    (model.GetRootAsDecryptBytesRequest Sample.pkg (some [0, 0, 0, 0, 255, 0, 128]) 0 =
        Outcome.returned { MessageBytes := some [255, 0, 128], PrivateKey := none,
                           Passphrase := none, Options := none } ∧
      model.GetRootAsEncryptBytesRequest Sample.pkg (some [0, 0, 0, 0, 255, 0, 128]) 0 =
        Outcome.returned { MessageBytes := some [255, 0, 128], PublicKey := none,
                           Signed := none, FileHints := none, Options := none } ∧
      model.GetRootAsSignBytesRequest Sample.pkg (some [0, 0, 0, 0, 255, 0, 128]) 0 =
        Outcome.returned { MessageBytes := some [255, 0, 128], PublicKey := none,
                           PrivateKey := none, Passphrase := none, Options := none } ∧
      model.GetRootAsVerifyBytesRequest Sample.pkg (some [0, 0, 0, 0, 255, 0, 128]) 0 =
        Outcome.returned { Signature := none, MessageBytes := some [255, 0, 128],
                           PublicKey := none } ∧
      model.GetRootAsDecryptSymmetricBytesRequest Sample.pkg
          (some [0, 0, 0, 0, 255, 0, 128]) 0 =
        Outcome.returned { MessageBytes := some [255, 0, 128], Passphrase := none,
                           Options := none } ∧
      model.GetRootAsEncryptSymmetricBytesRequest Sample.pkg
          (some [0, 0, 0, 0, 255, 0, 128]) 0 =
        Outcome.returned { MessageBytes := some [255, 0, 128], Passphrase := none,
                           FileHints := none, Options := none }) ∧
    (∃ privateKey passphrase options err,
      ((NewInstance (Sample.engine none)).decryptBytes Sample.pkg Sample.wire
        (some [0, 0, 0, 0, 255, 0, 128])).trace =
        [{ call := openpgp.EngineCall.DecryptBytes (some [255, 0, 128]) privateKey passphrase
                     options,
           err := err }]) ∧
    (∃ publicKey signed fileHints options err,
      ((NewInstance (Sample.engine none)).encryptBytes Sample.pkg Sample.wire
        (some [0, 0, 0, 0, 255, 0, 128])).trace =
        [{ call := openpgp.EngineCall.EncryptBytes (some [255, 0, 128]) publicKey signed
                     fileHints options,
           err := err }]) ∧
    (∃ publicKey privateKey passphrase options err,
      ((NewInstance (Sample.engine none)).signBytes Sample.pkg Sample.wire
        (some [0, 0, 0, 0, 255, 0, 128])).trace =
        [{ call := openpgp.EngineCall.SignBytes (some [255, 0, 128]) publicKey privateKey
                     passphrase options,
           err := err }]) ∧
    (∃ publicKey privateKey passphrase options err,
      ((NewInstance (Sample.engine none)).signBytesToString Sample.pkg Sample.wire
        (some [0, 0, 0, 0, 255, 0, 128])).trace =
        [{ call := openpgp.EngineCall.SignBytesToString (some [255, 0, 128]) publicKey
                     privateKey passphrase options,
           err := err }]) ∧
    (∃ signature publicKey err,
      ((NewInstance (Sample.engine none)).verifyBytes Sample.pkg Sample.wire
        (some [0, 0, 0, 0, 255, 0, 128])).trace =
        [{ call := openpgp.EngineCall.VerifyBytes signature (some [255, 0, 128]) publicKey,
           err := err }]) ∧
    (∃ passphrase options err,
      ((NewInstance (Sample.engine none)).decryptSymmetricBytes Sample.pkg Sample.wire
        (some [0, 0, 0, 0, 255, 0, 128])).trace =
        [{ call := openpgp.EngineCall.DecryptSymmetricBytes (some [255, 0, 128]) passphrase
                     options,
           err := err }]) ∧
    (∃ passphrase fileHints options err,
      ((NewInstance (Sample.engine none)).encryptSymmetricBytes Sample.pkg Sample.wire
        (some [0, 0, 0, 0, 255, 0, 128])).trace =
        [{ call := openpgp.EngineCall.EncryptSymmetricBytes (some [255, 0, 128]) passphrase
                     fileHints options,
           err := err }]) :=
  have all := bytes_operations_forward_message Sample.pkg Sample.wire
    (NewInstance (Sample.engine none)) (some [0, 0, 0, 0, 255, 0, 128]) [255, 0, 128]
  ⟨⟨rfl, rfl, rfl, rfl, rfl, rfl⟩, all.1 _ rfl rfl, all.2.1 _ rfl rfl, all.2.2.1 _ rfl rfl, all.2.2.2.1 _ rfl rfl,
   all.2.2.2.2.1 _ rfl rfl, all.2.2.2.2.2.1 _ rfl rfl, all.2.2.2.2.2.2 _ rfl rfl⟩

/-- C9. For every decrypt request that is read and whose `Passphrase` field is absent, the
handler returns a response and its one engine invocation is `Decrypt` with the empty string
as passphrase argument. In general `toString` maps a nil field to the empty string and a
present field to the string with exactly the same octets. -/
theorem decrypt_absent_passphrase (pkg : model.Package) (wire : Wire) (m : Instance)
    (payload : GoBytes) :
    (∀ request : model.DecryptRequest,
      model.GetRootAsDecryptRequest pkg payload 0 = Outcome.returned request →
      request.Passphrase = none →
      ∃ message privateKey options err buf, m.decrypt pkg wire payload =
        { trace := [{ call := openpgp.EngineCall.Decrypt message privateKey [] options,
                      err := err }]
          outcome := Outcome.returned buf }) ∧
    m.toString none = [] ∧
    ∀ bytes : Bytes, m.toString (some bytes) = bytes := by
  refine ⟨?_, rfl, fun _ => rfl⟩
  intro request hread hP
  rw [decrypt_eq pkg wire m payload request hread]
  dsimp only
  rw [hP]
  exact ⟨_, _, _, _, _, rfl⟩

/-- C9 on a request that carries only the message "hi". -/
theorem decrypt_absent_passphrase_witness :
    model.GetRootAsDecryptRequest Sample.pkg (some [0, 0, 0, 0, 104, 105]) 0 =
      Outcome.returned { Message := some [104, 105], PrivateKey := none, Passphrase := none,
                         Options := none } ∧
    ∃ message privateKey options err buf,
      (NewInstance (Sample.engine none)).decrypt Sample.pkg Sample.wire
          (some [0, 0, 0, 0, 104, 105]) =
        { trace := [{ call := openpgp.EngineCall.Decrypt message privateKey [] options,
                      err := err }]
          outcome := Outcome.returned buf } :=
  ⟨rfl, (decrypt_absent_passphrase Sample.pkg Sample.wire (NewInstance (Sample.engine none))
    (some [0, 0, 0, 0, 104, 105])).1 _ rfl rfl⟩

/-- C10 (counterexample). On an absent nested message `parseEntity` yields the nil pointer,
not an Entity with three empty texts. -/
theorem parseEntity_nil_is_nil :
    (NewInstance (Sample.engine none)).parseEntity none = none ∧
    (NewInstance (Sample.engine none)).parseEntity none ≠
      some { PublicKey := [], PrivateKey := [], Passphrase := [] } := by
  decide

/-- C10 (as amended). On an absent nested message `parseFileHints` yields a typed empty value,
a FileHints with `IsBinary` false and empty `FileName` and `ModTime`, never a nil pointer;
`parseEntity` yields the nil pointer, and yields an Entity only for a present message. -/
theorem parse_absent_nested (m : Instance) :
    m.parseFileHints none = some { IsBinary := false, FileName := [], ModTime := [] } ∧
    m.parseEntity none = none ∧
    ∀ input : model.Entity, m.parseEntity (some input) =
      some { PublicKey := m.toString input.PublicKey
             PrivateKey := m.toString input.PrivateKey
             Passphrase := m.toString input.Passphrase } :=
  ⟨rfl, rfl, fun _ => rfl⟩

end openPGPBridge

namespace openPGPBridge

open flatbuffers

/-- C11. For every catalog operation and every request its reader reads, let `result` be the
pair the same-named engine function returns on the parameters decoded from the request: a
text field as its octets (empty when absent), message bytes as they are, KeyOptions, FileHints,
the signer Entity and Options through their tables. Then `Call` makes exactly that one engine
invocation and returns, with a nil error, the bytes the encoder of the operation's response
shape produces on a fresh builder for `result`; over a readable byte layout a reader of that
shape finds in these bytes the error text alone when the error is non-nil and the result
alone otherwise. The shape is text for decrypt, encrypt, sign, signFile, signBytesToString,
decryptSymmetric, encryptSymmetric and armorEncode; bytes for decryptBytes, encryptBytes,
signBytes, decryptSymmetricBytes and encryptSymmetricBytes; integer for decryptFile,
encryptFile, decryptSymmetricFile and encryptSymmetricFile; boolean for verify, verifyFile
and verifyBytes; key-pair for generate. For generate the outcome of `Call` is the outcome of
the key-pair encoder, which returns bytes whenever the key pair or the error is non-nil. -/
theorem Call_encodes_engine_pair (pkg : model.Package) (wire : Wire) (hw : wire.RoundTrips)
    (engine : openpgp.FastOpenPGP) (payload : GoBytes) :
    (∀ (request : model.DecryptRequest) (result : GoString × Option GoError),
      model.GetRootAsDecryptRequest pkg payload 0 = Outcome.returned request →
      engine.Decrypt (Spec.text request.Message) (Spec.text request.PrivateKey)
        (Spec.text request.Passphrase) (Spec.keyOptions pkg request.Options) = result →
      Call pkg wire engine (lit "decrypt") payload =
        { trace := [{ call := openpgp.EngineCall.Decrypt (Spec.text request.Message)
                          (Spec.text request.PrivateKey) (Spec.text request.Passphrase)
                          (Spec.keyOptions pkg request.Options),
                      err := result.2 }]
          outcome := Outcome.returned
            ((NewInstance engine)._stringResponse wire (NewBuilder 0) result.1 result.2, none) } ∧
      model.GetRootAsStringResponse wire
          ((NewInstance engine)._stringResponse wire (NewBuilder 0) result.1 result.2) =
        some (Spec.textResponse result.1 result.2)) ∧
    (∀ (request : model.DecryptFileRequest) (result : Int × Option GoError),
      model.GetRootAsDecryptFileRequest pkg payload 0 = Outcome.returned request →
      engine.DecryptFile (Spec.text request.Input) (Spec.text request.Output)
        (Spec.text request.PrivateKey) (Spec.text request.Passphrase)
        (Spec.keyOptions pkg request.Options) = result →
      Call pkg wire engine (lit "decryptFile") payload =
        { trace := [{ call := openpgp.EngineCall.DecryptFile (Spec.text request.Input)
                          (Spec.text request.Output) (Spec.text request.PrivateKey)
                          (Spec.text request.Passphrase) (Spec.keyOptions pkg request.Options),
                      err := result.2 }]
          outcome := Outcome.returned
            ((NewInstance engine)._intResponse wire (NewBuilder 0) result.1 result.2, none) } ∧
      model.GetRootAsIntResponse wire
          ((NewInstance engine)._intResponse wire (NewBuilder 0) result.1 result.2) =
        some (Spec.intResponse result.1 result.2)) ∧
    (∀ (request : model.DecryptBytesRequest) (result : GoBytes × Option GoError),
      model.GetRootAsDecryptBytesRequest pkg payload 0 = Outcome.returned request →
      engine.DecryptBytes request.MessageBytes (Spec.text request.PrivateKey)
        (Spec.text request.Passphrase) (Spec.keyOptions pkg request.Options) = result →
      Call pkg wire engine (lit "decryptBytes") payload =
        { trace := [{ call := openpgp.EngineCall.DecryptBytes request.MessageBytes
                          (Spec.text request.PrivateKey) (Spec.text request.Passphrase)
                          (Spec.keyOptions pkg request.Options),
                      err := result.2 }]
          outcome := Outcome.returned
            ((NewInstance engine)._bytesResponse wire (NewBuilder 0) result.1 result.2, none) } ∧
      model.GetRootAsBytesResponse wire
          ((NewInstance engine)._bytesResponse wire (NewBuilder 0) result.1 result.2) =
        some (Spec.bytesResponse result.1 result.2)) ∧
    (∀ (request : model.EncryptRequest) (result : GoString × Option GoError),
      model.GetRootAsEncryptRequest pkg payload 0 = Outcome.returned request →
      engine.Encrypt (Spec.text request.Message) (Spec.text request.PublicKey)
        (Spec.entity request.Signed) (Spec.fileHints request.FileHints)
        (Spec.keyOptions pkg request.Options) = result →
      Call pkg wire engine (lit "encrypt") payload =
        { trace := [{ call := openpgp.EngineCall.Encrypt (Spec.text request.Message)
                          (Spec.text request.PublicKey) (Spec.entity request.Signed)
                          (Spec.fileHints request.FileHints)
                          (Spec.keyOptions pkg request.Options),
                      err := result.2 }]
          outcome := Outcome.returned
            ((NewInstance engine)._stringResponse wire (NewBuilder 0) result.1 result.2, none) } ∧
      model.GetRootAsStringResponse wire
          ((NewInstance engine)._stringResponse wire (NewBuilder 0) result.1 result.2) =
        some (Spec.textResponse result.1 result.2)) ∧
    (∀ (request : model.EncryptFileRequest) (result : Int × Option GoError),
      model.GetRootAsEncryptFileRequest pkg payload 0 = Outcome.returned request →
      engine.EncryptFile (Spec.text request.Input) (Spec.text request.Output)
        (Spec.text request.PublicKey) (Spec.entity request.Signed)
        (Spec.fileHints request.FileHints) (Spec.keyOptions pkg request.Options) = result →
      Call pkg wire engine (lit "encryptFile") payload =
        { trace := [{ call := openpgp.EngineCall.EncryptFile (Spec.text request.Input)
                          (Spec.text request.Output) (Spec.text request.PublicKey)
                          (Spec.entity request.Signed) (Spec.fileHints request.FileHints)
                          (Spec.keyOptions pkg request.Options),
                      err := result.2 }]
          outcome := Outcome.returned
            ((NewInstance engine)._intResponse wire (NewBuilder 0) result.1 result.2, none) } ∧
      model.GetRootAsIntResponse wire
          ((NewInstance engine)._intResponse wire (NewBuilder 0) result.1 result.2) =
        some (Spec.intResponse result.1 result.2)) ∧
    (∀ (request : model.EncryptBytesRequest) (result : GoBytes × Option GoError),
      model.GetRootAsEncryptBytesRequest pkg payload 0 = Outcome.returned request →
      engine.EncryptBytes request.MessageBytes (Spec.text request.PublicKey)
        (Spec.entity request.Signed) (Spec.fileHints request.FileHints)
        (Spec.keyOptions pkg request.Options) = result →
      Call pkg wire engine (lit "encryptBytes") payload =
        { trace := [{ call := openpgp.EngineCall.EncryptBytes request.MessageBytes
                          (Spec.text request.PublicKey) (Spec.entity request.Signed)
                          (Spec.fileHints request.FileHints)
                          (Spec.keyOptions pkg request.Options),
                      err := result.2 }]
          outcome := Outcome.returned
            ((NewInstance engine)._bytesResponse wire (NewBuilder 0) result.1 result.2, none) } ∧
      model.GetRootAsBytesResponse wire
          ((NewInstance engine)._bytesResponse wire (NewBuilder 0) result.1 result.2) =
        some (Spec.bytesResponse result.1 result.2)) ∧
    (∀ (request : model.SignRequest) (result : GoString × Option GoError),
      model.GetRootAsSignRequest pkg payload 0 = Outcome.returned request →
      engine.Sign (Spec.text request.Message) (Spec.text request.PublicKey)
        (Spec.text request.PrivateKey) (Spec.text request.Passphrase)
        (Spec.keyOptions pkg request.Options) = result →
      Call pkg wire engine (lit "sign") payload =
        { trace := [{ call := openpgp.EngineCall.Sign (Spec.text request.Message)
                          (Spec.text request.PublicKey) (Spec.text request.PrivateKey)
                          (Spec.text request.Passphrase) (Spec.keyOptions pkg request.Options),
                      err := result.2 }]
          outcome := Outcome.returned
            ((NewInstance engine)._stringResponse wire (NewBuilder 0) result.1 result.2, none) } ∧
      model.GetRootAsStringResponse wire
          ((NewInstance engine)._stringResponse wire (NewBuilder 0) result.1 result.2) =
        some (Spec.textResponse result.1 result.2)) ∧
    (∀ (request : model.SignFileRequest) (result : GoString × Option GoError),
      model.GetRootAsSignFileRequest pkg payload 0 = Outcome.returned request →
      engine.SignFile (Spec.text request.Input) (Spec.text request.PublicKey)
        (Spec.text request.PrivateKey) (Spec.text request.Passphrase)
        (Spec.keyOptions pkg request.Options) = result →
      Call pkg wire engine (lit "signFile") payload =
        { trace := [{ call := openpgp.EngineCall.SignFile (Spec.text request.Input)
                          (Spec.text request.PublicKey) (Spec.text request.PrivateKey)
                          (Spec.text request.Passphrase) (Spec.keyOptions pkg request.Options),
                      err := result.2 }]
          outcome := Outcome.returned
            ((NewInstance engine)._stringResponse wire (NewBuilder 0) result.1 result.2, none) } ∧
      model.GetRootAsStringResponse wire
          ((NewInstance engine)._stringResponse wire (NewBuilder 0) result.1 result.2) =
        some (Spec.textResponse result.1 result.2)) ∧
    (∀ (request : model.SignBytesRequest) (result : GoBytes × Option GoError),
      model.GetRootAsSignBytesRequest pkg payload 0 = Outcome.returned request →
      engine.SignBytes request.MessageBytes (Spec.text request.PublicKey)
        (Spec.text request.PrivateKey) (Spec.text request.Passphrase)
        (Spec.keyOptions pkg request.Options) = result →
      Call pkg wire engine (lit "signBytes") payload =
        { trace := [{ call := openpgp.EngineCall.SignBytes request.MessageBytes
                          (Spec.text request.PublicKey) (Spec.text request.PrivateKey)
                          (Spec.text request.Passphrase) (Spec.keyOptions pkg request.Options),
                      err := result.2 }]
          outcome := Outcome.returned
            ((NewInstance engine)._bytesResponse wire (NewBuilder 0) result.1 result.2, none) } ∧
      model.GetRootAsBytesResponse wire
          ((NewInstance engine)._bytesResponse wire (NewBuilder 0) result.1 result.2) =
        some (Spec.bytesResponse result.1 result.2)) ∧
    (∀ (request : model.SignBytesRequest) (result : GoString × Option GoError),
      model.GetRootAsSignBytesRequest pkg payload 0 = Outcome.returned request →
      engine.SignBytesToString request.MessageBytes (Spec.text request.PublicKey)
        (Spec.text request.PrivateKey) (Spec.text request.Passphrase)
        (Spec.keyOptions pkg request.Options) = result →
      Call pkg wire engine (lit "signBytesToString") payload =
        { trace := [{ call := openpgp.EngineCall.SignBytesToString request.MessageBytes
                          (Spec.text request.PublicKey) (Spec.text request.PrivateKey)
                          (Spec.text request.Passphrase) (Spec.keyOptions pkg request.Options),
                      err := result.2 }]
          outcome := Outcome.returned
            ((NewInstance engine)._stringResponse wire (NewBuilder 0) result.1 result.2, none) } ∧
      model.GetRootAsStringResponse wire
          ((NewInstance engine)._stringResponse wire (NewBuilder 0) result.1 result.2) =
        some (Spec.textResponse result.1 result.2)) ∧
    (∀ (request : model.VerifyRequest) (result : Bool × Option GoError),
      model.GetRootAsVerifyRequest pkg payload 0 = Outcome.returned request →
      engine.Verify (Spec.text request.Signature) (Spec.text request.Message)
        (Spec.text request.PublicKey) = result →
      Call pkg wire engine (lit "verify") payload =
        { trace := [{ call := openpgp.EngineCall.Verify (Spec.text request.Signature)
                          (Spec.text request.Message) (Spec.text request.PublicKey),
                      err := result.2 }]
          outcome := Outcome.returned
            ((NewInstance engine)._boolResponse wire (NewBuilder 0) result.1 result.2, none) } ∧
      model.GetRootAsBoolResponse wire
          ((NewInstance engine)._boolResponse wire (NewBuilder 0) result.1 result.2) =
        some (Spec.boolResponse result.1 result.2)) ∧
    (∀ (request : model.VerifyFileRequest) (result : Bool × Option GoError),
      model.GetRootAsVerifyFileRequest pkg payload 0 = Outcome.returned request →
      engine.VerifyFile (Spec.text request.Signature) (Spec.text request.Input)
        (Spec.text request.PublicKey) = result →
      Call pkg wire engine (lit "verifyFile") payload =
        { trace := [{ call := openpgp.EngineCall.VerifyFile (Spec.text request.Signature)
                          (Spec.text request.Input) (Spec.text request.PublicKey),
                      err := result.2 }]
          outcome := Outcome.returned
            ((NewInstance engine)._boolResponse wire (NewBuilder 0) result.1 result.2, none) } ∧
      model.GetRootAsBoolResponse wire
          ((NewInstance engine)._boolResponse wire (NewBuilder 0) result.1 result.2) =
        some (Spec.boolResponse result.1 result.2)) ∧
    (∀ (request : model.VerifyBytesRequest) (result : Bool × Option GoError),
      model.GetRootAsVerifyBytesRequest pkg payload 0 = Outcome.returned request →
      engine.VerifyBytes (Spec.text request.Signature) request.MessageBytes
        (Spec.text request.PublicKey) = result →
      Call pkg wire engine (lit "verifyBytes") payload =
        { trace := [{ call := openpgp.EngineCall.VerifyBytes (Spec.text request.Signature)
                          request.MessageBytes (Spec.text request.PublicKey),
                      err := result.2 }]
          outcome := Outcome.returned
            ((NewInstance engine)._boolResponse wire (NewBuilder 0) result.1 result.2, none) } ∧
      model.GetRootAsBoolResponse wire
          ((NewInstance engine)._boolResponse wire (NewBuilder 0) result.1 result.2) =
        some (Spec.boolResponse result.1 result.2)) ∧
    (∀ (request : model.DecryptSymmetricRequest) (result : GoString × Option GoError),
      model.GetRootAsDecryptSymmetricRequest pkg payload 0 = Outcome.returned request →
      engine.DecryptSymmetric (Spec.text request.Message) (Spec.text request.Passphrase)
        (Spec.keyOptions pkg request.Options) = result →
      Call pkg wire engine (lit "decryptSymmetric") payload =
        { trace := [{ call := openpgp.EngineCall.DecryptSymmetric (Spec.text request.Message)
                          (Spec.text request.Passphrase) (Spec.keyOptions pkg request.Options),
                      err := result.2 }]
          outcome := Outcome.returned
            ((NewInstance engine)._stringResponse wire (NewBuilder 0) result.1 result.2, none) } ∧
      model.GetRootAsStringResponse wire
          ((NewInstance engine)._stringResponse wire (NewBuilder 0) result.1 result.2) =
        some (Spec.textResponse result.1 result.2)) ∧
    (∀ (request : model.DecryptSymmetricFileRequest) (result : Int × Option GoError),
      model.GetRootAsDecryptSymmetricFileRequest pkg payload 0 = Outcome.returned request →
      engine.DecryptSymmetricFile (Spec.text request.Input) (Spec.text request.Output)
        (Spec.text request.Passphrase) (Spec.keyOptions pkg request.Options) = result →
      Call pkg wire engine (lit "decryptSymmetricFile") payload =
        { trace := [{ call := openpgp.EngineCall.DecryptSymmetricFile (Spec.text request.Input)
                          (Spec.text request.Output) (Spec.text request.Passphrase)
                          (Spec.keyOptions pkg request.Options),
                      err := result.2 }]
          outcome := Outcome.returned
            ((NewInstance engine)._intResponse wire (NewBuilder 0) result.1 result.2, none) } ∧
      model.GetRootAsIntResponse wire
          ((NewInstance engine)._intResponse wire (NewBuilder 0) result.1 result.2) =
        some (Spec.intResponse result.1 result.2)) ∧
    (∀ (request : model.DecryptSymmetricBytesRequest) (result : GoBytes × Option GoError),
      model.GetRootAsDecryptSymmetricBytesRequest pkg payload 0 = Outcome.returned request →
      engine.DecryptSymmetricBytes request.MessageBytes (Spec.text request.Passphrase)
        (Spec.keyOptions pkg request.Options) = result →
      Call pkg wire engine (lit "decryptSymmetricBytes") payload =
        { trace := [{ call := openpgp.EngineCall.DecryptSymmetricBytes request.MessageBytes
                          (Spec.text request.Passphrase) (Spec.keyOptions pkg request.Options),
                      err := result.2 }]
          outcome := Outcome.returned
            ((NewInstance engine)._bytesResponse wire (NewBuilder 0) result.1 result.2, none) } ∧
      model.GetRootAsBytesResponse wire
          ((NewInstance engine)._bytesResponse wire (NewBuilder 0) result.1 result.2) =
        some (Spec.bytesResponse result.1 result.2)) ∧
    (∀ (request : model.EncryptSymmetricRequest) (result : GoString × Option GoError),
      model.GetRootAsEncryptSymmetricRequest pkg payload 0 = Outcome.returned request →
      engine.EncryptSymmetric (Spec.text request.Message) (Spec.text request.Passphrase)
        (Spec.fileHints request.FileHints) (Spec.keyOptions pkg request.Options) = result →
      Call pkg wire engine (lit "encryptSymmetric") payload =
        { trace := [{ call := openpgp.EngineCall.EncryptSymmetric (Spec.text request.Message)
                          (Spec.text request.Passphrase) (Spec.fileHints request.FileHints)
                          (Spec.keyOptions pkg request.Options),
                      err := result.2 }]
          outcome := Outcome.returned
            ((NewInstance engine)._stringResponse wire (NewBuilder 0) result.1 result.2, none) } ∧
      model.GetRootAsStringResponse wire
          ((NewInstance engine)._stringResponse wire (NewBuilder 0) result.1 result.2) =
        some (Spec.textResponse result.1 result.2)) ∧
    (∀ (request : model.EncryptSymmetricFileRequest) (result : Int × Option GoError),
      model.GetRootAsEncryptSymmetricFileRequest pkg payload 0 = Outcome.returned request →
      engine.EncryptSymmetricFile (Spec.text request.Input) (Spec.text request.Output)
        (Spec.text request.Passphrase) (Spec.fileHints request.FileHints)
        (Spec.keyOptions pkg request.Options) = result →
      Call pkg wire engine (lit "encryptSymmetricFile") payload =
        { trace := [{ call := openpgp.EngineCall.EncryptSymmetricFile (Spec.text request.Input)
                          (Spec.text request.Output) (Spec.text request.Passphrase)
                          (Spec.fileHints request.FileHints)
                          (Spec.keyOptions pkg request.Options),
                      err := result.2 }]
          outcome := Outcome.returned
            ((NewInstance engine)._intResponse wire (NewBuilder 0) result.1 result.2, none) } ∧
      model.GetRootAsIntResponse wire
          ((NewInstance engine)._intResponse wire (NewBuilder 0) result.1 result.2) =
        some (Spec.intResponse result.1 result.2)) ∧
    (∀ (request : model.EncryptSymmetricBytesRequest) (result : GoBytes × Option GoError),
      model.GetRootAsEncryptSymmetricBytesRequest pkg payload 0 = Outcome.returned request →
      engine.EncryptSymmetricBytes request.MessageBytes (Spec.text request.Passphrase)
        (Spec.fileHints request.FileHints) (Spec.keyOptions pkg request.Options) = result →
      Call pkg wire engine (lit "encryptSymmetricBytes") payload =
        { trace := [{ call := openpgp.EngineCall.EncryptSymmetricBytes request.MessageBytes
                          (Spec.text request.Passphrase) (Spec.fileHints request.FileHints)
                          (Spec.keyOptions pkg request.Options),
                      err := result.2 }]
          outcome := Outcome.returned
            ((NewInstance engine)._bytesResponse wire (NewBuilder 0) result.1 result.2, none) } ∧
      model.GetRootAsBytesResponse wire
          ((NewInstance engine)._bytesResponse wire (NewBuilder 0) result.1 result.2) =
        some (Spec.bytesResponse result.1 result.2)) ∧
    (∀ (request : model.GenerateRequest) (result : Option openpgp.KeyPair × Option GoError),
      model.GetRootAsGenerateRequest pkg payload 0 = Outcome.returned request →
      engine.Generate (Spec.options pkg request.Options) = result →
      Call pkg wire engine (lit "generate") payload =
        returnOutput
          { trace := [{ call := openpgp.EngineCall.Generate (Spec.options pkg request.Options),
                        err := result.2 }]
            outcome := (NewInstance engine)._keyPairResponse wire (NewBuilder 0) result.1
              result.2 } ∧
      ((result.1 = none → result.2 ≠ none) →
        ∃ buf, (NewInstance engine)._keyPairResponse wire (NewBuilder 0) result.1 result.2 =
            Outcome.returned buf ∧
          Call pkg wire engine (lit "generate") payload =
            { trace := [{ call := openpgp.EngineCall.Generate
                              (Spec.options pkg request.Options),
                          err := result.2 }]
              outcome := Outcome.returned (buf, none) } ∧
          model.GetRootAsKeyPairResponse wire buf =
            some (Spec.keyPairResponse result.1 result.2))) ∧
    (∀ (request : model.ArmorEncodeRequest) (result : GoString × Option GoError),
      model.GetRootAsArmorEncodeRequest pkg payload 0 = Outcome.returned request →
      engine.ArmorEncode request.PacketBytes = result →
      Call pkg wire engine (lit "armorEncode") payload =
        { trace := [{ call := openpgp.EngineCall.ArmorEncode request.PacketBytes,
                      err := result.2 }]
          outcome := Outcome.returned
            ((NewInstance engine)._stringResponse wire (NewBuilder 0) result.1 result.2, none) } ∧
      model.GetRootAsStringResponse wire
          ((NewInstance engine)._stringResponse wire (NewBuilder 0) result.1 result.2) =
        some (Spec.textResponse result.1 result.2)) := by
  refine ⟨?_, ?_, ?_, ?_, ?_, ?_, ?_, ?_, ?_, ?_, ?_, ?_, ?_, ?_, ?_, ?_, ?_, ?_, ?_, ?_, ?_⟩
  · intro request result hread hres
    subst hres
    refine ⟨?_, stringResponse_reads wire hw _ _ _ _⟩
    rw [Call_decrypt, decrypt_eq pkg wire (NewInstance engine) payload request hread]
    simp only [toString_eq_spec, parseKeyOptions_eq_spec, parseFileHints_eq_spec,
      parseEntity_eq_spec, int64_eq]
    rfl
  · intro request result hread hres
    subst hres
    refine ⟨?_, intResponse_reads wire hw _ _ _ _⟩
    rw [Call_decryptFile, decryptFile_eq pkg wire (NewInstance engine) payload request hread]
    simp only [toString_eq_spec, parseKeyOptions_eq_spec, parseFileHints_eq_spec,
      parseEntity_eq_spec, int64_eq]
    rfl
  · intro request result hread hres
    subst hres
    refine ⟨?_, bytesResponse_reads wire hw _ _ _ _⟩
    rw [Call_decryptBytes, decryptBytes_eq pkg wire (NewInstance engine) payload request hread]
    simp only [toString_eq_spec, parseKeyOptions_eq_spec, parseFileHints_eq_spec,
      parseEntity_eq_spec, int64_eq]
    rfl
  · intro request result hread hres
    subst hres
    refine ⟨?_, stringResponse_reads wire hw _ _ _ _⟩
    rw [Call_encrypt, encrypt_eq pkg wire (NewInstance engine) payload request hread]
    simp only [toString_eq_spec, parseKeyOptions_eq_spec, parseFileHints_eq_spec,
      parseEntity_eq_spec, int64_eq]
    rfl
  · intro request result hread hres
    subst hres
    refine ⟨?_, intResponse_reads wire hw _ _ _ _⟩
    rw [Call_encryptFile, encryptFile_eq pkg wire (NewInstance engine) payload request hread]
    simp only [toString_eq_spec, parseKeyOptions_eq_spec, parseFileHints_eq_spec,
      parseEntity_eq_spec, int64_eq]
    rfl
  · intro request result hread hres
    subst hres
    refine ⟨?_, bytesResponse_reads wire hw _ _ _ _⟩
    rw [Call_encryptBytes, encryptBytes_eq pkg wire (NewInstance engine) payload request hread]
    simp only [toString_eq_spec, parseKeyOptions_eq_spec, parseFileHints_eq_spec,
      parseEntity_eq_spec, int64_eq]
    rfl
  · intro request result hread hres
    subst hres
    refine ⟨?_, stringResponse_reads wire hw _ _ _ _⟩
    rw [Call_sign, sign_eq pkg wire (NewInstance engine) payload request hread]
    simp only [toString_eq_spec, parseKeyOptions_eq_spec, parseFileHints_eq_spec,
      parseEntity_eq_spec, int64_eq]
    rfl
  · intro request result hread hres
    subst hres
    refine ⟨?_, stringResponse_reads wire hw _ _ _ _⟩
    rw [Call_signFile, signFile_eq pkg wire (NewInstance engine) payload request hread]
    simp only [toString_eq_spec, parseKeyOptions_eq_spec, parseFileHints_eq_spec,
      parseEntity_eq_spec, int64_eq]
    rfl
  · intro request result hread hres
    subst hres
    refine ⟨?_, bytesResponse_reads wire hw _ _ _ _⟩
    rw [Call_signBytes, signBytes_eq pkg wire (NewInstance engine) payload request hread]
    simp only [toString_eq_spec, parseKeyOptions_eq_spec, parseFileHints_eq_spec,
      parseEntity_eq_spec, int64_eq]
    rfl
  · intro request result hread hres
    subst hres
    refine ⟨?_, stringResponse_reads wire hw _ _ _ _⟩
    rw [Call_signBytesToString, signBytesToString_eq pkg wire (NewInstance engine) payload request hread]
    simp only [toString_eq_spec, parseKeyOptions_eq_spec, parseFileHints_eq_spec,
      parseEntity_eq_spec, int64_eq]
    rfl
  · intro request result hread hres
    subst hres
    refine ⟨?_, boolResponse_reads wire hw _ _ _ _⟩
    rw [Call_verify, verify_eq pkg wire (NewInstance engine) payload request hread]
    simp only [toString_eq_spec, parseKeyOptions_eq_spec, parseFileHints_eq_spec,
      parseEntity_eq_spec, int64_eq]
    rfl
  · intro request result hread hres
    subst hres
    refine ⟨?_, boolResponse_reads wire hw _ _ _ _⟩
    rw [Call_verifyFile, verifyFile_eq pkg wire (NewInstance engine) payload request hread]
    simp only [toString_eq_spec, parseKeyOptions_eq_spec, parseFileHints_eq_spec,
      parseEntity_eq_spec, int64_eq]
    rfl
  · intro request result hread hres
    subst hres
    refine ⟨?_, boolResponse_reads wire hw _ _ _ _⟩
    rw [Call_verifyBytes, verifyBytes_eq pkg wire (NewInstance engine) payload request hread]
    simp only [toString_eq_spec, parseKeyOptions_eq_spec, parseFileHints_eq_spec,
      parseEntity_eq_spec, int64_eq]
    rfl
  · intro request result hread hres
    subst hres
    refine ⟨?_, stringResponse_reads wire hw _ _ _ _⟩
    rw [Call_decryptSymmetric, decryptSymmetric_eq pkg wire (NewInstance engine) payload request hread]
    simp only [toString_eq_spec, parseKeyOptions_eq_spec, parseFileHints_eq_spec,
      parseEntity_eq_spec, int64_eq]
    rfl
  · intro request result hread hres
    subst hres
    refine ⟨?_, intResponse_reads wire hw _ _ _ _⟩
    rw [Call_decryptSymmetricFile, decryptSymmetricFile_eq pkg wire (NewInstance engine) payload request hread]
    simp only [toString_eq_spec, parseKeyOptions_eq_spec, parseFileHints_eq_spec,
      parseEntity_eq_spec, int64_eq]
    rfl
  · intro request result hread hres
    subst hres
    refine ⟨?_, bytesResponse_reads wire hw _ _ _ _⟩
    rw [Call_decryptSymmetricBytes, decryptSymmetricBytes_eq pkg wire (NewInstance engine) payload request hread]
    simp only [toString_eq_spec, parseKeyOptions_eq_spec, parseFileHints_eq_spec,
      parseEntity_eq_spec, int64_eq]
    rfl
  · intro request result hread hres
    subst hres
    refine ⟨?_, stringResponse_reads wire hw _ _ _ _⟩
    rw [Call_encryptSymmetric, encryptSymmetric_eq pkg wire (NewInstance engine) payload request hread]
    simp only [toString_eq_spec, parseKeyOptions_eq_spec, parseFileHints_eq_spec,
      parseEntity_eq_spec, int64_eq]
    rfl
  · intro request result hread hres
    subst hres
    refine ⟨?_, intResponse_reads wire hw _ _ _ _⟩
    rw [Call_encryptSymmetricFile, encryptSymmetricFile_eq pkg wire (NewInstance engine) payload request hread]
    simp only [toString_eq_spec, parseKeyOptions_eq_spec, parseFileHints_eq_spec,
      parseEntity_eq_spec, int64_eq]
    rfl
  · intro request result hread hres
    subst hres
    refine ⟨?_, bytesResponse_reads wire hw _ _ _ _⟩
    rw [Call_encryptSymmetricBytes, encryptSymmetricBytes_eq pkg wire (NewInstance engine) payload request hread]
    simp only [toString_eq_spec, parseKeyOptions_eq_spec, parseFileHints_eq_spec,
      parseEntity_eq_spec, int64_eq]
    rfl
  · intro request result hread hres
    subst hres
    have hcall : Call pkg wire engine (lit "generate") payload =
        returnOutput
          { trace := [{ call := openpgp.EngineCall.Generate (Spec.options pkg request.Options),
                        err := (engine.Generate (Spec.options pkg request.Options)).2 }]
            outcome := (NewInstance engine)._keyPairResponse wire (NewBuilder 0)
              (engine.Generate (Spec.options pkg request.Options)).1
              (engine.Generate (Spec.options pkg request.Options)).2 } := by
      rw [Call_generate, generate_eq pkg wire (NewInstance engine) payload request hread]
      simp only [parseOptions_eq_spec]
      rfl
    refine ⟨hcall, fun hne => ?_⟩
    obtain ⟨buf, hbuf, hreads⟩ :=
      keyPairResponse_reads wire hw (NewInstance engine) (NewBuilder 0) _ _ hne
    refine ⟨buf, hbuf, ?_, hreads⟩
    rw [hcall, hbuf]
    rfl
  · intro request result hread hres
    subst hres
    refine ⟨?_, stringResponse_reads wire hw _ _ _ _⟩
    rw [Call_armorEncode, armorEncode_eq pkg wire (NewInstance engine) payload request hread]
    simp only [toString_eq_spec, parseKeyOptions_eq_spec, parseFileHints_eq_spec,
      parseEntity_eq_spec, int64_eq]
    rfl

/-- C11 with an engine that succeeds: on a decryptFile request whose input is "i" the engine
returns 42 and `Call` returns the integer encoding of 42, in which a reader finds 42 and no
error; on a generate request the engine returns a key pair and a reader finds its two texts
in the bytes `Call` returns. -/
theorem Call_encodes_engine_pair_witness :
    Sample.wire.RoundTrips ∧
    (model.GetRootAsDecryptFileRequest Sample.pkg (some [0, 0, 0, 0, 105]) 0 =
        Outcome.returned { Input := some [105], Output := none, PrivateKey := none,
                           Passphrase := none, Options := none } ∧
      Sample.engineOK.DecryptFile [105] [] [] [] (some {}) = (42, none) ∧
      Call Sample.pkg Sample.wire Sample.engineOK (lit "decryptFile")
          (some [0, 0, 0, 0, 105]) =
        { trace := [{ call := openpgp.EngineCall.DecryptFile [105] [] [] [] (some {}),
                      err := none }]
          outcome := Outcome.returned
            ((NewInstance Sample.engineOK)._intResponse Sample.wire (NewBuilder 0) 42 none,
              none) } ∧
      model.GetRootAsIntResponse Sample.wire
          ((NewInstance Sample.engineOK)._intResponse Sample.wire (NewBuilder 0) 42 none) =
        some { Output := 42, Error := none }) ∧
    (model.GetRootAsGenerateRequest Sample.pkg (some [0, 0, 0, 0]) 0 =
        Outcome.returned { Options := none } ∧
      Sample.engineOK.Generate (some { KeyOptions := some {} }) =
        (some { PublicKey := lit "pub", PrivateKey := lit "priv" }, none) ∧
      ∃ buf,
        Call Sample.pkg Sample.wire Sample.engineOK (lit "generate") (some [0, 0, 0, 0]) =
          { trace := [{ call := openpgp.EngineCall.Generate (some { KeyOptions := some {} }),
                        err := none }]
            outcome := Outcome.returned (buf, none) } ∧
        model.GetRootAsKeyPairResponse Sample.wire buf =
          some { Output := some { PublicKey := some (lit "pub"),
                                  PrivateKey := some (lit "priv") }
                 Error := none }) :=
  ⟨Sample.wire_roundTrips,
   ⟨rfl, rfl,
    (Call_encodes_engine_pair Sample.pkg Sample.wire Sample.wire_roundTrips Sample.engineOK
      (some [0, 0, 0, 0, 105])).2.1
      { Input := some [105], Output := none, PrivateKey := none, Passphrase := none,
        Options := none }
      (42, none) rfl rfl⟩,
   ⟨rfl, rfl,
    match ((Call_encodes_engine_pair Sample.pkg Sample.wire Sample.wire_roundTrips
      Sample.engineOK (some [0, 0, 0, 0])).2.2.2.2.2.2.2.2.2.2.2.2.2.2.2.2.2.2.2.1
      { Options := none }
      (some { PublicKey := lit "pub", PrivateKey := lit "priv" }, none) rfl rfl).2
      (fun hx => Option.noConfusion hx) with
    | ⟨buf, _, hcall, hreads⟩ => ⟨buf, hcall, hreads⟩⟩⟩

end openPGPBridge
